import Mathlib

/-! nbd-client: request-servicing loop and connection lifecycle.

A shallow embedding of `src/main.c` (with the result codes of `src/check.h`).

The collaborators (`ggate_context_*`, `nbd_client_*`, Casper, libc) are not part
of the two source files; they are taken as parameters, bundled in `Collab`: each
is a deterministic function of the history of calls made so far.  Every call the
program makes is appended to a trace, so that theorems can speak about which
calls were made, with which arguments, and in which order.
-/

namespace NbdClient

/-! ## Result codes (`check.h`) and system constants -/

/-- `enum { SUCCESS = 0, MOREDATA = 1, FAILURE = -1, TIMEOUT = -1 }` of `check.h`. -/
def SUCCESS : Int := 0
/-- See `SUCCESS`. -/
def MOREDATA : Int := 1
/-- See `SUCCESS`. -/
def FAILURE : Int := -1
/-- See `SUCCESS`. -/
def TIMEOUT : Int := -1

/-- `<stdlib.h>`. -/
def EXIT_FAILURE : Int := 1

/-- `<errno.h>` (FreeBSD): no such device. -/
def ENXIO : Int := 6
/-- `<errno.h>` (FreeBSD): invalid argument. -/
def EINVAL : Int := 22
/-- `<errno.h>` (FreeBSD): operation not supported. -/
def EOPNOTSUPP : Int := 45
/-- `<errno.h>` (FreeBSD): operation canceled. -/
def ECANCELED : Int := 85

/-- `<sys/bio.h>` command kinds. -/
def BIO_READ : Nat := 1
/-- See `BIO_READ`. -/
def BIO_WRITE : Nat := 2
/-- See `BIO_READ`. -/
def BIO_DELETE : Nat := 3
/-- See `BIO_READ`. -/
def BIO_GETATTR : Nat := 4
/-- See `BIO_READ`. -/
def BIO_FLUSH : Nat := 5
/-- See `BIO_READ`. -/
def BIO_CMD0 : Nat := 6
/-- See `BIO_READ`. -/
def BIO_CMD1 : Nat := 7
/-- See `BIO_READ`. -/
def BIO_CMD2 : Nat := 8
/-- See `BIO_READ`. -/
def BIO_ZONE : Nat := 9

/-- `<syslog.h>` priorities. -/
def LOG_CRIT : Nat := 2
/-- See `LOG_CRIT`. -/
def LOG_ERR : Nat := 3
/-- See `LOG_CRIT`. -/
def LOG_WARNING : Nat := 4
/-- See `LOG_CRIT`. -/
def LOG_NOTICE : Nat := 5
/-- See `LOG_CRIT`. -/
def LOG_DEBUG : Nat := 7

/-- `<geom/gate/g_gate.h>`. -/
def G_GATE_VERSION : Nat := 3

/-- `enum { DEFAULT_SECTOR_SIZE = 512, DEFAULT_GGATE_FLAGS = 0 }` of `main.c`. -/
def DEFAULT_SECTOR_SIZE : Nat := 512
/-- See `DEFAULT_SECTOR_SIZE`. -/
def DEFAULT_GGATE_FLAGS : Nat := 0

/-- The two ioctl requests `main.c` issues; their numeric encoding
(`<geom/gate/g_gate.h>`) is kept symbolic. -/
inductive ggate_req where
  | G_GATE_CMD_START
  | G_GATE_CMD_DONE
  deriving DecidableEq, Repr

export ggate_req (G_GATE_CMD_START G_GATE_CMD_DONE)

/-! ## Data model -/

/-- `struct g_gate_ctl_io` of `<geom/gate/g_gate.h>`: `gctl_version`, `gctl_unit`
and `gctl_cmd` are `u_int`, `gctl_seq` is `uintptr_t`, `gctl_offset` and
`gctl_length` are `off_t`, `gctl_data` is a pointer, `gctl_error` is `int`. -/
structure g_gate_ctl_io where
  gctl_version : Nat
  gctl_unit : Nat
  gctl_seq : Nat
  gctl_cmd : Nat
  gctl_offset : Int
  gctl_length : Int
  gctl_data : Nat
  gctl_error : Int
  deriving DecidableEq, Repr

/-- `struct loop_context`; the two handles and the buffer are pointers. -/
structure loop_context where
  ggate : Nat
  nbd : Nat
  ggio : g_gate_ctl_io
  buf : Nat
  buflen : Nat
  deriving DecidableEq, Repr

/-- `struct loop_state`: the next transition to run, or one of the two terminal
values `FINISHED` (`(void *)SUCCESS`) and `FAIL` (`(void *)FAILURE`). -/
inductive loop_state where
  | SETUP
  | START
  | DO_CMD
  | RECV_HEADER
  | RECV_DATA
  | END_CMD
  | FINISHED
  | FAIL
  deriving DecidableEq, Repr

export loop_state (SETUP START DO_CMD RECV_HEADER RECV_DATA END_CMD FINISHED FAIL)

/-- One variadic argument of a `log(...)` call. -/
inductive LogArg where
  | str (s : String)
  | int (i : Int)
  | uint (n : Nat)
  /-- The string `strerror(errnum)` returns. -/
  | strerror (errnum : Int)
  /-- The string `gai_strerror(ecode)` returns. -/
  | gai_strerror (ecode : Int)
  /-- The string `strerror(errno)` returns. -/
  | strerror_errno
  deriving DecidableEq, Repr

/-- A call made by the program, with its arguments, or (ghost) the invocation of
a transition by `run_loop`. -/
inductive Event where
  | transition (st : loop_state)
  | log (priority : Nat) (fmt : String) (args : List LogArg)
  | sigaction_SIGINT
  | ggate_context_get_unit (ggate : Nat)
  | ggate_context_ioctl (ggate : Nat) (req : ggate_req) (ggio : g_gate_ctl_io)
  | ggate_context_cancel (ggate : Nat) (seq : Nat)
  | nbd_client_send_read (nbd : Nat) (seq : Nat) (offset length : Int)
  | nbd_client_send_write (nbd : Nat) (seq : Nat) (offset length : Int)
      (buflen : Nat) (buf : Nat)
  | nbd_client_send_trim (nbd : Nat) (seq : Nat) (offset length : Int)
  | nbd_client_send_flush (nbd : Nat) (seq : Nat)
  | nbd_client_recv_reply_header (nbd : Nat) (seq : Nat)
  | nbd_client_recv_reply_data (nbd : Nat) (length : Int) (buflen : Nat) (buf : Nat)
  | nbd_client_disable_trim (nbd : Nat)
  | nbd_client_set_disconnect (nbd : Nat) (flag : Bool)
  /-- The call `usage()`. -/
  | usage
  /-- A call `fprintf(stderr, fmt, ...)` of `main`. -/
  | fprintf_stderr (fmt : String) (args : List LogArg)
  | cap_init
  | cap_service_open (chan : Nat) (name : String)
  /-- The call `isatty(fileno(stderr))`. -/
  | isatty_stderr
  /-- The call `cap_openlog(chan, ident, logopt, facility)`; `ident` is `none` for
  `NULL` and the host and port that `snprintf` wrote into it otherwise. -/
  | cap_openlog (chan : Nat) (ident : Option (String × String)) (logopt facility : String)
  | ggate_load_module
  | ggate_context_alloc
  | nbd_client_alloc
  | ggate_context_init (ggate : Nat)
  | ggate_context_open (ggate : Nat)
  | nbd_client_init (nbd : Nat)
  | cap_close (chan : Nat)
  | cap_getaddrinfo (chan : Nat) (host port : String)
  | nbd_client_connect (nbd : Nat) (ai : Nat)
  | freeaddrinfo (ai : Nat)
  | close (fd : Nat)
  | caph_limit_stdio
  | caph_enter_casper
  | ggate_context_rights_limit (ggate : Nat)
  | nbd_client_rights_limit (nbd : Nat)
  | nbd_client_negotiate (nbd : Nat)
  | nbd_client_get_size (nbd : Nat)
  | ggate_context_create_device (ggate : Nat) (host port info : String)
      (size sectorsize flags : Nat)
  | daemon (nochdir noclose : Int)
  | ggate_context_destroy_device (ggate : Nat) (force : Bool)
  | nbd_client_send_disconnect (nbd : Nat)
  | nbd_client_shutdown (nbd : Nat)
  | nbd_client_close (nbd : Nat)
  | ggate_context_close (ggate : Nat)
  | nbd_client_free (nbd : Nat)
  | ggate_context_free (ggate : Nat)
  deriving DecidableEq, Repr

/-- The collaborators, as functions of the history of events so far. -/
structure Collab where
  /-- Return value of a call that returns `int` and has no out-parameter. -/
  int_call : List Event → Event → Int
  /-- Return value of a call that returns a pointer or an unsigned number (0 is
  `NULL`); for `cap_getaddrinfo`, the pointer it stores in `ai`. -/
  nat_call : List Event → Event → Nat
  /-- `ggate_context_ioctl(ggate, req, &ggio)`: return value and the contents of
  `ggio` after the call. -/
  ggate_context_ioctl : List Event → Nat → ggate_req → g_gate_ctl_io → Int × g_gate_ctl_io
  /-- `nbd_client_recv_reply_header(nbd, &seq)`: return value and the contents
  of `seq` after the call. -/
  nbd_client_recv_reply_header : List Event → Nat → Nat → Int × Nat
  /-- Whether a SIGINT has been delivered between the previous read of
  `disconnect` (the `reads`-th) and this one. -/
  sigint : List Event → Nat → Bool
  /-- `MAXPHYS` of `<sys/param.h>`, the size of `run_loop`'s buffer. -/
  MAXPHYS : Nat
  /-- Address of `run_loop`'s local `buf`. -/
  buf : Nat
  /-- `NBD_DEFAULT_PORT` of `nbd-protocol.h`. -/
  NBD_DEFAULT_PORT : String

/-- Program state outside the loop context: the trace of calls, the number of
reads of the flag so far, and `static volatile sig_atomic_t disconnect`. -/
structure Sys where
  trace : List Event
  reads : Nat
  disconnect : Bool
  deriving DecidableEq, Repr

/-! ## Primitives -/

/-- Record a call in the trace. -/
def Sys.emit (s : Sys) (e : Event) : Sys :=
  { s with trace := s.trace ++ [e] }

/-- `log(priority, fmt, ...)`, that is `cap_syslog(system_syslog$, ...)` (`check.h`). -/
def log (s : Sys) (priority : Nat) (fmt : String) (args : List LogArg) : Sys :=
  s.emit (.log priority fmt args)

/-- `signal_handler`: `disconnect = 1;`. -/
def signal_handler (s : Sys) : Sys :=
  { s with disconnect := true }

/-- A read of the volatile flag `disconnect`: a SIGINT delivered since the last
read has run `signal_handler` by now.  Returns the value read. -/
def read_disconnect (E : Collab) (s : Sys) : Bool × Sys :=
  let s1 := if E.sigint s.trace s.reads then signal_handler s else s
  (s1.disconnect, { s1 with reads := s1.reads + 1 })

/-- Conversion of a `size_t` value to the signed 64-bit `off_t`. -/
def to_off_t (n : Nat) : Int :=
  ((n : Int) + 2 ^ 63) % 2 ^ 64 - 2 ^ 63

/-- `bio_cmd_string(uint16_t cmd)`: the name of a command kind, `none` for `NULL`. -/
def bio_cmd_string (cmd : Nat) : Option String :=
  let c := cmd % 2 ^ 16
  if c = BIO_READ then some "BIO_READ"
  else if c = BIO_WRITE then some "BIO_WRITE"
  else if c = BIO_DELETE then some "BIO_DELETE"
  else if c = BIO_GETATTR then some "BIO_GETATTR"
  else if c = BIO_FLUSH then some "BIO_FLUSH"
  else if c = BIO_CMD0 then some "BIO_CMD0"
  else if c = BIO_CMD1 then some "BIO_CMD1"
  else if c = BIO_CMD2 then some "BIO_CMD2"
  else if c = BIO_ZONE then some "BIO_ZONE"
  else none

/-! ## The transitions of the request-servicing state machine -/

/-- `loop_init`. -/
def loop_init (E : Collab) (ggate nbd buf buflen : Nat) (s : Sys) :
    loop_state × loop_context × Sys :=
  let unit := E.nat_call s.trace (.ggate_context_get_unit ggate)
  let s1 := s.emit (.ggate_context_get_unit ggate)
  (SETUP,
   { ggate := ggate, nbd := nbd,
     ggio := { gctl_version := G_GATE_VERSION, gctl_unit := unit, gctl_seq := 0,
               gctl_cmd := 0, gctl_offset := 0, gctl_length := 0, gctl_data := 0,
               gctl_error := 0 },
     buf := buf, buflen := buflen },
   s1)

/-- `loop_setup`. -/
def loop_setup (ctx : loop_context) (s : Sys) : loop_state × loop_context × Sys :=
  (START,
   { ctx with ggio := { ctx.ggio with gctl_data := ctx.buf
                                      gctl_length := to_off_t ctx.buflen
                                      gctl_error := 0 } },
   s)

/-- `ggioctl`: `ggate_context_ioctl(ctx->ggate, req, &ctx->ggio)`. -/
def ggioctl (E : Collab) (ctx : loop_context) (req : ggate_req) (s : Sys) :
    Int × loop_context × Sys :=
  let r := E.ggate_context_ioctl s.trace ctx.ggate req ctx.ggio
  (r.1, { ctx with ggio := r.2 }, s.emit (.ggate_context_ioctl ctx.ggate req ctx.ggio))

/-- `loop_start`. -/
def loop_start (E : Collab) (ctx : loop_context) (s : Sys) :
    loop_state × loop_context × Sys :=
  let r := ggioctl E ctx G_GATE_CMD_START s
  let result := r.1
  let ctx1 := r.2.1
  let s1 := r.2.2
  if result = FAILURE then (FAIL, ctx1, s1)
  else if ctx1.ggio.gctl_error = SUCCESS then (DO_CMD, ctx1, s1)
  else if ctx1.ggio.gctl_error = ECANCELED then (FINISHED, ctx1, s1)
  else
    (FAIL, ctx1,
     log s1 LOG_ERR "%s: ggate control operation failed: %s"
       [.str "loop_start", .strerror ctx1.ggio.gctl_error])

/-- The call `nbdcmd` makes for a serviced command kind, `none` for the
`default` case. -/
def nbdcmd_call (ctx : loop_context) : Option Event :=
  if ctx.ggio.gctl_cmd = BIO_READ then
    some (.nbd_client_send_read ctx.nbd ctx.ggio.gctl_seq ctx.ggio.gctl_offset
      ctx.ggio.gctl_length)
  else if ctx.ggio.gctl_cmd = BIO_WRITE then
    some (.nbd_client_send_write ctx.nbd ctx.ggio.gctl_seq ctx.ggio.gctl_offset
      ctx.ggio.gctl_length ctx.buflen ctx.buf)
  else if ctx.ggio.gctl_cmd = BIO_DELETE then
    some (.nbd_client_send_trim ctx.nbd ctx.ggio.gctl_seq ctx.ggio.gctl_offset
      ctx.ggio.gctl_length)
  else if ctx.ggio.gctl_cmd = BIO_FLUSH then
    some (.nbd_client_send_flush ctx.nbd ctx.ggio.gctl_seq)
  else none

/-- `nbdcmd`. -/
def nbdcmd (E : Collab) (ctx : loop_context) (s : Sys) : Int × Sys :=
  match nbdcmd_call ctx with
  | some call => (E.int_call s.trace call, s.emit call)
  | none =>
    (EOPNOTSUPP,
     log s LOG_NOTICE "%s: unsupported operation: %d"
       [.str "nbdcmd", .uint ctx.ggio.gctl_cmd])

/-- `loop_command`. -/
def loop_command (E : Collab) (ctx : loop_context) (s : Sys) :
    loop_state × loop_context × Sys :=
  let r := nbdcmd E ctx s
  let result := r.1
  let s1 := r.2
  if result = SUCCESS then (RECV_HEADER, ctx, s1)
  else if result = EOPNOTSUPP then
    (END_CMD, { ctx with ggio := { ctx.ggio with gctl_error := EOPNOTSUPP } }, s1)
  else if result = FAILURE then
    (FAIL, ctx, log s1 LOG_ERR "%s: nbd client error" [.str "loop_command"])
  else
    (FAIL, ctx,
     log s1 LOG_ERR "%s: unhandled nbd command result: %d"
       [.str "loop_command", .int result])

/-- The `log` call by which `hdrinval` reports the command kind: by name when
`bio_cmd_string` knows one, by number otherwise. -/
def hdrinval_command_log (cmd : Nat) : Event :=
  match bio_cmd_string cmd with
  | none => .log LOG_DEBUG "\tcommand: %u (unknown)" [.uint cmd]
  | some name => .log LOG_DEBUG "\tcommand: %s" [.str name]

/-- `hdrinval`. -/
def hdrinval (ctx : loop_context) (s : Sys) : loop_state × loop_context × Sys :=
  if ctx.ggio.gctl_cmd = BIO_DELETE then
    (END_CMD, { ctx with ggio := { ctx.ggio with gctl_error := EOPNOTSUPP } },
     s.emit (.nbd_client_disable_trim ctx.nbd))
  else
    let s1 := log s LOG_ERR "%s: server rejected command request" [.str "hdrinval"]
    let s2 := s1.emit (hdrinval_command_log ctx.ggio.gctl_cmd)
    let s3 := log s2 LOG_DEBUG "\toffset: %lx (%ld)"
      [.int ctx.ggio.gctl_offset, .int ctx.ggio.gctl_offset]
    let s4 := log s3 LOG_DEBUG "\tlength: %lx (%lu)"
      [.int ctx.ggio.gctl_length, .int ctx.ggio.gctl_length]
    (FAIL, ctx, s4)

/-- `loop_recv_header`. -/
def loop_recv_header (E : Collab) (ctx : loop_context) (s : Sys) :
    loop_state × loop_context × Sys :=
  let r := E.nbd_client_recv_reply_header s.trace ctx.nbd ctx.ggio.gctl_seq
  let s1 := s.emit (.nbd_client_recv_reply_header ctx.nbd ctx.ggio.gctl_seq)
  let result := r.1
  let ctx1 := { ctx with ggio := { ctx.ggio with gctl_seq := r.2 } }
  if result = SUCCESS then
    (if ctx1.ggio.gctl_cmd = BIO_READ then RECV_DATA else END_CMD, ctx1, s1)
  else if result = EINVAL then hdrinval ctx1 s1
  else
    let d := read_disconnect E s1
    if d.1 then (FINISHED, ctx1, d.2)
    else
      (FAIL, ctx1,
       log d.2 LOG_ERR "%s: error receiving reply header" [.str "loop_recv_header"])

/-- `loop_recv_data`. -/
def loop_recv_data (E : Collab) (ctx : loop_context) (s : Sys) :
    loop_state × loop_context × Sys :=
  let call := Event.nbd_client_recv_reply_data ctx.nbd ctx.ggio.gctl_length
    ctx.buflen ctx.buf
  let result := E.int_call s.trace call
  let s1 := s.emit call
  if result = FAILURE then
    let d := read_disconnect E s1
    if d.1 then (FINISHED, ctx, d.2)
    else
      (FAIL, ctx,
       log d.2 LOG_ERR "%s: error receiving reply data" [.str "loop_recv_data"])
  else (END_CMD, ctx, s1)

/-- `loop_end_command`. -/
def loop_end_command (E : Collab) (ctx : loop_context) (s : Sys) :
    loop_state × loop_context × Sys :=
  let r := ggioctl E ctx G_GATE_CMD_DONE s
  let result := r.1
  let ctx1 := r.2.1
  let s1 := r.2.2
  if result = FAILURE then
    (FAIL, ctx1,
     log s1 LOG_ERR "%s: could not complete transaction" [.str "loop_end_command"])
  else if ctx1.ggio.gctl_error = SUCCESS ∨ ctx1.ggio.gctl_error = EOPNOTSUPP then
    (SETUP, ctx1, s1)
  else if ctx1.ggio.gctl_error = ECANCELED then (FINISHED, ctx1, s1)
  else
    (FAIL, ctx1,
     log s1 LOG_ERR "%s: ggate control operation failed: %s"
       [.str "loop_end_command", .strerror ctx1.ggio.gctl_error])

/-! ## `run_loop` -/

/-- What one pass through the body of `for (;;)` in `run_loop` does: leave
`run_loop` with a return value, or go round again with a new state. -/
inductive cycle_result where
  | ret (retval : Int) (s : Sys)
  | next (state : loop_state) (ctx : loop_context) (s : Sys)
  deriving DecidableEq, Repr

/-- `state.transition(ctx)` for the six transitions; the two terminal values are
not functions and are returned as they are. -/
def call_transition (E : Collab) (state : loop_state) (ctx : loop_context) (s : Sys) :
    loop_state × loop_context × Sys :=
  match state with
  | SETUP => loop_setup ctx s
  | START => loop_start E ctx s
  | DO_CMD => loop_command E ctx s
  | RECV_HEADER => loop_recv_header E ctx s
  | RECV_DATA => loop_recv_data E ctx s
  | END_CMD => loop_end_command E ctx s
  | FINISHED => (FINISHED, ctx, s)
  | FAIL => (FAIL, ctx, s)

/-- The body of `for (;;)` in `run_loop`, run once: the flag is read first, then
the state is dispatched on.  Leaving by `break` returns `SUCCESS` (the statement
after the loop). -/
def cycle (E : Collab) (ggate : Nat) (state : loop_state) (ctx : loop_context)
    (s : Sys) : cycle_result :=
  let d := read_disconnect E s
  if d.1 then
    let s1 := d.2.emit (.nbd_client_set_disconnect ctx.nbd true)
    let s2 := s1.emit (.ggate_context_cancel ggate ctx.ggio.gctl_seq)
    .ret SUCCESS s2
  else
    match state with
    | FINISHED => .ret SUCCESS d.2
    | FAIL => .ret FAILURE (d.2.emit (.ggate_context_cancel ggate ctx.ggio.gctl_seq))
    | st =>
      let r := call_transition E st ctx (d.2.emit (.transition st))
      .next r.1 r.2.1 r.2.2

/-- The `for (;;)` loop of `run_loop`, for at most `fuel` passes; `none` when
the loop is still running after that many. -/
def run_loop_from (E : Collab) (ggate : Nat) :
    Nat → loop_state → loop_context → Sys → Option (Int × Sys)
  | 0, _, _, _ => none
  | fuel + 1, state, ctx, s =>
    match cycle E ggate state ctx s with
    | .ret retval s1 => some (retval, s1)
    | .next state1 ctx1 s1 => run_loop_from E ggate fuel state1 ctx1 s1

/-- `run_loop`. -/
def run_loop (E : Collab) (fuel : Nat) (ggate nbd : Nat) (s : Sys) : Option (Int × Sys) :=
  let result := E.int_call s.trace .sigaction_SIGINT
  let s1 := s.emit .sigaction_SIGINT
  if result = FAILURE then
    some (FAILURE,
      log s1 LOG_ERR "%s: failed to install signal handler: %m" [.str "run_loop"])
  else
    let r := loop_init E ggate nbd E.buf E.MAXPHYS s1
    run_loop_from E ggate fuel r.1 r.2.1 r.2.2

/-! ## `main` -/

/-- `main` from the label `cleanup` on. -/
def main_cleanup (ggate nbd : Nat) (retval : Int) (s : Sys) : Int × Sys :=
  let s1 := s.emit (.nbd_client_free nbd)
  let s2 := s1.emit (.ggate_context_free ggate)
  if retval ≠ SUCCESS then
    (retval, log s2 LOG_CRIT "%s: device connection failed" [.str "main"])
  else (retval, s2)

/-- `main` from the label `close` on. -/
def main_close (ggate nbd : Nat) (retval : Int) (s : Sys) : Int × Sys :=
  let s1 := s.emit (.nbd_client_close nbd)
  let s2 := s1.emit (.ggate_context_close ggate)
  main_cleanup ggate nbd retval s2

/-- `main` from the label `disconnect` on. -/
def main_disconnect (E : Collab) (ggate nbd : Nat) (retval : Int) (s : Sys) : Int × Sys :=
  let r := E.int_call s.trace (.nbd_client_send_disconnect nbd)
  let s1 := s.emit (.nbd_client_send_disconnect nbd)
  let retval1 := if r = FAILURE then FAILURE else retval
  let s2 := s1.emit (.nbd_client_shutdown nbd)
  main_close ggate nbd retval1 s2

/-- `main` from the label `destroy` on. -/
def main_destroy (E : Collab) (ggate nbd : Nat) (retval : Int) (s : Sys) : Int × Sys :=
  let s1 := s.emit (.ggate_context_cancel ggate 0)
  let s2 := s1.emit (.ggate_context_destroy_device ggate true)
  main_disconnect E ggate nbd retval s2

/-- `main` from `retval = run_loop(ggate, nbd);` on. -/
def main_serve (E : Collab) (fuel : Nat) (ggate nbd : Nat) (s : Sys) :
    Option (Int × Sys) :=
  match run_loop E fuel ggate nbd s with
  | none => none
  | some (retval, s1) =>
    let d := read_disconnect E s1
    let s2 := if d.1 then log d.2 LOG_WARNING "%s: interrupted" [.str "main"] else d.2
    some (main_destroy E ggate nbd retval s2)

/-- `main` from `if (daemonize)` on. -/
def main_daemonize (E : Collab) (fuel : Nat) (daemonize : Bool) (ggate nbd : Nat)
    (s : Sys) : Option (Int × Sys) :=
  if daemonize then
    let r := E.int_call s.trace (.daemon 0 0)
    let s1 := s.emit (.daemon 0 0)
    if r = FAILURE then
      some (main_close ggate nbd EXIT_FAILURE
        (log s1 LOG_ERR "%s: failed to daemonize: %m" [.str "main"]))
    else main_serve E fuel ggate nbd s1
  else main_serve E fuel ggate nbd s

/-- `main` from `size = nbd_client_get_size(nbd);` on. -/
def main_create_device (E : Collab) (fuel : Nat) (daemonize : Bool) (host port : String)
    (ggate nbd : Nat) (s : Sys) : Option (Int × Sys) :=
  let size := E.nat_call s.trace (.nbd_client_get_size nbd)
  let s1 := s.emit (.nbd_client_get_size nbd)
  let call := Event.ggate_context_create_device ggate host port "" size
    DEFAULT_SECTOR_SIZE DEFAULT_GGATE_FLAGS
  let r := E.int_call s1.trace call
  let s2 := s1.emit call
  if r = FAILURE then
    some (main_destroy E ggate nbd EXIT_FAILURE
      (log s2 LOG_ERR "%s:failed to create ggate device" [.str "main"]))
  else main_daemonize E fuel daemonize ggate nbd s2

/-- `main` from `if (nbd_client_negotiate(nbd) == FAILURE)` on. -/
def main_negotiate (E : Collab) (fuel : Nat) (daemonize : Bool) (host port : String)
    (ggate nbd : Nat) (s : Sys) : Option (Int × Sys) :=
  let r := E.int_call s.trace (.nbd_client_negotiate nbd)
  let s1 := s.emit (.nbd_client_negotiate nbd)
  if r = FAILURE then
    some (main_disconnect E ggate nbd EXIT_FAILURE
      (log s1 LOG_ERR "%s: failed to negotiate options" [.str "main"]))
  else main_create_device E fuel daemonize host port ggate nbd s1

/-- `main` from `close(0);` on: the four restrictions are tried in order and
the first failure ends the attempt (`||`). -/
def main_restrict (E : Collab) (fuel : Nat) (daemonize : Bool) (host port : String)
    (ggate nbd : Nat) (s : Sys) : Option (Int × Sys) :=
  let s0 := s.emit (.close 0)
  let r1 := E.int_call s0.trace .caph_limit_stdio
  let s1 := s0.emit .caph_limit_stdio
  if r1 = FAILURE then some (main_disconnect E ggate nbd EXIT_FAILURE s1)
  else
    let r2 := E.int_call s1.trace .caph_enter_casper
    let s2 := s1.emit .caph_enter_casper
    if r2 = FAILURE then some (main_disconnect E ggate nbd EXIT_FAILURE s2)
    else
      let r3 := E.int_call s2.trace (.ggate_context_rights_limit ggate)
      let s3 := s2.emit (.ggate_context_rights_limit ggate)
      if r3 = FAILURE then some (main_disconnect E ggate nbd EXIT_FAILURE s3)
      else
        let r4 := E.int_call s3.trace (.nbd_client_rights_limit nbd)
        let s4 := s3.emit (.nbd_client_rights_limit nbd)
        if r4 = FAILURE then some (main_disconnect E ggate nbd EXIT_FAILURE s4)
        else main_negotiate E fuel daemonize host port ggate nbd s4

/-- `main` from `result = nbd_client_connect(nbd, ai);` on. -/
def main_connect (E : Collab) (fuel : Nat) (daemonize : Bool) (host port : String)
    (ggate nbd ai : Nat) (s : Sys) : Option (Int × Sys) :=
  let result := E.int_call s.trace (.nbd_client_connect nbd ai)
  let s1 := s.emit (.nbd_client_connect nbd ai)
  let s2 := s1.emit (.freeaddrinfo ai)
  if result = FAILURE then
    some (main_close ggate nbd EXIT_FAILURE
      (log s2 LOG_ERR "%s: failed to connect to server (%s:%s)"
        [.str "main", .str host, .str port]))
  else main_restrict E fuel daemonize host port ggate nbd s2

/-- `main` from `memset(&hints, 0, sizeof hints);` on. -/
def main_lookup (E : Collab) (fuel : Nat) (daemonize : Bool) (host port : String)
    (ggate nbd system_dns : Nat) (s : Sys) : Option (Int × Sys) :=
  let call := Event.cap_getaddrinfo system_dns host port
  let result := E.int_call s.trace call
  let ai := E.nat_call s.trace call
  let s1 := s.emit call
  let s2 := s1.emit (.cap_close system_dns)
  if result ≠ SUCCESS then
    some (main_close ggate nbd EXIT_FAILURE
      (log s2 LOG_ERR "%s: failed to lookup address (%s:%s): %s"
        [.str "main", .str host, .str port, .gai_strerror result]))
  else main_connect E fuel daemonize host port ggate nbd ai s2

/-- `main` from `system_dns$ = cap_service_open(system$, "system.dns");` on. -/
def main_dns (E : Collab) (fuel : Nat) (daemonize : Bool) (host port : String)
    (system ggate nbd : Nat) (s : Sys) : Option (Int × Sys) :=
  let system_dns := E.nat_call s.trace (.cap_service_open system "system.dns")
  let s1 := s.emit (.cap_service_open system "system.dns")
  let s2 := s1.emit (.cap_close system)
  if system_dns = 0 then
    some (main_close ggate nbd EXIT_FAILURE
      (log s2 LOG_ERR "%s: failed to open system.dns service: %m" [.str "main"]))
  else main_lookup E fuel daemonize host port ggate nbd system_dns s2

/-- `main` from `if (nbd_client_init(nbd) == FAILURE)` on. -/
def main_socket (E : Collab) (fuel : Nat) (daemonize : Bool) (host port : String)
    (system ggate nbd : Nat) (s : Sys) : Option (Int × Sys) :=
  let r := E.int_call s.trace (.nbd_client_init nbd)
  let s1 := s.emit (.nbd_client_init nbd)
  if r = FAILURE then
    some (main_close ggate nbd EXIT_FAILURE
      (log s1 LOG_ERR "%s: cannot create socket" [.str "main"]))
  else main_dns E fuel daemonize host port system ggate nbd s1

/-- `main` from `ggate_context_init(ggate);` on. -/
def main_open (E : Collab) (fuel : Nat) (daemonize : Bool) (host port : String)
    (system ggate nbd : Nat) (s : Sys) : Option (Int × Sys) :=
  let s0 := s.emit (.ggate_context_init ggate)
  let r := E.int_call s0.trace (.ggate_context_open ggate)
  let s1 := s0.emit (.ggate_context_open ggate)
  if r = FAILURE then
    some (main_close ggate nbd EXIT_FAILURE
      (log s1 LOG_ERR "%s: cannot open ggate context" [.str "main"]))
  else main_socket E fuel daemonize host port system ggate nbd s1

/-- `main` from `ggate = ggate_context_alloc();` on. -/
def main_alloc (E : Collab) (fuel : Nat) (daemonize : Bool) (host port : String)
    (system : Nat) (s : Sys) : Option (Int × Sys) :=
  let ggate := E.nat_call s.trace .ggate_context_alloc
  let s1 := s.emit .ggate_context_alloc
  let nbd := E.nat_call s1.trace .nbd_client_alloc
  let s2 := s1.emit .nbd_client_alloc
  if ggate = 0 ∨ nbd = 0 then some (main_cleanup ggate nbd EXIT_FAILURE s2)
  else main_open E fuel daemonize host port system ggate nbd s2

/-- The `getopt` loop of `main` over the option characters `getopt` returns:
the value of `daemonize` after it, `none` when an option other than `f` made
`main` print the usage and return. -/
def main_options : List Char → Bool → Option Bool
  | [], daemonize => some daemonize
  | c :: rest, _ =>
    if c = 'f' then main_options rest false else none

/-- `main`, from `system$ = cap_init();` on, for the operands `host` and `port`. -/
def main_casper (E : Collab) (fuel : Nat) (daemonize : Bool) (host port : String)
    (s : Sys) : Option (Int × Sys) :=
  let system := E.nat_call s.trace .cap_init
  let s1 := s.emit .cap_init
  if system = 0 then
    some (EXIT_FAILURE,
      s1.emit (.fprintf_stderr "%s: failed to initialize Casper: %s\n"
        [.str "main", .strerror_errno]))
  else
    let system_syslog := E.nat_call s1.trace (.cap_service_open system "system.syslog")
    let s2 := s1.emit (.cap_service_open system "system.syslog")
    if system_syslog = 0 then
      some (EXIT_FAILURE,
        s2.emit (.fprintf_stderr "%s: failed to open system.syslog service: %s\n"
          [.str "main", .strerror_errno]))
    else
      let tty := E.int_call s2.trace .isatty_stderr
      let s3 := s2.emit .isatty_stderr
      let s4 :=
        if tty ≠ 0 then
          s3.emit (.cap_openlog system_syslog none "LOG_NDELAY | LOG_PERROR" "LOG_USER")
        else
          s3.emit (.cap_openlog system_syslog (some (host, port))
            "LOG_NDELAY | LOG_CONS | LOG_PID" "LOG_DAEMON")
      let r := E.int_call s4.trace .ggate_load_module
      let s5 := s4.emit .ggate_load_module
      if r = FAILURE then some (EXIT_FAILURE, s5)
      else main_alloc E fuel daemonize host port system s5

/-- `main`: `opts` are the option characters `getopt` returns in turn, `operands`
the arguments left after them. -/
def main (E : Collab) (fuel : Nat) (opts : List Char) (operands : List String)
    (s : Sys) : Option (Int × Sys) :=
  match main_options opts true with
  | none => some (EXIT_FAILURE, s.emit .usage)
  | some daemonize =>
    match operands with
    | [host] => main_casper E fuel daemonize host E.NBD_DEFAULT_PORT s
    | [host, port] => main_casper E fuel daemonize host port s
    | _ => some (EXIT_FAILURE, s.emit .usage)

/-- The first `n` passes through the body of `for (;;)`: the return of
`run_loop` if it left the loop within them, the state reached otherwise. -/
def run_cycles (E : Collab) (ggate : Nat) :
    Nat → loop_state → loop_context → Sys → cycle_result
  | 0, state, ctx, s => .next state ctx s
  | n + 1, state, ctx, s =>
    match cycle E ggate state ctx s with
    | .ret retval s1 => .ret retval s1
    | .next state1 ctx1 s1 => run_cycles E ggate n state1 ctx1 s1

/-! ## Observations on traces -/

/-- The transition an event records, if it is the invocation of one. -/
def Event.transition_of : Event → Option loop_state
  | .transition st => some st
  | _ => none

/-- The transitions `run_loop` invoked, in order. -/
def transitions_of (l : List Event) : List loop_state :=
  l.filterMap Event.transition_of

/-- The request an event submits, if it is a `G_GATE_CMD_DONE` ioctl. -/
def Event.done_of : Event → Option g_gate_ctl_io
  | .ggate_context_ioctl _ G_GATE_CMD_DONE g => some g
  | _ => none

/-- The sequence values submitted in `G_GATE_CMD_DONE` ioctls, in order. -/
def done_seqs (l : List Event) : List Nat :=
  (l.filterMap Event.done_of).map (·.gctl_seq)

/-- The error codes submitted in `G_GATE_CMD_DONE` ioctls, in order. -/
def done_errors (l : List Event) : List Int :=
  (l.filterMap Event.done_of).map (·.gctl_error)

/-- The byte length and the buffer capacity an event passes, if it is a call of
`nbd_client_recv_reply_data`. -/
def Event.data_of : Event → Option (Int × Nat)
  | .nbd_client_recv_reply_data _ length buflen _ => some (length, buflen)
  | _ => none

/-- The byte length and the buffer capacity passed in each call of
`nbd_client_recv_reply_data`, in order. -/
def data_lengths (l : List Event) : List (Int × Nat) :=
  l.filterMap Event.data_of

/-- The state a run of passes ended in, `none` if `run_loop` returned. -/
def cycle_result.state : cycle_result → Option loop_state
  | .ret _ _ => none
  | .next st _ _ => some st

/-- The trace at the end of a run of passes. -/
def cycle_result.trace : cycle_result → List Event
  | .ret _ s => s.trace
  | .next _ _ s => s.trace

/-- The command kinds `nbdcmd` forwards to the session. -/
def serviced (cmd : Nat) : Prop :=
  cmd = BIO_READ ∨ cmd = BIO_WRITE ∨ cmd = BIO_DELETE ∨ cmd = BIO_FLUSH

instance (cmd : Nat) : Decidable (serviced cmd) := by
  unfold serviced; infer_instance

/-! ### The history of one request, from `SETUP`

The events of a pass that starts in `SETUP` with context `ctx` and trace
`s.trace`, in which the device hands out the request `g1` at
`G_GATE_CMD_START`. -/

/-- The request as `loop_setup` leaves it for the device. -/
def setup_ggio (ctx : loop_context) : g_gate_ctl_io :=
  { ctx.ggio with gctl_data := ctx.buf
                  gctl_length := to_off_t ctx.buflen
                  gctl_error := 0 }

/-- History when the `G_GATE_CMD_START` ioctl is issued. -/
def hist_start (s : Sys) : List Event :=
  s.trace ++ [.transition SETUP, .transition START]

/-- The `G_GATE_CMD_START` ioctl. -/
def ev_start (ctx : loop_context) : Event :=
  .ggate_context_ioctl ctx.ggate G_GATE_CMD_START (setup_ggio ctx)

/-- History when `nbdcmd` makes its call. -/
def hist_command (ctx : loop_context) (s : Sys) : List Event :=
  hist_start s ++ [ev_start ctx, .transition DO_CMD]

/-- History when `nbd_client_recv_reply_header` is called. -/
def hist_header (ctx : loop_context) (s : Sys) (g1 : g_gate_ctl_io) : List Event :=
  hist_command ctx s ++ (nbdcmd_call { ctx with ggio := g1 }).toList ++
    [.transition RECV_HEADER]

/-- The call of `nbd_client_recv_reply_header`. -/
def ev_header (ctx : loop_context) (g1 : g_gate_ctl_io) : Event :=
  .nbd_client_recv_reply_header ctx.nbd g1.gctl_seq

/-- History when `nbd_client_recv_reply_data` is called (read requests). -/
def hist_data (ctx : loop_context) (s : Sys) (g1 : g_gate_ctl_io) : List Event :=
  hist_header ctx s g1 ++ [ev_header ctx g1, .transition RECV_DATA]

/-- The call of `nbd_client_recv_reply_data`. -/
def ev_data (ctx : loop_context) (g1 : g_gate_ctl_io) : Event :=
  .nbd_client_recv_reply_data ctx.nbd g1.gctl_length ctx.buflen ctx.buf

/-- History when the `G_GATE_CMD_DONE` ioctl is issued after a successful
reply: the data step is there for read requests only. -/
def hist_done (ctx : loop_context) (s : Sys) (g1 : g_gate_ctl_io) : List Event :=
  if g1.gctl_cmd = BIO_READ then
    hist_data ctx s g1 ++ [ev_data ctx g1, .transition END_CMD]
  else
    hist_header ctx s g1 ++ [ev_header ctx g1, .transition END_CMD]

/-- The `G_GATE_CMD_DONE` ioctl submitting `g`. -/
def ev_done (ctx : loop_context) (g : g_gate_ctl_io) : Event :=
  .ggate_context_ioctl ctx.ggate G_GATE_CMD_DONE g

/-- The request as `hdrinval` leaves it for a rejected delete: the sequence the
reply header carried and the error `EOPNOTSUPP`. -/
def rejected_ggio (g1 : g_gate_ctl_io) (seq2 : Nat) : g_gate_ctl_io :=
  { g1 with gctl_seq := seq2, gctl_error := EOPNOTSUPP }

/-- History after `hdrinval` has handled a rejected delete. -/
def hist_rejected (ctx : loop_context) (s : Sys) (g1 : g_gate_ctl_io) : List Event :=
  hist_header ctx s g1 ++ [ev_header ctx g1, .nbd_client_disable_trim ctx.nbd]

/-- Number of passes one request takes: six for a read, five otherwise. -/
def passes (cmd : Nat) : Nat :=
  if cmd = BIO_READ then 6 else 5

/-- Whether an event is one of the four `nbd_client_send_*` command calls. -/
def Event.is_send : Event → Bool
  | .nbd_client_send_read .. => true
  | .nbd_client_send_write .. => true
  | .nbd_client_send_trim .. => true
  | .nbd_client_send_flush .. => true
  | _ => false

/-- Whether an event is a `log(...)` call. -/
def Event.is_log : Event → Bool
  | .log .. => true
  | _ => false

/-- Whether an event is one of the release steps of `main`'s teardown: the
device cancel and destroy, the disconnect notice and the shutdown, the two
closes, the two frees. -/
def Event.is_release : Event → Bool
  | .ggate_context_cancel .. => true
  | .ggate_context_destroy_device .. => true
  | .nbd_client_send_disconnect .. => true
  | .nbd_client_shutdown .. => true
  | .nbd_client_close .. => true
  | .ggate_context_close .. => true
  | .nbd_client_free .. => true
  | .ggate_context_free .. => true
  | _ => false

/-- The events a step added: the trace after it, without the trace before it. -/
def added (before after : Sys) : List Event :=
  after.trace.drop before.trace.length

/-- The release steps the rest of `main` ran from the state `s` on, in order;
`none` if it did not return. -/
def teardown_of (s : Sys) (r : Option (Int × Sys)) : Option (List Event) :=
  r.map fun x => (added s x.2).filter Event.is_release

/-- The release steps from the label `cleanup` on. -/
def release_from_cleanup (ggate nbd : Nat) : List Event :=
  [.nbd_client_free nbd, .ggate_context_free ggate]

/-- The release steps from the label `close` on. -/
def release_from_close (ggate nbd : Nat) : List Event :=
  [.nbd_client_close nbd, .ggate_context_close ggate] ++ release_from_cleanup ggate nbd

/-- The release steps from the label `disconnect` on. -/
def release_from_disconnect (ggate nbd : Nat) : List Event :=
  [.nbd_client_send_disconnect nbd, .nbd_client_shutdown nbd] ++
    release_from_close ggate nbd

/-- The release steps from the label `destroy` on. -/
def release_from_destroy (ggate nbd : Nat) : List Event :=
  [.ggate_context_cancel ggate 0, .ggate_context_destroy_device ggate true] ++
    release_from_disconnect ggate nbd

/-- The value of `retval` after the disconnect notice was sent at history `tr`:
`FAILURE` when `nbd_client_send_disconnect` failed, unchanged otherwise. -/
def retval_after_disconnect (E : Collab) (tr : List Event) (nbd : Nat) (retval : Int) :
    Int :=
  if E.int_call tr (.nbd_client_send_disconnect nbd) = FAILURE then FAILURE else retval

/-- The final diagnostic of `main`, logged when `retval != SUCCESS`. -/
def final_diagnostic (retval : Int) : List Event :=
  if retval ≠ SUCCESS then
    [.log LOG_CRIT "%s: device connection failed" [.str "main"]]
  else []

/-! ## Concrete environments and inputs -/

/-- An environment in which every call succeeds, nothing is written through
out-parameters and no signal arrives. -/
def env_quiet : Collab where
  int_call := fun _ _ => 0
  nat_call := fun _ _ => 0
  ggate_context_ioctl := fun _ _ _ g => (0, g)
  nbd_client_recv_reply_header := fun _ _ seq => (0, seq)
  sigint := fun _ _ => false
  MAXPHYS := 131072
  buf := 4096
  NBD_DEFAULT_PORT := "10809"

/-- An environment for `main`: the calls in `fails` return `FAILURE`, every other
`int` call returns 0; the allocations return the handles 1 (ggate) and 2 (nbd),
Casper the channels 3, 4 and 5, the lookup the address 6, the session a size of
1048576 bytes; ioctls and reply headers are as in `env_quiet`. -/
def env_main (fails : List Event) : Collab :=
  { env_quiet with
    int_call := fun _ ev => if ev ∈ fails then -1 else 0
    nat_call := fun _ ev =>
      match ev with
      | .ggate_context_alloc => 1
      | .nbd_client_alloc => 2
      | .cap_init => 3
      | .cap_service_open _ "system.syslog" => 4
      | .cap_service_open _ _ => 5
      | .cap_getaddrinfo .. => 6
      | .nbd_client_get_size _ => 1048576
      | _ => 0 }

/-- As `env_quiet`, but the reply header is rejected with `EINVAL`. -/
def env_einval : Collab :=
  { env_quiet with nbd_client_recv_reply_header := fun _ _ seq => (22, seq) }

/-- A state with an empty trace and the flag unset. -/
def sys0 : Sys := { trace := [], reads := 0, disconnect := false }

/-- A state with an empty trace and the flag set. -/
def sys_flagged : Sys := { trace := [], reads := 0, disconnect := true }

/-- A context holding a request of kind `cmd` with sequence 7. -/
def ctx_of (cmd : Nat) (offset length : Int) : loop_context :=
  { ggate := 1, nbd := 2,
    ggio := { gctl_version := 3, gctl_unit := 0, gctl_seq := 7, gctl_cmd := cmd,
              gctl_offset := offset, gctl_length := length, gctl_data := 4096,
              gctl_error := 0 },
    buf := 4096, buflen := 131072 }

/-- The context `loop_init` builds for handles 1 and 2, unit 0 and a buffer of
131072 bytes at address 4096. -/
def ctx_init : loop_context :=
  { ggate := 1, nbd := 2,
    ggio := { gctl_version := G_GATE_VERSION, gctl_unit := 0, gctl_seq := 0, gctl_cmd := 0,
              gctl_offset := 0, gctl_length := 0, gctl_data := 0, gctl_error := 0 },
    buf := 4096, buflen := 131072 }

/-- The request of kind `cmd` with sequence 7 that the device writes over `g`. -/
def request (cmd : Nat) (offset length : Int) (g : g_gate_ctl_io) : g_gate_ctl_io :=
  { g with gctl_seq := 7, gctl_cmd := cmd, gctl_offset := offset, gctl_length := length }

/-- An environment in which `G_GATE_CMD_START` hands out the request
`request cmd offset length`, `G_GATE_CMD_DONE` leaves the request as submitted,
the reply header returns `hres` and carries the sequence `hseq`, every other call
succeeds and no signal arrives. -/
def env_request (cmd : Nat) (offset length : Int) (hres : Int) (hseq : Nat) : Collab :=
  { env_quiet with
    ggate_context_ioctl := fun _ _ req g =>
      match req with
      | G_GATE_CMD_START => (0, request cmd offset length g)
      | G_GATE_CMD_DONE => (0, g)
    nbd_client_recv_reply_header := fun _ _ _ => (hres, hseq) }

/-- An environment in which both ioctls return 0 and the device leaves the error
code `es` at `G_GATE_CMD_START` and `ed` at `G_GATE_CMD_DONE`; everything else is
as in `env_quiet`. -/
def env_device_error (es ed : Int) : Collab :=
  { env_quiet with
    ggate_context_ioctl := fun _ _ req g =>
      match req with
      | G_GATE_CMD_START => (0, { g with gctl_error := es })
      | G_GATE_CMD_DONE => (0, { g with gctl_error := ed }) }

/-- An environment in which every `int` call and the reply-header receive return
`FAILURE` and a SIGINT is delivered before every read of the flag. -/
def env_interrupted : Collab :=
  { env_quiet with
    int_call := fun _ _ => -1
    nbd_client_recv_reply_header := fun _ _ seq => (-1, seq)
    sigint := fun _ _ => true }

/-- The state of `main` after `if (disconnect) log(LOG_WARNING, ...)`, where
`s1` is the state in which `run_loop` returned. -/
def after_loop (E : Collab) (s1 : Sys) : Sys :=
  if (read_disconnect E s1).1 then
    log (read_disconnect E s1).2 LOG_WARNING "%s: interrupted" [.str "main"]
  else (read_disconnect E s1).2

/-- The final diagnostic of `main`. -/
def crit_log : Event :=
  .log LOG_CRIT "%s: device connection failed" [.str "main"]

/-- An environment in which the ioctl itself fails: it returns `FAILURE` and
leaves the request as it was; everything else is as in `env_quiet`. -/
def env_ioctl_fails : Collab :=
  { env_quiet with ggate_context_ioctl := fun _ _ _ g => (-1, g) }

/-- Whether a step logged something: some event it added is a `log` call. -/
def logged (before after : Sys) : Bool :=
  (added before after).any Event.is_log

/-- The rest of `main` returned a non-zero exit status, and the last thing it
did before returning was to log the final diagnostic. -/
def fails_with_diagnostic (res : Option (Int × Sys)) : Prop :=
  ∃ r s', res = some (r, s') ∧ r ≠ 0 ∧ s'.trace.getLast? = some crit_log

/-- An environment in which every stage of `main` succeeds (as in `env_main []`),
the device hands out a read request of 4096 bytes at offset 0, and the reply
header receive then returns `FAILURE`, as it does when the remote end has closed
the connection; no signal arrives. -/
def env_remote_gone : Collab :=
  { env_main [] with
    ggate_context_ioctl := fun _ _ req g =>
      match req with
      | G_GATE_CMD_START => (0, request BIO_READ 0 4096 g)
      | G_GATE_CMD_DONE => (0, g)
    nbd_client_recv_reply_header := fun _ _ seq => (-1, seq) }

/-- The exit status of `main`, `none` if it did not return. -/
def exit_status (res : Option (Int × Sys)) : Option Int :=
  res.map Prod.fst

/-! ### Acquisition and release steps of `main` -/

/-- The acquisition steps of `main`. -/
inductive acquire_step where
  | alloc_ggate
  | alloc_nbd
  | open_ggate
  | socket_nbd
  | connect_nbd
  | create_device
  deriving DecidableEq, Repr

/-- The release steps of `main`. -/
inductive release_step where
  | destroy_device
  | send_disconnect
  | shutdown_nbd
  | close_nbd
  | close_ggate
  | free_nbd
  | free_ggate
  deriving DecidableEq, Repr

/-- The acquisition step a call attempts. -/
def Event.acquire_of : Event → Option acquire_step
  | .ggate_context_alloc => some .alloc_ggate
  | .nbd_client_alloc => some .alloc_nbd
  | .ggate_context_open _ => some .open_ggate
  | .nbd_client_init _ => some .socket_nbd
  | .nbd_client_connect .. => some .connect_nbd
  | .ggate_context_create_device .. => some .create_device
  | _ => none

/-- The release step a call performs. -/
def Event.release_of : Event → Option release_step
  | .ggate_context_destroy_device .. => some .destroy_device
  | .nbd_client_send_disconnect _ => some .send_disconnect
  | .nbd_client_shutdown _ => some .shutdown_nbd
  | .nbd_client_close _ => some .close_nbd
  | .ggate_context_close _ => some .close_ggate
  | .nbd_client_free _ => some .free_nbd
  | .ggate_context_free _ => some .free_ggate
  | _ => none

/-- The acquisition steps attempted in a list of events, in order. -/
def acquisitions (l : List Event) : List acquire_step :=
  l.filterMap Event.acquire_of

/-- The release steps performed in a list of events, in order. -/
def releases (l : List Event) : List release_step :=
  l.filterMap Event.release_of

/-- The order of acquisition in `main`. -/
def acquisition_sequence : List acquire_step :=
  [.alloc_ggate, .alloc_nbd, .open_ggate, .socket_nbd, .connect_nbd, .create_device]

/-- The order of release in `main`'s teardown. -/
def release_sequence : List release_step :=
  [.destroy_device, .send_disconnect, .shutdown_nbd, .close_nbd, .close_ggate,
   .free_nbd, .free_ggate]

/-- The acquisition step a release step undoes. -/
def release_step.undoes : release_step → acquire_step
  | .destroy_device => .create_device
  | .send_disconnect => .connect_nbd
  | .shutdown_nbd => .connect_nbd
  | .close_nbd => .socket_nbd
  | .close_ggate => .open_ggate
  | .free_nbd => .alloc_nbd
  | .free_ggate => .alloc_ggate

/-- A step from `s` to `t` only added events, none of them an acquisition or a
release step. -/
def quiet_step (s t : Sys) : Prop :=
  s.trace <+: t.trace ∧ acquisitions (added s t) = [] ∧ releases (added s t) = []

/-- The rest of `main` from the state `s`, when `k` acquisition steps have been
attempted before it: if it returns, it only added events, the acquisition steps
among them continue the acquisition sequence, and the release steps among them
are a suffix of the release sequence. -/
def ordered_from (k : Nat) (s : Sys) (res : Option (Int × Sys)) : Prop :=
  ∀ r s', res = some (r, s') →
    s.trace <+: s'.trace ∧
    acquisitions (added s s') <+: acquisition_sequence.drop k ∧
    releases (added s s') <:+ release_sequence

/-- The state at the end of a pass. -/
def cycle_result.sys : cycle_result → Sys
  | .ret _ s => s
  | .next _ _ s => s

/-- The acquisition steps and the release steps the rest of `main` ran from the
state `s` on, each in order; `none` if it did not return. -/
def steps_of (s : Sys) (res : Option (Int × Sys)) :
    Option (List acquire_step × List release_step) :=
  res.map fun x => (acquisitions (added s x.2), releases (added s x.2))

/-- As `env_main []`, but `ggate_context_alloc` returns `NULL`. -/
def env_alloc_fails : Collab :=
  { env_main [] with
    nat_call := fun tr ev =>
      if ev = .ggate_context_alloc then 0 else (env_main []).nat_call tr ev }

/-! ## Helper lemmas -/

theorem added_append (s : Sys) (t : Sys) (l : List Event) (h : t.trace = s.trace ++ l) :
    added s t = l := by
  simp [added, h]

theorem read_disconnect_trace (E : Collab) (s : Sys) :
    (read_disconnect E s).2.trace = s.trace := by
  unfold read_disconnect signal_handler
  split <;> rfl

theorem read_disconnect_unset (E : Collab) (s : Sys)
    (hflag : s.disconnect = false) (hsig : E.sigint s.trace s.reads = false) :
    read_disconnect E s = (false, { s with reads := s.reads + 1 }) := by
  simp [read_disconnect, hsig, hflag]

theorem cycle_continue (E : Collab) (ggate : Nat) (state : loop_state)
    (ctx : loop_context) (s : Sys)
    (hflag : s.disconnect = false) (hsig : E.sigint s.trace s.reads = false)
    (h1 : state ≠ FINISHED) (h2 : state ≠ FAIL) :
    cycle E ggate state ctx s =
      .next
        (call_transition E state ctx
          ⟨s.trace ++ [.transition state], s.reads + 1, false⟩).1
        (call_transition E state ctx
          ⟨s.trace ++ [.transition state], s.reads + 1, false⟩).2.1
        (call_transition E state ctx
          ⟨s.trace ++ [.transition state], s.reads + 1, false⟩).2.2 := by
  unfold cycle
  rw [read_disconnect_unset E s hflag hsig]
  cases state <;> simp_all [Sys.emit]

/-- A pass with the flag unset and a non-terminal state runs the transition. -/
theorem run_cycles_pass (E : Collab) (ggate : Nat) (n : Nat) (state : loop_state)
    (ctx : loop_context) (s : Sys) (state1 : loop_state) (ctx1 : loop_context) (s1 : Sys)
    (hflag : s.disconnect = false) (hsig : ∀ tr k, E.sigint tr k = false)
    (h1 : state ≠ FINISHED) (h2 : state ≠ FAIL)
    (h : call_transition E state ctx
      ⟨s.trace ++ [.transition state], s.reads + 1, false⟩ = (state1, ctx1, s1)) :
    run_cycles E ggate (n + 1) state ctx s = run_cycles E ggate n state1 ctx1 s1 := by
  rw [run_cycles, cycle_continue E ggate state ctx s hflag (hsig _ _) h1 h2, h]

theorem loop_start_request (E : Collab) (ctx : loop_context) (s : Sys)
    (g1 : g_gate_ctl_io)
    (h : E.ggate_context_ioctl s.trace ctx.ggate G_GATE_CMD_START ctx.ggio = (SUCCESS, g1))
    (herr : g1.gctl_error = 0) :
    loop_start E ctx s =
      (DO_CMD, { ctx with ggio := g1 },
       s.emit (.ggate_context_ioctl ctx.ggate G_GATE_CMD_START ctx.ggio)) := by
  simp [loop_start, ggioctl, h, herr, SUCCESS, FAILURE]

theorem loop_command_sent (E : Collab) (ctx : loop_context) (s : Sys) (call : Event)
    (hc : nbdcmd_call ctx = some call) (h : E.int_call s.trace call = SUCCESS) :
    loop_command E ctx s = (RECV_HEADER, ctx, s.emit call) := by
  simp [loop_command, nbdcmd, hc, h]

theorem loop_recv_header_success (E : Collab) (ctx : loop_context) (s : Sys) (seq2 : Nat)
    (h : E.nbd_client_recv_reply_header s.trace ctx.nbd ctx.ggio.gctl_seq = (SUCCESS, seq2)) :
    loop_recv_header E ctx s =
      (if ctx.ggio.gctl_cmd = BIO_READ then RECV_DATA else END_CMD,
       { ctx with ggio := { ctx.ggio with gctl_seq := seq2 } },
       s.emit (.nbd_client_recv_reply_header ctx.nbd ctx.ggio.gctl_seq)) := by
  simp [loop_recv_header, h]

theorem loop_recv_header_read (E : Collab) (ctx : loop_context) (s : Sys) (seq2 : Nat)
    (h : E.nbd_client_recv_reply_header s.trace ctx.nbd ctx.ggio.gctl_seq = (SUCCESS, seq2))
    (hk : ctx.ggio.gctl_cmd = BIO_READ) :
    loop_recv_header E ctx s =
      (RECV_DATA, { ctx with ggio := { ctx.ggio with gctl_seq := seq2 } },
       s.emit (.nbd_client_recv_reply_header ctx.nbd ctx.ggio.gctl_seq)) := by
  rw [loop_recv_header_success E ctx s seq2 h, if_pos hk]

theorem loop_recv_header_other (E : Collab) (ctx : loop_context) (s : Sys) (seq2 : Nat)
    (h : E.nbd_client_recv_reply_header s.trace ctx.nbd ctx.ggio.gctl_seq = (SUCCESS, seq2))
    (hk : ctx.ggio.gctl_cmd ≠ BIO_READ) :
    loop_recv_header E ctx s =
      (END_CMD, { ctx with ggio := { ctx.ggio with gctl_seq := seq2 } },
       s.emit (.nbd_client_recv_reply_header ctx.nbd ctx.ggio.gctl_seq)) := by
  rw [loop_recv_header_success E ctx s seq2 h, if_neg hk]

theorem loop_recv_data_success (E : Collab) (ctx : loop_context) (s : Sys)
    (h : E.int_call s.trace
      (.nbd_client_recv_reply_data ctx.nbd ctx.ggio.gctl_length ctx.buflen ctx.buf)
        = SUCCESS) :
    loop_recv_data E ctx s =
      (END_CMD, ctx,
       s.emit (.nbd_client_recv_reply_data ctx.nbd ctx.ggio.gctl_length ctx.buflen
         ctx.buf)) := by
  simp [loop_recv_data, h, SUCCESS, FAILURE]

theorem loop_end_command_done (E : Collab) (ctx : loop_context) (s : Sys)
    (g3 : g_gate_ctl_io)
    (h : E.ggate_context_ioctl s.trace ctx.ggate G_GATE_CMD_DONE ctx.ggio = (SUCCESS, g3))
    (herr : g3.gctl_error = 0 ∨ g3.gctl_error = EOPNOTSUPP) :
    loop_end_command E ctx s =
      (SETUP, { ctx with ggio := g3 },
       s.emit (.ggate_context_ioctl ctx.ggate G_GATE_CMD_DONE ctx.ggio)) := by
  simp [loop_end_command, ggioctl, h, herr, SUCCESS, FAILURE]

theorem nbdcmd_call_serviced (ctx : loop_context) (h : serviced ctx.ggio.gctl_cmd) :
    ∃ call, nbdcmd_call ctx = some call := by
  unfold nbdcmd_call
  rcases h with h | h | h | h <;> simp [h, BIO_READ, BIO_WRITE, BIO_DELETE, BIO_FLUSH]

/-- One successful request, from `SETUP` back to `SETUP`. -/
theorem run_cycles_serviced (E : Collab) (ggate : Nat) (ctx : loop_context) (s : Sys)
    (g1 g3 : g_gate_ctl_io) (seq2 : Nat)
    (hflag : s.disconnect = false) (hsig : ∀ tr n, E.sigint tr n = false)
    (hkind : serviced g1.gctl_cmd)
    (hstart : E.ggate_context_ioctl (hist_start s) ctx.ggate G_GATE_CMD_START
      (setup_ggio ctx) = (SUCCESS, g1))
    (herr1 : g1.gctl_error = 0)
    (hsend : ∀ call ∈ nbdcmd_call { ctx with ggio := g1 },
      E.int_call (hist_command ctx s) call = SUCCESS)
    (hhdr : E.nbd_client_recv_reply_header (hist_header ctx s g1) ctx.nbd g1.gctl_seq
      = (SUCCESS, seq2))
    (hdata : g1.gctl_cmd = BIO_READ →
      E.int_call (hist_data ctx s g1) (ev_data ctx g1) = SUCCESS)
    (hdone : E.ggate_context_ioctl (hist_done ctx s g1) ctx.ggate G_GATE_CMD_DONE
      { g1 with gctl_seq := seq2 } = (SUCCESS, g3))
    (herr3 : g3.gctl_error = 0 ∨ g3.gctl_error = EOPNOTSUPP) :
    run_cycles E ggate (passes g1.gctl_cmd) SETUP ctx s =
      .next SETUP { ctx with ggio := g3 }
        { trace := hist_done ctx s g1 ++ [ev_done ctx { g1 with gctl_seq := seq2 }],
          reads := s.reads + passes g1.gctl_cmd,
          disconnect := false } := by
  obtain ⟨call, hcall⟩ := nbdcmd_call_serviced { ctx with ggio := g1 } hkind
  have hsend1 := hsend call hcall
  simp only [hist_header, hist_data, hist_done, hcall, Option.toList] at hhdr hdata hdone ⊢
  by_cases hk : g1.gctl_cmd = BIO_READ
  · have hdata1 := hdata hk
    simp only [hk, if_true, passes] at hdone ⊢
    refine (run_cycles_pass E ggate 5 SETUP ctx s START _ _ hflag hsig (by decide)
      (by decide) rfl).trans ?_
    refine (run_cycles_pass E ggate 4 START _ _ DO_CMD _ _ rfl hsig (by decide)
      (by decide) (loop_start_request E _ _ g1
        (by simpa [hist_start, setup_ggio] using hstart) herr1)).trans ?_
    refine (run_cycles_pass E ggate 3 DO_CMD _ _ RECV_HEADER _ _ rfl hsig (by decide)
      (by decide) (loop_command_sent E _ _ call hcall
        (by simpa [hist_command, hist_start, ev_start, setup_ggio, Sys.emit]
          using hsend1))).trans ?_
    refine (run_cycles_pass E ggate 2 RECV_HEADER _ _ RECV_DATA _ _ rfl hsig (by decide)
      (by decide) (loop_recv_header_read E _ _ seq2
        (by simpa [hist_command, hist_start, ev_start, setup_ggio, Sys.emit]
          using hhdr) hk)).trans ?_
    refine (run_cycles_pass E ggate 1 RECV_DATA _ _ END_CMD _ _ rfl hsig (by decide)
      (by decide) (loop_recv_data_success E _ _
        (by simpa [hist_command, hist_start, ev_start, ev_header, ev_data, setup_ggio,
          Sys.emit] using hdata1))).trans ?_
    refine (run_cycles_pass E ggate 0 END_CMD _ _ SETUP _ _ rfl hsig (by decide)
      (by decide) (loop_end_command_done E _ _ g3
        (by simpa [hist_command, hist_start, ev_start, ev_header, ev_data, setup_ggio,
          Sys.emit, hk] using hdone) herr3)).trans ?_
    simp [run_cycles, hist_command, hist_start, ev_start, ev_header, ev_data, ev_done,
      setup_ggio, Sys.emit, hk, Nat.add_assoc]
  · simp only [hk, if_false, passes] at hdone ⊢
    refine (run_cycles_pass E ggate 4 SETUP ctx s START _ _ hflag hsig (by decide)
      (by decide) rfl).trans ?_
    refine (run_cycles_pass E ggate 3 START _ _ DO_CMD _ _ rfl hsig (by decide)
      (by decide) (loop_start_request E _ _ g1
        (by simpa [hist_start, setup_ggio] using hstart) herr1)).trans ?_
    refine (run_cycles_pass E ggate 2 DO_CMD _ _ RECV_HEADER _ _ rfl hsig (by decide)
      (by decide) (loop_command_sent E _ _ call hcall
        (by simpa [hist_command, hist_start, ev_start, setup_ggio, Sys.emit]
          using hsend1))).trans ?_
    refine (run_cycles_pass E ggate 1 RECV_HEADER _ _ END_CMD _ _ rfl hsig (by decide)
      (by decide) (loop_recv_header_other E _ _ seq2
        (by simpa [hist_command, hist_start, ev_start, setup_ggio, Sys.emit]
          using hhdr) hk)).trans ?_
    refine (run_cycles_pass E ggate 0 END_CMD _ _ SETUP _ _ rfl hsig (by decide)
      (by decide) (loop_end_command_done E _ _ g3
        (by simpa [hist_command, hist_start, ev_start, ev_header, ev_data, setup_ggio,
          Sys.emit, hk] using hdone) herr3)).trans ?_
    simp [run_cycles, hist_command, hist_start, ev_start, ev_header, ev_data, ev_done,
      setup_ggio, Sys.emit, hk, Nat.add_assoc]

theorem send_observations (call : Event) (h : call.is_send = true) :
    call.transition_of = none ∧ call.done_of = none ∧ call.data_of = none := by
  cases call <;> simp_all [Event.is_send, Event.transition_of, Event.done_of, Event.data_of]

theorem nbdcmd_call_is_send (ctx : loop_context) (call : Event)
    (h : nbdcmd_call ctx = some call) : call.is_send = true := by
  unfold nbdcmd_call at h
  split_ifs at h <;> simp at h <;> subst h <;> rfl

theorem drop_added (l1 l2 : List Event) : (l1 ++ l2).drop l1.length = l2 := by
  simp

theorem loop_recv_header_rejected_delete (E : Collab) (ctx : loop_context) (s : Sys)
    (seq2 : Nat)
    (h : E.nbd_client_recv_reply_header s.trace ctx.nbd ctx.ggio.gctl_seq = (EINVAL, seq2))
    (hk : ctx.ggio.gctl_cmd = BIO_DELETE) :
    loop_recv_header E ctx s =
      (END_CMD, { ctx with ggio := rejected_ggio ctx.ggio seq2 },
       (s.emit (.nbd_client_recv_reply_header ctx.nbd ctx.ggio.gctl_seq)).emit
         (.nbd_client_disable_trim ctx.nbd)) := by
  simp [loop_recv_header, hdrinval, h, hk, rejected_ggio, EINVAL, SUCCESS, Sys.emit]

theorem loop_end_command_issues_done (E : Collab) (ctx : loop_context) (s : Sys) :
    s.trace ++ [.ggate_context_ioctl ctx.ggate G_GATE_CMD_DONE ctx.ggio] <+:
      (loop_end_command E ctx s).2.2.trace := by
  unfold loop_end_command
  simp only [ggioctl, log, Sys.emit]
  split_ifs <;> simp

/-- A delete request rejected with `EINVAL`: the four passes from `SETUP` to
`END_CMD`. -/
theorem run_cycles_rejected_delete (E : Collab) (ggate : Nat) (ctx : loop_context)
    (s : Sys) (g1 : g_gate_ctl_io) (seq2 : Nat)
    (hflag : s.disconnect = false) (hsig : ∀ tr n, E.sigint tr n = false)
    (hkind : g1.gctl_cmd = BIO_DELETE)
    (hstart : E.ggate_context_ioctl (hist_start s) ctx.ggate G_GATE_CMD_START
      (setup_ggio ctx) = (SUCCESS, g1))
    (herr1 : g1.gctl_error = 0)
    (hsend : ∀ call ∈ nbdcmd_call { ctx with ggio := g1 },
      E.int_call (hist_command ctx s) call = SUCCESS)
    (hhdr : E.nbd_client_recv_reply_header (hist_header ctx s g1) ctx.nbd g1.gctl_seq
      = (EINVAL, seq2)) :
    run_cycles E ggate 4 SETUP ctx s =
      .next END_CMD { ctx with ggio := rejected_ggio g1 seq2 }
        { trace := hist_rejected ctx s g1, reads := s.reads + 4, disconnect := false } := by
  obtain ⟨call, hcall⟩ := nbdcmd_call_serviced { ctx with ggio := g1 }
    (Or.inr (Or.inr (Or.inl hkind)))
  have hsend1 := hsend call hcall
  simp only [hist_rejected, hist_header, hcall, Option.toList] at hhdr ⊢
  refine (run_cycles_pass E ggate 3 SETUP ctx s START _ _ hflag hsig (by decide)
    (by decide) rfl).trans ?_
  refine (run_cycles_pass E ggate 2 START _ _ DO_CMD _ _ rfl hsig (by decide)
    (by decide) (loop_start_request E _ _ g1
      (by simpa [hist_start, setup_ggio] using hstart) herr1)).trans ?_
  refine (run_cycles_pass E ggate 1 DO_CMD _ _ RECV_HEADER _ _ rfl hsig (by decide)
    (by decide) (loop_command_sent E _ _ call hcall
      (by simpa [hist_command, hist_start, ev_start, setup_ggio, Sys.emit]
        using hsend1))).trans ?_
  refine (run_cycles_pass E ggate 0 RECV_HEADER _ _ END_CMD _ _ rfl hsig (by decide)
    (by decide) (loop_recv_header_rejected_delete E _ _ seq2
      (by simpa [hist_command, hist_start, ev_start, setup_ggio, Sys.emit]
        using hhdr) hkind)).trans ?_
  simp [run_cycles, hist_command, hist_start, ev_start, ev_header, setup_ggio, Sys.emit,
    Nat.add_assoc]

theorem run_cycles_succ_of_next (E : Collab) (ggate : Nat) (n : Nat) :
    ∀ (state : loop_state) (ctx : loop_context) (s : Sys) (state1 : loop_state)
      (ctx1 : loop_context) (s1 : Sys),
      run_cycles E ggate n state ctx s = .next state1 ctx1 s1 →
      run_cycles E ggate (n + 1) state ctx s = run_cycles E ggate 1 state1 ctx1 s1 := by
  induction n with
  | zero =>
    intro state ctx s state1 ctx1 s1 h
    simp only [run_cycles, cycle_result.next.injEq] at h
    obtain ⟨rfl, rfl, rfl⟩ := h
    rfl
  | succ k ih =>
    intro state ctx s state1 ctx1 s1 h
    rw [run_cycles] at h ⊢
    cases hc : cycle E ggate state ctx s with
    | ret r sx => rw [hc] at h; simp at h
    | next st2 ctx2 s2 =>
      rw [hc] at h
      simp only at h ⊢
      exact ih st2 ctx2 s2 state1 ctx1 s1 h

theorem main_cleanup_eq (ggate nbd : Nat) (retval : Int) (s : Sys) :
    main_cleanup ggate nbd retval s =
      (retval, { s with trace := s.trace ++ release_from_cleanup ggate nbd ++
        final_diagnostic retval }) := by
  unfold main_cleanup final_diagnostic release_from_cleanup
  split_ifs <;> simp [log, Sys.emit]

theorem main_close_eq (ggate nbd : Nat) (retval : Int) (s : Sys) :
    main_close ggate nbd retval s =
      (retval, { s with trace := s.trace ++ release_from_close ggate nbd ++
        final_diagnostic retval }) := by
  simp [main_close, main_cleanup_eq, release_from_close, Sys.emit]

theorem main_disconnect_eq (E : Collab) (ggate nbd : Nat) (retval : Int) (s : Sys) :
    main_disconnect E ggate nbd retval s =
      (retval_after_disconnect E s.trace nbd retval,
       { s with trace := s.trace ++ release_from_disconnect ggate nbd ++
          final_diagnostic (retval_after_disconnect E s.trace nbd retval) }) := by
  simp [main_disconnect, main_close_eq, release_from_disconnect, Sys.emit,
    retval_after_disconnect]

theorem main_destroy_eq (E : Collab) (ggate nbd : Nat) (retval : Int) (s : Sys) :
    main_destroy E ggate nbd retval s =
      (retval_after_disconnect E
        (s.trace ++ [.ggate_context_cancel ggate 0,
          .ggate_context_destroy_device ggate true]) nbd retval,
       { s with trace := s.trace ++ release_from_destroy ggate nbd ++
          final_diagnostic (retval_after_disconnect E
            (s.trace ++ [.ggate_context_cancel ggate 0,
              .ggate_context_destroy_device ggate true]) nbd retval) }) := by
  simp [main_destroy, main_disconnect_eq, release_from_destroy, Sys.emit]

theorem final_diagnostic_not_release (retval : Int) :
    (final_diagnostic retval).filter Event.is_release = [] := by
  unfold final_diagnostic
  split_ifs <;> simp [Event.is_release]

theorem read_disconnect_true (E : Collab) (s : Sys) (h : (read_disconnect E s).1 = true) :
    (read_disconnect E s).2 = { trace := s.trace, reads := s.reads + 1, disconnect := true } := by
  unfold read_disconnect signal_handler at h ⊢
  split <;> simp_all

theorem read_disconnect_false (E : Collab) (s : Sys) (h : (read_disconnect E s).1 = false) :
    (read_disconnect E s).2 =
      { trace := s.trace, reads := s.reads + 1, disconnect := false } := by
  unfold read_disconnect signal_handler at h ⊢
  split <;> simp_all

theorem read_disconnect_set (E : Collab) (s : Sys) (h : s.disconnect = true) :
    (read_disconnect E s).1 = true := by
  unfold read_disconnect signal_handler
  split <;> simp_all

/-- A pass that reads the flag as set leaves `run_loop` with `SUCCESS`. -/
theorem run_loop_from_flag_set (E : Collab) (ggate : Nat) (fuel : Nat)
    (state : loop_state) (ctx : loop_context) (s : Sys)
    (hflag : (read_disconnect E s).1 = true) :
    run_loop_from E ggate (fuel + 1) state ctx s =
      some (SUCCESS,
        { trace := s.trace ++ [.nbd_client_set_disconnect ctx.nbd true,
                               .ggate_context_cancel ggate ctx.ggio.gctl_seq],
          reads := s.reads + 1,
          disconnect := true }) := by
  simp only [run_loop_from, cycle, hflag, if_true, read_disconnect_true E s hflag, Sys.emit]
  simp

theorem main_serve_eq (E : Collab) (fuel : Nat) (ggate nbd : Nat) (s s1 : Sys)
    (retval : Int) (h : run_loop E fuel ggate nbd s = some (retval, s1)) :
    main_serve E fuel ggate nbd s =
      some (main_destroy E ggate nbd retval (after_loop E s1)) := by
  simp [main_serve, h, after_loop]

theorem final_diagnostic_of_ne (retval : Int) (h : retval ≠ SUCCESS) :
    final_diagnostic retval = [crit_log] := by
  simp [final_diagnostic, h, crit_log]

theorem retval_after_disconnect_failed (E : Collab) (tr : List Event) (nbd : Nat)
    (retval : Int) (h : E.int_call tr (.nbd_client_send_disconnect nbd) = FAILURE) :
    retval_after_disconnect E tr nbd retval = FAILURE := by
  simp [retval_after_disconnect, h]

theorem retval_after_disconnect_ok (E : Collab) (tr : List Event) (nbd : Nat)
    (retval : Int) (h : E.int_call tr (.nbd_client_send_disconnect nbd) ≠ FAILURE) :
    retval_after_disconnect E tr nbd retval = retval := by
  simp [retval_after_disconnect, h]

theorem logged_log (s t : Sys) (priority : Nat) (fmt : String) (args : List LogArg)
    (h : s.trace <+: t.trace) : logged s (log t priority fmt args) = true := by
  obtain ⟨l, hl⟩ := h
  simp [logged, added, log, Sys.emit, ← hl, Event.is_log]

theorem nbdcmd_trace (E : Collab) (ctx : loop_context) (s : Sys) :
    ∃ e, (nbdcmd E ctx s).2.trace = s.trace ++ [e] := by
  unfold nbdcmd
  cases nbdcmd_call ctx <;> simp [log, Sys.emit]

theorem loop_command_fail_logs (E : Collab) (ctx : loop_context) (s : Sys)
    (h : (loop_command E ctx s).1 = FAIL) : logged s (loop_command E ctx s).2.2 = true := by
  obtain ⟨e, he⟩ := nbdcmd_trace E ctx s
  unfold loop_command at h ⊢
  simp only at h ⊢
  split_ifs at h ⊢ <;> exact logged_log s _ _ _ _ (by rw [he]; simp)

theorem loop_recv_header_fail_logs (E : Collab) (ctx : loop_context) (s : Sys)
    (h : (loop_recv_header E ctx s).1 = FAIL) :
    logged s (loop_recv_header E ctx s).2.2 = true := by
  unfold loop_recv_header hdrinval at h ⊢
  simp only at h ⊢
  split_ifs at h ⊢ <;>
    exact logged_log s _ _ _ _ (by simp [log, Sys.emit, read_disconnect_trace])

theorem loop_recv_data_fail_logs (E : Collab) (ctx : loop_context) (s : Sys)
    (h : (loop_recv_data E ctx s).1 = FAIL) :
    logged s (loop_recv_data E ctx s).2.2 = true := by
  unfold loop_recv_data at h ⊢
  simp only at h ⊢
  split_ifs at h ⊢
  exact logged_log s _ _ _ _ (by simp [log, Sys.emit, read_disconnect_trace])

theorem loop_end_command_fail_logs (E : Collab) (ctx : loop_context) (s : Sys)
    (h : (loop_end_command E ctx s).1 = FAIL) :
    logged s (loop_end_command E ctx s).2.2 = true := by
  unfold loop_end_command ggioctl at h ⊢
  simp only at h ⊢
  split_ifs at h ⊢ <;> exact logged_log s _ _ _ _ (by simp [log, Sys.emit])

theorem loop_start_fail_logs (E : Collab) (ctx : loop_context) (s : Sys)
    (hr : (E.ggate_context_ioctl s.trace ctx.ggate G_GATE_CMD_START ctx.ggio).1 ≠ FAILURE)
    (h : (loop_start E ctx s).1 = FAIL) : logged s (loop_start E ctx s).2.2 = true := by
  unfold loop_start ggioctl at h ⊢
  simp only at h ⊢
  split_ifs at h ⊢
  · contradiction
  · exact logged_log s _ _ _ _ (by simp [log, Sys.emit])

theorem run_cycles_add (E : Collab) (ggate : Nat) (n m : Nat) :
    ∀ (state : loop_state) (ctx : loop_context) (s : Sys) (state1 : loop_state)
      (ctx1 : loop_context) (s1 : Sys),
      run_cycles E ggate n state ctx s = .next state1 ctx1 s1 →
      run_cycles E ggate (n + m) state ctx s = run_cycles E ggate m state1 ctx1 s1 := by
  induction n with
  | zero =>
    intro state ctx s state1 ctx1 s1 h
    simp only [run_cycles, cycle_result.next.injEq] at h
    obtain ⟨rfl, rfl, rfl⟩ := h
    simp
  | succ k ih =>
    intro state ctx s state1 ctx1 s1 h
    rw [show k + 1 + m = (k + m) + 1 by omega]
    rw [run_cycles] at h ⊢
    cases hc : cycle E ggate state ctx s with
    | ret r sx => rw [hc] at h; simp at h
    | next st2 ctx2 s2 =>
      rw [hc] at h
      simp only at h ⊢
      exact ih st2 ctx2 s2 state1 ctx1 s1 h

theorem run_loop_from_add (E : Collab) (ggate : Nat) (n m : Nat) :
    ∀ (state : loop_state) (ctx : loop_context) (s : Sys) (state1 : loop_state)
      (ctx1 : loop_context) (s1 : Sys),
      run_cycles E ggate n state ctx s = .next state1 ctx1 s1 →
      run_loop_from E ggate (n + m) state ctx s = run_loop_from E ggate m state1 ctx1 s1 := by
  induction n with
  | zero =>
    intro state ctx s state1 ctx1 s1 h
    simp only [run_cycles, cycle_result.next.injEq] at h
    obtain ⟨rfl, rfl, rfl⟩ := h
    simp
  | succ k ih =>
    intro state ctx s state1 ctx1 s1 h
    rw [show k + 1 + m = (k + m) + 1 by omega]
    rw [run_cycles] at h
    rw [run_loop_from]
    cases hc : cycle E ggate state ctx s with
    | ret r sx => rw [hc] at h; simp at h
    | next st2 ctx2 s2 =>
      rw [hc] at h
      simp only at h ⊢
      exact ih st2 ctx2 s2 state1 ctx1 s1 h

/-- A return of `run_loop` happens in some pass: after `n` passes the loop holds
a state whose pass returns. -/
theorem run_loop_from_returns (E : Collab) (ggate : Nat) (fuel : Nat) :
    ∀ (state : loop_state) (ctx : loop_context) (s : Sys) (r : Int) (s' : Sys),
      run_loop_from E ggate fuel state ctx s = some (r, s') →
      ∃ n state1 ctx1 s1, n < fuel ∧
        run_cycles E ggate n state ctx s = .next state1 ctx1 s1 ∧
        cycle E ggate state1 ctx1 s1 = .ret r s' := by
  induction fuel with
  | zero => intro state ctx s r s' h; simp [run_loop_from] at h
  | succ k ih =>
    intro state ctx s r s' h
    rw [run_loop_from] at h
    cases hc : cycle E ggate state ctx s with
    | ret r1 sx =>
      rw [hc] at h
      simp only [Option.some.injEq, Prod.mk.injEq] at h
      obtain ⟨rfl, rfl⟩ := h
      exact ⟨0, state, ctx, s, by omega, rfl, hc⟩
    | next st2 ctx2 s2 =>
      rw [hc] at h
      simp only at h
      obtain ⟨n, st1, ctx1, s1, hn, hr, hcy⟩ := ih st2 ctx2 s2 r s' h
      refine ⟨n + 1, st1, ctx1, s1, by omega, ?_, hcy⟩
      rw [run_cycles, hc]
      exact hr

/-- A pass returns `FAILURE` exactly when it holds `FAIL` and reads the flag as
unset. -/
theorem cycle_ret_failure (E : Collab) (ggate : Nat) (state : loop_state)
    (ctx : loop_context) (s : Sys) (r : Int) (s' : Sys)
    (h : cycle E ggate state ctx s = .ret r s') :
    (r = FAILURE ↔ state = FAIL ∧ (read_disconnect E s).1 = false) := by
  unfold cycle at h
  simp only at h
  split_ifs at h with hf
  · simp only [cycle_result.ret.injEq] at h
    obtain ⟨rfl, -⟩ := h
    simp [hf, SUCCESS, FAILURE]
  · cases state <;> simp_all [SUCCESS, FAILURE]
    omega

theorem cycle_fail_unset (E : Collab) (ggate : Nat) (ctx : loop_context) (s : Sys)
    (h : (read_disconnect E s).1 = false) :
    cycle E ggate FAIL ctx s =
      .ret FAILURE
        { trace := s.trace ++ [.ggate_context_cancel ggate ctx.ggio.gctl_seq],
          reads := s.reads + 1, disconnect := false } := by
  simp [cycle, h, read_disconnect_false E s h, Sys.emit]

theorem cycle_finished_unset (E : Collab) (ggate : Nat) (ctx : loop_context) (s : Sys)
    (h : (read_disconnect E s).1 = false) :
    cycle E ggate FINISHED ctx s =
      .ret SUCCESS { trace := s.trace, reads := s.reads + 1, disconnect := false } := by
  simp [cycle, h, read_disconnect_false E s h]

/-- A pass that goes round again ran the transition of its state with the flag
read as unset. -/
theorem cycle_next (E : Collab) (ggate : Nat) (state : loop_state) (ctx : loop_context)
    (s : Sys) (state1 : loop_state) (ctx1 : loop_context) (s1 : Sys)
    (h : cycle E ggate state ctx s = .next state1 ctx1 s1) :
    state ≠ FINISHED ∧ state ≠ FAIL ∧ (read_disconnect E s).1 = false ∧
    call_transition E state ctx ((read_disconnect E s).2.emit (.transition state)) =
      (state1, ctx1, s1) := by
  unfold cycle at h
  simp only at h
  split_ifs at h with hf
  cases state <;> simp_all <;>
    (obtain ⟨h1, h2, h3⟩ := h; exact Prod.ext h1 (Prod.ext h2 h3))

theorem run_loop_from_mono (E : Collab) (ggate : Nat) (fuel : Nat) :
    ∀ (k : Nat) (state : loop_state) (ctx : loop_context) (s : Sys) (x : Int × Sys),
      run_loop_from E ggate fuel state ctx s = some x →
      run_loop_from E ggate (fuel + k) state ctx s = some x := by
  induction fuel with
  | zero => intro k state ctx s x h; simp [run_loop_from] at h
  | succ f ih =>
    intro k state ctx s x h
    rw [show f + 1 + k = (f + k) + 1 by omega]
    rw [run_loop_from] at h ⊢
    cases hc : cycle E ggate state ctx s with
    | ret r sx => rw [hc] at h; exact h
    | next st2 ctx2 s2 =>
      rw [hc] at h
      simp only at h ⊢
      exact ih k st2 ctx2 s2 x h

/-- The return of `run_loop` does not depend on the bound on the passes. -/
theorem run_loop_from_det (E : Collab) (ggate : Nat) (f1 f2 : Nat) (state : loop_state)
    (ctx : loop_context) (s : Sys) (x y : Int × Sys)
    (h1 : run_loop_from E ggate f1 state ctx s = some x)
    (h2 : run_loop_from E ggate f2 state ctx s = some y) : x = y := by
  rcases Nat.le_total f1 f2 with h | h
  · have := run_loop_from_mono E ggate f1 (f2 - f1) state ctx s x h1
    rw [show f1 + (f2 - f1) = f2 by omega, h2] at this
    exact (Option.some.inj this).symm
  · have := run_loop_from_mono E ggate f2 (f1 - f2) state ctx s y h2
    rw [show f2 + (f1 - f2) = f1 by omega, h1] at this
    exact Option.some.inj this

/-- The state after `n + 1` passes comes from a pass on the state after `n`. -/
theorem run_cycles_succ_inv (E : Collab) (ggate : Nat) (n : Nat) :
    ∀ (state : loop_state) (ctx : loop_context) (s : Sys) (state2 : loop_state)
      (ctx2 : loop_context) (s2 : Sys),
      run_cycles E ggate (n + 1) state ctx s = .next state2 ctx2 s2 →
      ∃ state1 ctx1 s1, run_cycles E ggate n state ctx s = .next state1 ctx1 s1 ∧
        cycle E ggate state1 ctx1 s1 = .next state2 ctx2 s2 := by
  induction n with
  | zero =>
    intro state ctx s state2 ctx2 s2 h
    refine ⟨state, ctx, s, rfl, ?_⟩
    rw [run_cycles] at h
    cases hc : cycle E ggate state ctx s with
    | ret r sx => rw [hc] at h; simp at h
    | next st ctx' sx =>
      rw [hc] at h
      simpa [run_cycles] using h
  | succ k ih =>
    intro state ctx s state2 ctx2 s2 h
    rw [run_cycles] at h
    cases hc : cycle E ggate state ctx s with
    | ret r sx => rw [hc] at h; simp at h
    | next st ctx' sx =>
      rw [hc] at h
      simp only at h
      obtain ⟨st1, ctx1, s1, hr, hcy⟩ := ih st ctx' sx state2 ctx2 s2 h
      refine ⟨st1, ctx1, s1, ?_, hcy⟩
      rw [run_cycles, hc]
      exact hr

theorem cycle_of_transition (E : Collab) (ggate : Nat) (state : loop_state)
    (ctx : loop_context) (s : Sys)
    (h1 : state ≠ FINISHED) (h2 : state ≠ FAIL) (hf : (read_disconnect E s).1 = false) :
    cycle E ggate state ctx s =
      .next
        (call_transition E state ctx ((read_disconnect E s).2.emit (.transition state))).1
        (call_transition E state ctx ((read_disconnect E s).2.emit (.transition state))).2.1
        (call_transition E state ctx ((read_disconnect E s).2.emit (.transition state))).2.2
      := by
  unfold cycle
  simp only [hf]
  cases state <;> simp_all

theorem run_loop_installed (E : Collab) (fuel : Nat) (ggate nbd : Nat) (s : Sys)
    (h : E.int_call s.trace .sigaction_SIGINT ≠ FAILURE) :
    run_loop E fuel ggate nbd s =
      run_loop_from E ggate fuel SETUP
        (loop_init E ggate nbd E.buf E.MAXPHYS (s.emit .sigaction_SIGINT)).2.1
        (loop_init E ggate nbd E.buf E.MAXPHYS (s.emit .sigaction_SIGINT)).2.2 := by
  simp [run_loop, h, loop_init]

/-- From a state other than `FAIL`, `run_loop` returns `FAILURE` exactly when
some pass ran a transition that returned `FAIL` and the next pass read the flag
as unset. -/
theorem run_loop_from_failure_iff (E : Collab) (ggate : Nat) (fuel : Nat)
    (state : loop_state) (ctx : loop_context) (s : Sys) (r : Int) (s' : Sys)
    (hst : state ≠ FAIL)
    (hret : run_loop_from E ggate fuel state ctx s = some (r, s')) :
    (r = FAILURE ↔
      ∃ n state1 ctx1 s1,
        run_cycles E ggate n state ctx s = .next state1 ctx1 s1 ∧
        state1 ≠ FINISHED ∧ state1 ≠ FAIL ∧ (read_disconnect E s1).1 = false ∧
        (call_transition E state1 ctx1
          ((read_disconnect E s1).2.emit (.transition state1))).1 = FAIL ∧
        (read_disconnect E
          (call_transition E state1 ctx1
            ((read_disconnect E s1).2.emit (.transition state1))).2.2).1 = false) := by
  constructor
  · intro hr
    subst hr
    obtain ⟨n, st1, ctx1, s1, -, hrun, hcy⟩ :=
      run_loop_from_returns E ggate fuel state ctx s _ s' hret
    obtain ⟨hfail, hflag⟩ := (cycle_ret_failure E ggate st1 ctx1 s1 _ s' hcy).1 rfl
    subst hfail
    cases n with
    | zero =>
      simp only [run_cycles, cycle_result.next.injEq] at hrun
      exact absurd hrun.1 hst
    | succ m =>
      obtain ⟨st0, ctx0, s0, hrun0, hcy0⟩ :=
        run_cycles_succ_inv E ggate m state ctx s FAIL ctx1 s1 hrun
      obtain ⟨h1, h2, h3, h4⟩ := cycle_next E ggate st0 ctx0 s0 FAIL ctx1 s1 hcy0
      refine ⟨m, st0, ctx0, s0, hrun0, h1, h2, h3, ?_, ?_⟩
      · rw [h4]
      · rw [h4]; exact hflag
  · rintro ⟨n, st1, ctx1, s1, hrun, h1, h2, h3, h4, h5⟩
    have hcy := cycle_of_transition E ggate st1 ctx1 s1 h1 h2 h3
    rw [h4] at hcy
    have hrun1 := run_loop_from_add E ggate n 2 state ctx s st1 ctx1 s1 hrun
    have htwo : run_loop_from E ggate 2 st1 ctx1 s1 =
        some (FAILURE,
          { trace :=
              (call_transition E st1 ctx1
                ((read_disconnect E s1).2.emit (.transition st1))).2.2.trace ++
              [.ggate_context_cancel ggate
                (call_transition E st1 ctx1
                  ((read_disconnect E s1).2.emit (.transition st1))).2.1.ggio.gctl_seq],
            reads :=
              (call_transition E st1 ctx1
                ((read_disconnect E s1).2.emit (.transition st1))).2.2.reads + 1,
            disconnect := false }) := by
      rw [run_loop_from, hcy]
      simp only
      rw [run_loop_from, cycle_fail_unset E ggate _ _ h5]
    have := run_loop_from_det E ggate fuel (n + 2) state ctx s _ _ hret
      (hrun1.trans htwo)
    exact (Prod.mk.inj this).1

theorem getLast_final_diagnostic (l : List Event) (retval : Int) (h : retval ≠ 0) :
    (l ++ final_diagnostic retval).getLast? = some crit_log := by
  rw [final_diagnostic_of_ne retval (by simpa [SUCCESS] using h)]
  simp

theorem retval_after_disconnect_ne (E : Collab) (tr : List Event) (nbd : Nat)
    (retval : Int) (h : retval ≠ 0) : retval_after_disconnect E tr nbd retval ≠ 0 := by
  unfold retval_after_disconnect
  split_ifs
  · decide
  · exact h

theorem main_cleanup_fails (ggate nbd : Nat) (retval : Int) (s : Sys) (h : retval ≠ 0) :
    fails_with_diagnostic (some (main_cleanup ggate nbd retval s)) := by
  rw [main_cleanup_eq]
  exact ⟨_, _, rfl, h, getLast_final_diagnostic _ _ h⟩

theorem main_close_fails (ggate nbd : Nat) (retval : Int) (s : Sys) (h : retval ≠ 0) :
    fails_with_diagnostic (some (main_close ggate nbd retval s)) := by
  rw [main_close_eq]
  exact ⟨_, _, rfl, h, getLast_final_diagnostic _ _ h⟩

theorem main_disconnect_fails (E : Collab) (ggate nbd : Nat) (retval : Int) (s : Sys)
    (h : retval ≠ 0) : fails_with_diagnostic (some (main_disconnect E ggate nbd retval s)) := by
  rw [main_disconnect_eq]
  exact ⟨_, _, rfl, retval_after_disconnect_ne E _ _ _ h,
    getLast_final_diagnostic _ _ (retval_after_disconnect_ne E _ _ _ h)⟩

theorem main_destroy_fails (E : Collab) (ggate nbd : Nat) (retval : Int) (s : Sys)
    (h : retval ≠ 0) : fails_with_diagnostic (some (main_destroy E ggate nbd retval s)) := by
  rw [main_destroy_eq]
  exact ⟨_, _, rfl, retval_after_disconnect_ne E _ _ _ h,
    getLast_final_diagnostic _ _ (retval_after_disconnect_ne E _ _ _ h)⟩

theorem main_disconnect_notice_fails (E : Collab) (ggate nbd : Nat) (retval : Int)
    (s : Sys) (h : E.int_call s.trace (.nbd_client_send_disconnect nbd) = FAILURE) :
    fails_with_diagnostic (some (main_disconnect E ggate nbd retval s)) := by
  rw [main_disconnect_eq, retval_after_disconnect_failed E _ _ _ h]
  exact ⟨_, _, rfl, by decide, getLast_final_diagnostic _ _ (by decide)⟩

theorem main_destroy_notice_fails (E : Collab) (ggate nbd : Nat) (retval : Int) (s : Sys)
    (h : E.int_call
      (s.trace ++ [.ggate_context_cancel ggate 0, .ggate_context_destroy_device ggate true])
      (.nbd_client_send_disconnect nbd) = FAILURE) :
    fails_with_diagnostic (some (main_destroy E ggate nbd retval s)) := by
  rw [main_destroy_eq, retval_after_disconnect_failed E _ _ _ h]
  exact ⟨_, _, rfl, by decide, getLast_final_diagnostic _ _ (by decide)⟩

theorem loop_recv_header_failed_unset (E : Collab) (ctx : loop_context) (s : Sys)
    (r : Int) (seq2 : Nat)
    (hh : E.nbd_client_recv_reply_header s.trace ctx.nbd ctx.ggio.gctl_seq = (r, seq2))
    (hr1 : r ≠ SUCCESS) (hr2 : r ≠ EINVAL)
    (hflag : s.disconnect = false) (hsig : ∀ tr k, E.sigint tr k = false) :
    loop_recv_header E ctx s =
      (FAIL, { ctx with ggio := { ctx.ggio with gctl_seq := seq2 } },
       { trace := s.trace ++
           [.nbd_client_recv_reply_header ctx.nbd ctx.ggio.gctl_seq,
            .log LOG_ERR "%s: error receiving reply header" [.str "loop_recv_header"]],
         reads := s.reads + 1, disconnect := false }) := by
  simp [loop_recv_header, hh, hr1, hr2, read_disconnect, hsig, hflag, Sys.emit, log]

theorem loop_recv_data_failed_unset (E : Collab) (ctx : loop_context) (s : Sys)
    (hd : E.int_call s.trace
      (.nbd_client_recv_reply_data ctx.nbd ctx.ggio.gctl_length ctx.buflen ctx.buf)
        = FAILURE)
    (hflag : s.disconnect = false) (hsig : ∀ tr k, E.sigint tr k = false) :
    loop_recv_data E ctx s =
      (FAIL, ctx,
       { trace := s.trace ++
           [.nbd_client_recv_reply_data ctx.nbd ctx.ggio.gctl_length ctx.buflen ctx.buf,
            .log LOG_ERR "%s: error receiving reply data" [.str "loop_recv_data"]],
         reads := s.reads + 1, disconnect := false }) := by
  simp [loop_recv_data, hd, read_disconnect, hsig, hflag, Sys.emit, log]

theorem read_disconnect_fst_unset (E : Collab) (s : Sys)
    (hflag : s.disconnect = false) (hsig : ∀ tr k, E.sigint tr k = false) :
    (read_disconnect E s).1 = false := by
  rw [read_disconnect_unset E s hflag (hsig _ _)]

/-- The loop returns `SUCCESS` when some pass reads the flag as set. -/
theorem run_loop_from_flag_observed (E : Collab) (ggate : Nat) (fuel n : Nat)
    (state : loop_state) (ctx : loop_context) (s : Sys) (x : Int × Sys)
    (state1 : loop_state) (ctx1 : loop_context) (sb : Sys)
    (hret : run_loop_from E ggate fuel state ctx s = some x)
    (hrun : run_cycles E ggate n state ctx s = .next state1 ctx1 sb)
    (hflag : (read_disconnect E sb).1 = true) : x.1 = SUCCESS := by
  have h1 := run_loop_from_add E ggate n 1 state ctx s state1 ctx1 sb hrun
  rw [run_loop_from_flag_set E ggate 0 state1 ctx1 sb hflag] at h1
  have := run_loop_from_det E ggate fuel (n + 1) state ctx s _ _ hret h1
  rw [this]

/-- The loop returns `FAILURE` when a transition returns `FAIL` with the flag
unset and no signal arrives. -/
theorem run_loop_from_transition_failed (E : Collab) (ggate : Nat) (fuel n : Nat)
    (state : loop_state) (ctx : loop_context) (s : Sys) (x : Int × Sys)
    (state1 : loop_state) (ctx1 : loop_context) (sb : Sys) (ctx2 : loop_context)
    (s2 : Sys)
    (hret : run_loop_from E ggate fuel state ctx s = some x)
    (hrun : run_cycles E ggate n state ctx s = .next state1 ctx1 sb)
    (h1 : state1 ≠ FINISHED) (h2 : state1 ≠ FAIL)
    (hflag : sb.disconnect = false) (hsig : ∀ tr k, E.sigint tr k = false)
    (ht : call_transition E state1 ctx1
      ⟨sb.trace ++ [.transition state1], sb.reads + 1, false⟩ = (FAIL, ctx2, s2))
    (hflag2 : s2.disconnect = false) : x.1 = FAILURE := by
  have hc := cycle_continue E ggate state1 ctx1 sb hflag (hsig _ _) h1 h2
  rw [ht] at hc
  have h3 := run_loop_from_add E ggate n 2 state ctx s state1 ctx1 sb hrun
  have htwo : run_loop_from E ggate 2 state1 ctx1 sb =
      some (FAILURE,
        { trace := s2.trace ++ [.ggate_context_cancel ggate ctx2.ggio.gctl_seq],
          reads := s2.reads + 1, disconnect := false }) := by
    rw [run_loop_from, hc]
    simp only
    rw [run_loop_from,
      cycle_fail_unset E ggate _ _ (read_disconnect_fst_unset E s2 hflag2 hsig)]
  have := run_loop_from_det E ggate fuel (n + 2) state ctx s _ _ hret (h3.trans htwo)
  rw [this]

theorem added_trans (s t u : Sys) (h1 : s.trace <+: t.trace) (h2 : t.trace <+: u.trace) :
    added s u = added s t ++ added t u := by
  obtain ⟨l1, h1⟩ := h1
  obtain ⟨l2, h2⟩ := h2
  simp [added, ← h2, ← h1]

theorem quiet_step_refl (s : Sys) : quiet_step s s := by
  simp [quiet_step, added, acquisitions, releases]

theorem quiet_step_trans (s t u : Sys) (h1 : quiet_step s t) (h2 : quiet_step t u) :
    quiet_step s u := by
  obtain ⟨p1, a1, r1⟩ := h1
  obtain ⟨p2, a2, r2⟩ := h2
  refine ⟨p1.trans p2, ?_, ?_⟩
  · rw [added_trans s t u p1 p2]
    simp only [acquisitions, List.filterMap_append] at a1 a2 ⊢
    rw [a1, a2]; rfl
  · rw [added_trans s t u p1 p2]
    simp only [releases, List.filterMap_append] at r1 r2 ⊢
    rw [r1, r2]; rfl

theorem quiet_step_emit (s : Sys) (e : Event) (ha : e.acquire_of = none)
    (hr : e.release_of = none) : quiet_step s (s.emit e) := by
  simp [quiet_step, added, acquisitions, releases, Sys.emit, ha, hr]

theorem quiet_step_log (s : Sys) (priority : Nat) (fmt : String) (args : List LogArg) :
    quiet_step s (log s priority fmt args) :=
  quiet_step_emit s _ rfl rfl

theorem quiet_step_read (E : Collab) (s : Sys) : quiet_step s (read_disconnect E s).2 := by
  simp [quiet_step, added, acquisitions, releases, read_disconnect_trace]

theorem quiet_step_of_eq (s t : Sys) (l : List Event) (h : t.trace = s.trace ++ l)
    (ha : acquisitions l = []) (hr : releases l = []) : quiet_step s t := by
  refine ⟨⟨l, h.symm⟩, ?_, ?_⟩
  · rw [added_append s t l h]; exact ha
  · rw [added_append s t l h]; exact hr

theorem send_not_step (call : Event) (h : call.is_send = true) :
    call.acquire_of = none ∧ call.release_of = none := by
  cases call <;> simp_all [Event.is_send, Event.acquire_of, Event.release_of]

theorem hdrinval_command_log_not_step (cmd : Nat) :
    (hdrinval_command_log cmd).acquire_of = none ∧
    (hdrinval_command_log cmd).release_of = none := by
  unfold hdrinval_command_log
  cases bio_cmd_string cmd <;> exact ⟨rfl, rfl⟩

theorem quiet_emit (s t : Sys) (e : Event) (h : quiet_step s t)
    (ha : e.acquire_of = none) (hr : e.release_of = none) : quiet_step s (t.emit e) :=
  quiet_step_trans _ _ _ h (quiet_step_emit t e ha hr)

theorem quiet_log (s t : Sys) (priority : Nat) (fmt : String) (args : List LogArg)
    (h : quiet_step s t) : quiet_step s (log t priority fmt args) :=
  quiet_step_trans _ _ _ h (quiet_step_log t priority fmt args)

theorem quiet_read (E : Collab) (s t : Sys) (h : quiet_step s t) :
    quiet_step s (read_disconnect E t).2 :=
  quiet_step_trans _ _ _ h (quiet_step_read E t)

theorem loop_start_quiet (E : Collab) (ctx : loop_context) (s : Sys) :
    quiet_step s (loop_start E ctx s).2.2 := by
  have h1 : quiet_step s (s.emit (.ggate_context_ioctl ctx.ggate G_GATE_CMD_START ctx.ggio)) :=
    quiet_step_emit s _ rfl rfl
  unfold loop_start ggioctl
  simp only
  split_ifs <;> first | exact h1 | exact quiet_log _ _ _ _ _ h1

theorem nbdcmd_quiet (E : Collab) (ctx : loop_context) (s : Sys) :
    quiet_step s (nbdcmd E ctx s).2 := by
  unfold nbdcmd
  cases h : nbdcmd_call ctx with
  | none => exact quiet_step_log _ _ _ _
  | some call =>
    obtain ⟨ha, hr⟩ := send_not_step call (nbdcmd_call_is_send ctx call h)
    exact quiet_step_emit s call ha hr

theorem loop_command_quiet (E : Collab) (ctx : loop_context) (s : Sys) :
    quiet_step s (loop_command E ctx s).2.2 := by
  have h := nbdcmd_quiet E ctx s
  unfold loop_command
  simp only
  split_ifs <;> first | exact h | exact quiet_log _ _ _ _ _ h

theorem hdrinval_quiet (ctx : loop_context) (s t : Sys) (h : quiet_step s t) :
    quiet_step s (hdrinval ctx t).2.2 := by
  unfold hdrinval
  split_ifs
  · exact quiet_emit _ _ (.nbd_client_disable_trim _) h rfl rfl
  · obtain ⟨ha, hr⟩ := hdrinval_command_log_not_step ctx.ggio.gctl_cmd
    exact quiet_log _ _ _ _ _
      (quiet_log _ _ _ _ _ (quiet_emit _ _ _ (quiet_log _ _ _ _ _ h) ha hr))

theorem loop_recv_header_quiet (E : Collab) (ctx : loop_context) (s : Sys) :
    quiet_step s (loop_recv_header E ctx s).2.2 := by
  have h1 : quiet_step s (s.emit (.nbd_client_recv_reply_header ctx.nbd ctx.ggio.gctl_seq)) :=
    quiet_step_emit s _ rfl rfl
  unfold loop_recv_header
  simp only
  split_ifs <;>
    first
    | exact h1
    | exact hdrinval_quiet _ _ _ h1
    | exact quiet_read E _ _ h1
    | exact quiet_log _ _ _ _ _ (quiet_read E _ _ h1)

theorem loop_recv_data_quiet (E : Collab) (ctx : loop_context) (s : Sys) :
    quiet_step s (loop_recv_data E ctx s).2.2 := by
  have h1 : quiet_step s
      (s.emit (.nbd_client_recv_reply_data ctx.nbd ctx.ggio.gctl_length ctx.buflen ctx.buf)) :=
    quiet_step_emit s _ rfl rfl
  unfold loop_recv_data
  simp only
  split_ifs <;>
    first
    | exact h1
    | exact quiet_read E _ _ h1
    | exact quiet_log _ _ _ _ _ (quiet_read E _ _ h1)

theorem loop_end_command_quiet (E : Collab) (ctx : loop_context) (s : Sys) :
    quiet_step s (loop_end_command E ctx s).2.2 := by
  have h1 : quiet_step s (s.emit (.ggate_context_ioctl ctx.ggate G_GATE_CMD_DONE ctx.ggio)) :=
    quiet_step_emit s _ rfl rfl
  unfold loop_end_command ggioctl
  simp only
  split_ifs <;> first | exact h1 | exact quiet_log _ _ _ _ _ h1

theorem call_transition_quiet (E : Collab) (state : loop_state) (ctx : loop_context)
    (s : Sys) : quiet_step s (call_transition E state ctx s).2.2 := by
  cases state
  · exact quiet_step_refl s
  · exact loop_start_quiet E ctx s
  · exact loop_command_quiet E ctx s
  · exact loop_recv_header_quiet E ctx s
  · exact loop_recv_data_quiet E ctx s
  · exact loop_end_command_quiet E ctx s
  · exact quiet_step_refl s
  · exact quiet_step_refl s

theorem cycle_quiet (E : Collab) (ggate : Nat) (state : loop_state) (ctx : loop_context)
    (s : Sys) : quiet_step s (cycle E ggate state ctx s).sys := by
  have hr := quiet_step_read E s
  unfold cycle
  simp only
  split_ifs
  · exact quiet_emit _ _ (.ggate_context_cancel _ _)
      (quiet_emit _ _ (.nbd_client_set_disconnect _ _) hr rfl rfl) rfl rfl
  · cases state <;>
      first
      | exact hr
      | exact quiet_emit _ _ (.ggate_context_cancel _ _) hr rfl rfl
      | exact quiet_step_trans _ _ _ (quiet_emit _ _ (.transition _) hr rfl rfl)
          (call_transition_quiet E _ ctx _)

theorem run_loop_from_quiet (E : Collab) (ggate : Nat) (fuel : Nat) :
    ∀ (state : loop_state) (ctx : loop_context) (s : Sys) (r : Int) (s1 : Sys),
      run_loop_from E ggate fuel state ctx s = some (r, s1) → quiet_step s s1 := by
  induction fuel with
  | zero => intro state ctx s r s1 h; simp [run_loop_from] at h
  | succ k ih =>
    intro state ctx s r s1 h
    have hq := cycle_quiet E ggate state ctx s
    rw [run_loop_from] at h
    cases hc : cycle E ggate state ctx s with
    | ret r1 sx =>
      rw [hc] at h hq
      simp only [Option.some.injEq, Prod.mk.injEq] at h
      obtain ⟨-, rfl⟩ := h
      exact hq
    | next st2 ctx2 s2 =>
      rw [hc] at h hq
      exact quiet_step_trans _ _ _ hq (ih st2 ctx2 s2 r s1 h)

theorem run_loop_quiet (E : Collab) (fuel : Nat) (ggate nbd : Nat) (s : Sys) (r : Int)
    (s1 : Sys) (h : run_loop E fuel ggate nbd s = some (r, s1)) : quiet_step s s1 := by
  have h1 : quiet_step s (s.emit .sigaction_SIGINT) := quiet_step_emit s _ rfl rfl
  unfold run_loop at h
  simp only at h
  split_ifs at h
  · simp only [Option.some.injEq, Prod.mk.injEq] at h
    obtain ⟨-, rfl⟩ := h
    exact quiet_log _ _ _ _ _ h1
  · exact quiet_step_trans _ _ _
      (quiet_emit _ _ (.ggate_context_get_unit ggate) h1 rfl rfl)
      (run_loop_from_quiet E ggate fuel _ _ _ r s1 h)

theorem ordered_prepend (k j : Nat) (s s1 : Sys) (res : Option (Int × Sys))
    (hpre : s.trace <+: s1.trace)
    (hacq : acquisitions (added s s1) = (acquisition_sequence.drop k).take j)
    (hrel : releases (added s s1) = [])
    (hP : ordered_from (k + j) s1 res) : ordered_from k s res := by
  intro r s' hres
  obtain ⟨p, a, rl⟩ := hP r s' hres
  refine ⟨hpre.trans p, ?_, ?_⟩
  · rw [added_trans s s1 s' hpre p]
    have e : acquisition_sequence.drop k =
        (acquisition_sequence.drop k).take j ++ acquisition_sequence.drop (k + j) := by
      rw [← List.drop_drop j k acquisition_sequence]
      exact (List.take_append_drop j _).symm
    have : acquisitions (added s s1 ++ added s1 s') =
        (acquisition_sequence.drop k).take j ++ acquisitions (added s1 s') := by
      simp only [acquisitions, List.filterMap_append] at hacq ⊢
      rw [hacq]
    rw [this]
    have h2 := (List.prefix_append_right_inj ((acquisition_sequence.drop k).take j)).2 a
    rw [← e] at h2
    exact h2
  · rw [added_trans s s1 s' hpre p]
    have : releases (added s s1 ++ added s1 s') = releases (added s1 s') := by
      simp only [releases, List.filterMap_append] at hrel ⊢
      rw [hrel]; rfl
    rw [this]
    exact rl

theorem ordered_quiet (k : Nat) (s s1 : Sys) (res : Option (Int × Sys))
    (hq : quiet_step s s1) (hP : ordered_from k s1 res) : ordered_from k s res :=
  ordered_prepend k 0 s s1 res hq.1 (by rw [hq.2.1]; simp) hq.2.2 hP

theorem ordered_of_quiet (k : Nat) (s s1 : Sys) (r : Int) (hq : quiet_step s s1) :
    ordered_from k s (some (r, s1)) := by
  intro r' s' h
  simp only [Option.some.injEq, Prod.mk.injEq] at h
  obtain ⟨-, rfl⟩ := h
  refine ⟨hq.1, ?_, ?_⟩
  · rw [hq.2.1]; exact List.nil_prefix
  · rw [hq.2.2]; exact List.nil_suffix

theorem ordered_of_trace (k : Nat) (s s1 : Sys) (r : Int) (l : List Event)
    (h : s1.trace = s.trace ++ l) (ha : acquisitions l = [])
    (hr : releases l <:+ release_sequence) : ordered_from k s (some (r, s1)) := by
  intro r' s' he
  simp only [Option.some.injEq, Prod.mk.injEq] at he
  obtain ⟨-, rfl⟩ := he
  refine ⟨⟨l, h.symm⟩, ?_, ?_⟩
  · rw [added_append s s1 l h, ha]; exact List.nil_prefix
  · rw [added_append s s1 l h]; exact hr

theorem final_diagnostic_not_step (retval : Int) :
    acquisitions (final_diagnostic retval) = [] ∧ releases (final_diagnostic retval) = [] := by
  unfold final_diagnostic
  split_ifs <;> exact ⟨rfl, rfl⟩

theorem ordered_cleanup (k : Nat) (ggate nbd : Nat) (retval : Int) (s : Sys) :
    ordered_from k s (some (main_cleanup ggate nbd retval s)) := by
  rw [main_cleanup_eq]
  obtain ⟨ha, hr⟩ := final_diagnostic_not_step retval
  refine ordered_of_trace k s _ _ _ (by simp only [List.append_assoc]; rfl) ?_ ?_
  · simp only [acquisitions, List.filterMap_append] at ha ⊢
    rw [ha]; rfl
  · have hl : List.filterMap Event.release_of (release_from_cleanup ggate nbd) =
        [.free_nbd, .free_ggate] := rfl
    simp only [releases, List.filterMap_append] at hr ⊢
    rw [hr, hl]; decide

theorem ordered_close (k : Nat) (ggate nbd : Nat) (retval : Int) (s : Sys) :
    ordered_from k s (some (main_close ggate nbd retval s)) := by
  rw [main_close_eq]
  obtain ⟨ha, hr⟩ := final_diagnostic_not_step retval
  refine ordered_of_trace k s _ _ _ (by simp only [List.append_assoc]; rfl) ?_ ?_
  · simp only [acquisitions, List.filterMap_append] at ha ⊢
    rw [ha]; rfl
  · have hl : List.filterMap Event.release_of (release_from_close ggate nbd) =
        [.close_nbd, .close_ggate, .free_nbd, .free_ggate] := rfl
    simp only [releases, List.filterMap_append] at hr ⊢
    rw [hr, hl]; decide

theorem ordered_disconnect (E : Collab) (k : Nat) (ggate nbd : Nat) (retval : Int)
    (s : Sys) : ordered_from k s (some (main_disconnect E ggate nbd retval s)) := by
  rw [main_disconnect_eq]
  obtain ⟨ha, hr⟩ := final_diagnostic_not_step (retval_after_disconnect E s.trace nbd retval)
  refine ordered_of_trace k s _ _ _ (by simp only [List.append_assoc]; rfl) ?_ ?_
  · simp only [acquisitions, List.filterMap_append] at ha ⊢
    rw [ha]; rfl
  · have hl : List.filterMap Event.release_of (release_from_disconnect ggate nbd) =
        [.send_disconnect, .shutdown_nbd, .close_nbd, .close_ggate, .free_nbd, .free_ggate] := rfl
    simp only [releases, List.filterMap_append] at hr ⊢
    rw [hr, hl]; decide

theorem ordered_destroy (E : Collab) (k : Nat) (ggate nbd : Nat) (retval : Int)
    (s : Sys) : ordered_from k s (some (main_destroy E ggate nbd retval s)) := by
  rw [main_destroy_eq]
  obtain ⟨ha, hr⟩ := final_diagnostic_not_step
    (retval_after_disconnect E
      (s.trace ++ [.ggate_context_cancel ggate 0, .ggate_context_destroy_device ggate true])
      nbd retval)
  refine ordered_of_trace k s _ _ _ (by simp only [List.append_assoc]; rfl) ?_ ?_
  · simp only [acquisitions, List.filterMap_append] at ha ⊢
    rw [ha]; rfl
  · have hl : List.filterMap Event.release_of (release_from_destroy ggate nbd) =
        release_sequence := rfl
    simp only [releases, List.filterMap_append] at hr ⊢
    rw [hr, hl]; decide

theorem after_loop_quiet (E : Collab) (s : Sys) : quiet_step s (after_loop E s) := by
  unfold after_loop
  split_ifs
  · exact quiet_log _ _ _ _ _ (quiet_step_read E s)
  · exact quiet_step_read E s

theorem main_serve_ordered (E : Collab) (fuel : Nat) (ggate nbd : Nat) (s : Sys) :
    ordered_from 6 s (main_serve E fuel ggate nbd s) := by
  cases h : run_loop E fuel ggate nbd s with
  | none =>
    intro r s' hres
    simp [main_serve, h] at hres
  | some x =>
    obtain ⟨retval, s1⟩ := x
    rw [main_serve_eq E fuel ggate nbd s s1 retval h]
    exact ordered_quiet 6 s _ _
      (quiet_step_trans _ _ _ (run_loop_quiet E fuel ggate nbd s retval s1 h)
        (after_loop_quiet E s1))
      (ordered_destroy E 6 ggate nbd retval _)

theorem main_daemonize_ordered (E : Collab) (fuel : Nat) (daemonize : Bool)
    (ggate nbd : Nat) (s : Sys) :
    ordered_from 6 s (main_daemonize E fuel daemonize ggate nbd s) := by
  unfold main_daemonize
  simp only
  split_ifs
  · exact ordered_quiet 6 s _ _
      (quiet_log _ _ _ _ _ (quiet_step_emit s (.daemon 0 0) rfl rfl))
      (ordered_close 6 ggate nbd EXIT_FAILURE _)
  · exact ordered_quiet 6 s _ _ (quiet_step_emit s (.daemon 0 0) rfl rfl)
      (main_serve_ordered E fuel ggate nbd _)
  · exact main_serve_ordered E fuel ggate nbd s

theorem main_create_device_ordered (E : Collab) (fuel : Nat) (daemonize : Bool)
    (host port : String) (ggate nbd : Nat) (s : Sys) :
    ordered_from 5 s (main_create_device E fuel daemonize host port ggate nbd s) := by
  unfold main_create_device
  simp only
  split_ifs
  · exact ordered_prepend 5 1 s _ _ (by simp [Sys.emit, log])
      (by simp [added, Sys.emit, log, acquisitions, Event.acquire_of, acquisition_sequence])
      (by simp [added, Sys.emit, log, releases, Event.release_of])
      (ordered_destroy E 6 ggate nbd EXIT_FAILURE _)
  · exact ordered_prepend 5 1 s _ _ (by simp [Sys.emit])
      (by simp [added, Sys.emit, acquisitions, Event.acquire_of, acquisition_sequence])
      (by simp [added, Sys.emit, releases, Event.release_of])
      (main_daemonize_ordered E fuel daemonize ggate nbd _)

theorem main_negotiate_ordered (E : Collab) (fuel : Nat) (daemonize : Bool)
    (host port : String) (ggate nbd : Nat) (s : Sys) :
    ordered_from 5 s (main_negotiate E fuel daemonize host port ggate nbd s) := by
  unfold main_negotiate
  simp only
  split_ifs
  · exact ordered_quiet 5 s _ _
      (quiet_log _ _ _ _ _ (quiet_step_emit s (.nbd_client_negotiate nbd) rfl rfl))
      (ordered_disconnect E 5 ggate nbd EXIT_FAILURE _)
  · exact ordered_quiet 5 s _ _ (quiet_step_emit s (.nbd_client_negotiate nbd) rfl rfl)
      (main_create_device_ordered E fuel daemonize host port ggate nbd _)

theorem main_restrict_ordered (E : Collab) (fuel : Nat) (daemonize : Bool)
    (host port : String) (ggate nbd : Nat) (s : Sys) :
    ordered_from 5 s (main_restrict E fuel daemonize host port ggate nbd s) := by
  have h0 : quiet_step s (s.emit (.close 0)) := quiet_step_emit s _ rfl rfl
  have h1 := quiet_emit s _ .caph_limit_stdio h0 rfl rfl
  have h2 := quiet_emit s _ .caph_enter_casper h1 rfl rfl
  have h3 := quiet_emit s _ (.ggate_context_rights_limit ggate) h2 rfl rfl
  have h4 := quiet_emit s _ (.nbd_client_rights_limit nbd) h3 rfl rfl
  unfold main_restrict
  simp only
  split_ifs
  · exact ordered_quiet 5 s _ _ h1 (ordered_disconnect E 5 ggate nbd EXIT_FAILURE _)
  · exact ordered_quiet 5 s _ _ h2 (ordered_disconnect E 5 ggate nbd EXIT_FAILURE _)
  · exact ordered_quiet 5 s _ _ h3 (ordered_disconnect E 5 ggate nbd EXIT_FAILURE _)
  · exact ordered_quiet 5 s _ _ h4 (ordered_disconnect E 5 ggate nbd EXIT_FAILURE _)
  · exact ordered_quiet 5 s _ _ h4
      (main_negotiate_ordered E fuel daemonize host port ggate nbd _)

theorem main_connect_ordered (E : Collab) (fuel : Nat) (daemonize : Bool)
    (host port : String) (ggate nbd ai : Nat) (s : Sys) :
    ordered_from 4 s (main_connect E fuel daemonize host port ggate nbd ai s) := by
  unfold main_connect
  simp only
  split_ifs
  · exact ordered_prepend 4 1 s _ _ (by simp [Sys.emit, log])
      (by simp [added, Sys.emit, log, acquisitions, Event.acquire_of, acquisition_sequence])
      (by simp [added, Sys.emit, log, releases, Event.release_of])
      (ordered_close 5 ggate nbd EXIT_FAILURE _)
  · exact ordered_prepend 4 1 s _ _ (by simp [Sys.emit])
      (by simp [added, Sys.emit, acquisitions, Event.acquire_of, acquisition_sequence])
      (by simp [added, Sys.emit, releases, Event.release_of])
      (main_restrict_ordered E fuel daemonize host port ggate nbd _)

theorem main_lookup_ordered (E : Collab) (fuel : Nat) (daemonize : Bool)
    (host port : String) (ggate nbd system_dns : Nat) (s : Sys) :
    ordered_from 4 s (main_lookup E fuel daemonize host port ggate nbd system_dns s) := by
  have h1 := quiet_emit s _ (.cap_close system_dns)
    (quiet_step_emit s (.cap_getaddrinfo system_dns host port) rfl rfl) rfl rfl
  unfold main_lookup
  simp only
  split_ifs
  · exact ordered_quiet 4 s _ _ (quiet_log _ _ _ _ _ h1)
      (ordered_close 4 ggate nbd EXIT_FAILURE _)
  · exact ordered_quiet 4 s _ _ h1
      (main_connect_ordered E fuel daemonize host port ggate nbd _ _)

theorem main_dns_ordered (E : Collab) (fuel : Nat) (daemonize : Bool)
    (host port : String) (system ggate nbd : Nat) (s : Sys) :
    ordered_from 4 s (main_dns E fuel daemonize host port system ggate nbd s) := by
  have h1 := quiet_emit s _ (.cap_close system)
    (quiet_step_emit s (.cap_service_open system "system.dns") rfl rfl) rfl rfl
  unfold main_dns
  simp only
  split_ifs
  · exact ordered_quiet 4 s _ _ (quiet_log _ _ _ _ _ h1)
      (ordered_close 4 ggate nbd EXIT_FAILURE _)
  · exact ordered_quiet 4 s _ _ h1
      (main_lookup_ordered E fuel daemonize host port ggate nbd _ _)

theorem main_socket_ordered (E : Collab) (fuel : Nat) (daemonize : Bool)
    (host port : String) (system ggate nbd : Nat) (s : Sys) :
    ordered_from 3 s (main_socket E fuel daemonize host port system ggate nbd s) := by
  unfold main_socket
  simp only
  split_ifs
  · exact ordered_prepend 3 1 s _ _ (by simp [Sys.emit, log])
      (by simp [added, Sys.emit, log, acquisitions, Event.acquire_of, acquisition_sequence])
      (by simp [added, Sys.emit, log, releases, Event.release_of])
      (ordered_close 4 ggate nbd EXIT_FAILURE _)
  · exact ordered_prepend 3 1 s _ _ (by simp [Sys.emit])
      (by simp [added, Sys.emit, acquisitions, Event.acquire_of, acquisition_sequence])
      (by simp [added, Sys.emit, releases, Event.release_of])
      (main_dns_ordered E fuel daemonize host port system ggate nbd _)

theorem main_open_ordered (E : Collab) (fuel : Nat) (daemonize : Bool)
    (host port : String) (system ggate nbd : Nat) (s : Sys) :
    ordered_from 2 s (main_open E fuel daemonize host port system ggate nbd s) := by
  unfold main_open
  simp only
  split_ifs
  · exact ordered_prepend 2 1 s _ _ (by simp [Sys.emit, log])
      (by simp [added, Sys.emit, log, acquisitions, Event.acquire_of, acquisition_sequence])
      (by simp [added, Sys.emit, log, releases, Event.release_of])
      (ordered_close 3 ggate nbd EXIT_FAILURE _)
  · exact ordered_prepend 2 1 s _ _ (by simp [Sys.emit])
      (by simp [added, Sys.emit, acquisitions, Event.acquire_of, acquisition_sequence])
      (by simp [added, Sys.emit, releases, Event.release_of])
      (main_socket_ordered E fuel daemonize host port system ggate nbd _)

theorem main_alloc_ordered (E : Collab) (fuel : Nat) (daemonize : Bool)
    (host port : String) (system : Nat) (s : Sys) :
    ordered_from 0 s (main_alloc E fuel daemonize host port system s) := by
  unfold main_alloc
  simp only
  split_ifs
  · exact ordered_prepend 0 2 s _ _ (by simp [Sys.emit])
      (by simp [added, Sys.emit, acquisitions, Event.acquire_of, acquisition_sequence])
      (by simp [added, Sys.emit, releases, Event.release_of])
      (ordered_cleanup 2 _ _ EXIT_FAILURE _)
  · exact ordered_prepend 0 2 s _ _ (by simp [Sys.emit])
      (by simp [added, Sys.emit, acquisitions, Event.acquire_of, acquisition_sequence])
      (by simp [added, Sys.emit, releases, Event.release_of])
      (main_open_ordered E fuel daemonize host port system _ _ _)

theorem main_casper_ordered (E : Collab) (fuel : Nat) (daemonize : Bool)
    (host port : String) (s : Sys) :
    ordered_from 0 s (main_casper E fuel daemonize host port s) := by
  have h1 : quiet_step s (s.emit .cap_init) := quiet_step_emit s _ rfl rfl
  have h2 := quiet_emit s _
    (.cap_service_open (E.nat_call s.trace .cap_init) "system.syslog") h1 rfl rfl
  have h3 := quiet_emit s _ .isatty_stderr h2 rfl rfl
  have h4 : ∀ a b c d, quiet_step s
      ((((((s.emit .cap_init).emit
        (.cap_service_open (E.nat_call s.trace .cap_init) "system.syslog")).emit
        .isatty_stderr).emit (.cap_openlog a b c d)).emit .ggate_load_module)) :=
    fun a b c d =>
      quiet_emit s _ .ggate_load_module (quiet_emit s _ (.cap_openlog a b c d) h3 rfl rfl)
        rfl rfl
  unfold main_casper
  simp only
  split_ifs
  · exact ordered_of_quiet 0 s _ _ (quiet_emit s _ (.fprintf_stderr _ _) h1 rfl rfl)
  · exact ordered_of_quiet 0 s _ _ (quiet_emit s _ (.fprintf_stderr _ _) h2 rfl rfl)
  all_goals first
    | exact ordered_of_quiet 0 s _ _ (h4 _ _ _ _)
    | exact ordered_quiet 0 s _ _ (h4 _ _ _ _)
        (main_alloc_ordered E fuel daemonize host port _ _)

theorem main_ordered (E : Collab) (fuel : Nat) (opts : List Char) (operands : List String)
    (s : Sys) : ordered_from 0 s (main E fuel opts operands s) := by
  unfold main
  split
  · exact ordered_of_quiet 0 s _ _ (quiet_step_emit s .usage rfl rfl)
  · split
    · exact main_casper_ordered E fuel _ _ _ s
    · exact main_casper_ordered E fuel _ _ _ s
    · exact ordered_of_quiet 0 s _ _ (quiet_step_emit s .usage rfl rfl)

/-- C1: at a cycle boundary of `run_loop`, whatever the loop state (the six
continuations and the two terminal values), if the flag reads as set then
`run_loop` calls `nbd_client_set_disconnect(nbd, true)`, then
`ggate_context_cancel` with the context's current `gctl_seq`, makes no other call
and invokes no transition, and returns `SUCCESS`. -/
theorem run_loop_cancel_at_boundary (E : Collab) (ggate : Nat) (fuel : Nat)
    (state : loop_state) (ctx : loop_context) (s : Sys)
    (hflag : (read_disconnect E s).1 = true) :
    run_loop_from E ggate (fuel + 1) state ctx s =
      some (SUCCESS,
        { trace := s.trace ++ [.nbd_client_set_disconnect ctx.nbd true,
                               .ggate_context_cancel ggate ctx.ggio.gctl_seq],
          reads := s.reads + 1,
          disconnect := true }) := by
  have h2 : (read_disconnect E s).2 =
      { trace := s.trace, reads := s.reads + 1, disconnect := true } := by
    unfold read_disconnect signal_handler at hflag ⊢
    split <;> simp_all
  simp only [run_loop_from, cycle, hflag, if_true, h2, Sys.emit]
  simp

/-- Witness of C1: the state is `FAIL` and the flag is set. -/
theorem run_loop_cancel_at_boundary_witness :
    (read_disconnect env_quiet sys_flagged).1 = true ∧
    run_loop_from env_quiet 1 (0 + 1) FAIL (ctx_of 1 0 4096) sys_flagged =
      some (SUCCESS,
        { trace := sys_flagged.trace ++
            [.nbd_client_set_disconnect (ctx_of 1 0 4096).nbd true,
             .ggate_context_cancel 1 (ctx_of 1 0 4096).ggio.gctl_seq],
          reads := sys_flagged.reads + 1,
          disconnect := true }) :=
  ⟨by decide, run_loop_cancel_at_boundary env_quiet 1 0 FAIL (ctx_of 1 0 4096) sys_flagged
    (by decide)⟩

/-! ### C2 -/

/-- C2: for a request whose command kind is none of `BIO_READ`, `BIO_WRITE`,
`BIO_DELETE`, `BIO_FLUSH`, `loop_command` makes no `nbd_client_send_*` call (its
only call is the notice logged by `nbdcmd`), sets `gctl_error` to `EOPNOTSUPP`
and returns the `END_CMD` continuation. -/
theorem loop_command_unsupported_kind (E : Collab) (ctx : loop_context) (s : Sys)
    (hr : ctx.ggio.gctl_cmd ≠ BIO_READ) (hw : ctx.ggio.gctl_cmd ≠ BIO_WRITE)
    (hd : ctx.ggio.gctl_cmd ≠ BIO_DELETE) (hf : ctx.ggio.gctl_cmd ≠ BIO_FLUSH) :
    loop_command E ctx s =
      (END_CMD,
       { ctx with ggio := { ctx.ggio with gctl_error := EOPNOTSUPP } },
       { s with trace := s.trace ++
          [.log LOG_NOTICE "%s: unsupported operation: %d"
            [.str "nbdcmd", .uint ctx.ggio.gctl_cmd]] }) ∧
    (∀ e ∈ added s (loop_command E ctx s).2.2, e.is_send = false) := by
  have h : loop_command E ctx s =
      (END_CMD,
       { ctx with ggio := { ctx.ggio with gctl_error := EOPNOTSUPP } },
       { s with trace := s.trace ++
          [.log LOG_NOTICE "%s: unsupported operation: %d"
            [.str "nbdcmd", .uint ctx.ggio.gctl_cmd]] }) := by
    simp [loop_command, nbdcmd, nbdcmd_call, hr, hw, hd, hf, log, Sys.emit,
      EOPNOTSUPP, SUCCESS]
  refine ⟨h, ?_⟩
  rw [h, added_append s _ _ rfl]
  simp [Event.is_send]

/-- Witness of C2: a `BIO_GETATTR` request. -/
theorem loop_command_unsupported_kind_witness :
    ((ctx_of BIO_GETATTR 0 0).ggio.gctl_cmd ≠ BIO_READ ∧
     (ctx_of BIO_GETATTR 0 0).ggio.gctl_cmd ≠ BIO_WRITE ∧
     (ctx_of BIO_GETATTR 0 0).ggio.gctl_cmd ≠ BIO_DELETE ∧
     (ctx_of BIO_GETATTR 0 0).ggio.gctl_cmd ≠ BIO_FLUSH) ∧
    (loop_command env_quiet (ctx_of BIO_GETATTR 0 0) sys0 =
      (END_CMD,
       { ctx_of BIO_GETATTR 0 0 with
          ggio := { (ctx_of BIO_GETATTR 0 0).ggio with gctl_error := EOPNOTSUPP } },
       { sys0 with trace := sys0.trace ++
          [.log LOG_NOTICE "%s: unsupported operation: %d"
            [.str "nbdcmd", .uint (ctx_of BIO_GETATTR 0 0).ggio.gctl_cmd]] }) ∧
    (∀ e ∈ added sys0 (loop_command env_quiet (ctx_of BIO_GETATTR 0 0) sys0).2.2,
      e.is_send = false)) :=
  ⟨by decide,
   loop_command_unsupported_kind env_quiet (ctx_of BIO_GETATTR 0 0) sys0
    (by decide) (by decide) (by decide) (by decide)⟩

/-! ### C3 -/

/-- C3: when the command kind is `BIO_DELETE` and
`nbd_client_recv_reply_header` returns `EINVAL`, `loop_recv_header` (through
`hdrinval`) calls `nbd_client_disable_trim` on the session, sets `gctl_error` to
`EOPNOTSUPP`, returns the `END_CMD` continuation and logs nothing; the flag is
neither read nor changed, so this holds whether or not it is set. -/
theorem loop_recv_header_einval_delete (E : Collab) (ctx : loop_context) (s : Sys)
    (hcmd : ctx.ggio.gctl_cmd = BIO_DELETE)
    (hres : (E.nbd_client_recv_reply_header s.trace ctx.nbd ctx.ggio.gctl_seq).1 = EINVAL) :
    loop_recv_header E ctx s =
      (END_CMD,
       { ctx with ggio :=
          { ctx.ggio with
            gctl_seq := (E.nbd_client_recv_reply_header s.trace ctx.nbd ctx.ggio.gctl_seq).2
            gctl_error := EOPNOTSUPP } },
       { s with trace := s.trace ++
          [.nbd_client_recv_reply_header ctx.nbd ctx.ggio.gctl_seq,
           .nbd_client_disable_trim ctx.nbd] }) ∧
    (∀ e ∈ added s (loop_recv_header E ctx s).2.2, e.is_log = false) := by
  have h : loop_recv_header E ctx s =
      (END_CMD,
       { ctx with ggio :=
          { ctx.ggio with
            gctl_seq := (E.nbd_client_recv_reply_header s.trace ctx.nbd ctx.ggio.gctl_seq).2
            gctl_error := EOPNOTSUPP } },
       { s with trace := s.trace ++
          [.nbd_client_recv_reply_header ctx.nbd ctx.ggio.gctl_seq,
           .nbd_client_disable_trim ctx.nbd] }) := by
    simp [loop_recv_header, hdrinval, hcmd, hres, Sys.emit, EINVAL, SUCCESS]
  refine ⟨h, ?_⟩
  rw [h, added_append s _ _ rfl]
  simp [Event.is_log]

/-- Witness of C3: a delete request rejected with `EINVAL` while the flag is set. -/
theorem loop_recv_header_einval_delete_witness :
    ((ctx_of BIO_DELETE 1024 512).ggio.gctl_cmd = BIO_DELETE ∧
     (env_einval.nbd_client_recv_reply_header sys_flagged.trace
        (ctx_of BIO_DELETE 1024 512).nbd (ctx_of BIO_DELETE 1024 512).ggio.gctl_seq).1
       = EINVAL) ∧
    (loop_recv_header env_einval (ctx_of BIO_DELETE 1024 512) sys_flagged =
      (END_CMD,
       { ctx_of BIO_DELETE 1024 512 with ggio :=
          { (ctx_of BIO_DELETE 1024 512).ggio with
            gctl_seq := (env_einval.nbd_client_recv_reply_header sys_flagged.trace
              (ctx_of BIO_DELETE 1024 512).nbd
              (ctx_of BIO_DELETE 1024 512).ggio.gctl_seq).2
            gctl_error := EOPNOTSUPP } },
       { sys_flagged with trace := sys_flagged.trace ++
          [.nbd_client_recv_reply_header (ctx_of BIO_DELETE 1024 512).nbd
             (ctx_of BIO_DELETE 1024 512).ggio.gctl_seq,
           .nbd_client_disable_trim (ctx_of BIO_DELETE 1024 512).nbd] }) ∧
    (∀ e ∈ added sys_flagged
        (loop_recv_header env_einval (ctx_of BIO_DELETE 1024 512) sys_flagged).2.2,
      e.is_log = false)) :=
  ⟨by decide,
   loop_recv_header_einval_delete env_einval (ctx_of BIO_DELETE 1024 512) sys_flagged
    (by decide) (by decide)⟩

/-! ### C4 -/

/-- C5, as amended: when a stage of `main` from handle allocation to device
creation fails, the release steps that run are those from the label the stage
jumps to, to the end.  A failed allocation jumps to `cleanup`: both handle
objects are passed to their free call (also a `NULL` one) and nothing is closed.
A failure of `ggate_context_open`, `nbd_client_init`, the DNS service open, the
address lookup or `nbd_client_connect` jumps to `close`: both handles are
closed, whether or not each was opened, and both are freed.  A failure of one of
the four privilege restrictions or of the negotiation jumps to `disconnect`: the
disconnect notice is sent and the session shut down first.  A failure of
`ggate_context_create_device` jumps to `destroy`: the device is cancelled and
destroyed although it was not created, then the steps from `disconnect` run.
The steps from `close` contain no disconnect notice, shutdown, device cancel or
destroy, and the steps from `disconnect` no device cancel or destroy: so the
notice and the shutdown are issued only if `nbd_client_connect` succeeded, and
the device is cancelled and destroyed only if `ggate_context_create_device` was
called.  Each statement is for every state `s` in which `main` reaches the
stage. -/
theorem teardown_by_failing_stage (E : Collab) (fuel : Nat) (daemonize : Bool)
    (host port : String) (system ggate nbd system_dns ai : Nat) (s : Sys) :
    ((E.nat_call s.trace .ggate_context_alloc = 0 ∨
        E.nat_call (s.trace ++ [.ggate_context_alloc]) .nbd_client_alloc = 0) →
      teardown_of s (main_alloc E fuel daemonize host port system s) =
        some (release_from_cleanup (E.nat_call s.trace .ggate_context_alloc)
          (E.nat_call (s.trace ++ [.ggate_context_alloc]) .nbd_client_alloc))) ∧
    (E.int_call (s.trace ++ [.ggate_context_init ggate]) (.ggate_context_open ggate)
        = FAILURE →
      teardown_of s (main_open E fuel daemonize host port system ggate nbd s) =
        some (release_from_close ggate nbd)) ∧
    (E.int_call s.trace (.nbd_client_init nbd) = FAILURE →
      teardown_of s (main_socket E fuel daemonize host port system ggate nbd s) =
        some (release_from_close ggate nbd)) ∧
    (E.nat_call s.trace (.cap_service_open system "system.dns") = 0 →
      teardown_of s (main_dns E fuel daemonize host port system ggate nbd s) =
        some (release_from_close ggate nbd)) ∧
    (E.int_call s.trace (.cap_getaddrinfo system_dns host port) ≠ SUCCESS →
      teardown_of s (main_lookup E fuel daemonize host port ggate nbd system_dns s) =
        some (release_from_close ggate nbd)) ∧
    (E.int_call s.trace (.nbd_client_connect nbd ai) = FAILURE →
      teardown_of s (main_connect E fuel daemonize host port ggate nbd ai s) =
        some (release_from_close ggate nbd)) ∧
    (E.int_call (s.trace ++ [.close 0]) .caph_limit_stdio = FAILURE ∨
      E.int_call (s.trace ++ [.close 0, .caph_limit_stdio]) .caph_enter_casper
        = FAILURE ∨
      E.int_call (s.trace ++ [.close 0, .caph_limit_stdio, .caph_enter_casper])
        (.ggate_context_rights_limit ggate) = FAILURE ∨
      E.int_call
        (s.trace ++ [.close 0, .caph_limit_stdio, .caph_enter_casper,
          .ggate_context_rights_limit ggate])
        (.nbd_client_rights_limit nbd) = FAILURE →
      teardown_of s (main_restrict E fuel daemonize host port ggate nbd s) =
        some (release_from_disconnect ggate nbd)) ∧
    (E.int_call s.trace (.nbd_client_negotiate nbd) = FAILURE →
      teardown_of s (main_negotiate E fuel daemonize host port ggate nbd s) =
        some (release_from_disconnect ggate nbd)) ∧
    (E.int_call (s.trace ++ [.nbd_client_get_size nbd])
        (.ggate_context_create_device ggate host port ""
          (E.nat_call s.trace (.nbd_client_get_size nbd)) DEFAULT_SECTOR_SIZE
          DEFAULT_GGATE_FLAGS) = FAILURE →
      teardown_of s (main_create_device E fuel daemonize host port ggate nbd s) =
        some (release_from_destroy ggate nbd)) ∧
    release_from_cleanup ggate nbd = [.nbd_client_free nbd, .ggate_context_free ggate] ∧
    release_from_close ggate nbd =
      [.nbd_client_close nbd, .ggate_context_close ggate, .nbd_client_free nbd,
       .ggate_context_free ggate] ∧
    release_from_disconnect ggate nbd =
      [.nbd_client_send_disconnect nbd, .nbd_client_shutdown nbd, .nbd_client_close nbd,
       .ggate_context_close ggate, .nbd_client_free nbd, .ggate_context_free ggate] ∧
    release_from_destroy ggate nbd =
      [.ggate_context_cancel ggate 0, .ggate_context_destroy_device ggate true,
       .nbd_client_send_disconnect nbd, .nbd_client_shutdown nbd, .nbd_client_close nbd,
       .ggate_context_close ggate, .nbd_client_free nbd, .ggate_context_free ggate] := by
  have hd := final_diagnostic_not_release
  refine ⟨?_, ?_, ?_, ?_, ?_, ?_, ?_, ?_, ?_, rfl, rfl, rfl, rfl⟩
  · intro h
    simp [teardown_of, main_alloc, h, main_cleanup_eq, added, Sys.emit, hd,
      release_from_cleanup, Event.is_release]
  · intro h
    simp [teardown_of, main_open, h, main_close_eq, added, Sys.emit, hd, log,
      release_from_close, release_from_cleanup, Event.is_release]
  · intro h
    simp [teardown_of, main_socket, h, main_close_eq, added, Sys.emit, hd, log,
      release_from_close, release_from_cleanup, Event.is_release]
  · intro h
    simp [teardown_of, main_dns, h, main_close_eq, added, Sys.emit, hd, log,
      release_from_close, release_from_cleanup, Event.is_release]
  · intro h
    simp [teardown_of, main_lookup, h, main_close_eq, added, Sys.emit, hd, log,
      release_from_close, release_from_cleanup, Event.is_release]
  · intro h
    simp [teardown_of, main_connect, h, main_close_eq, added, Sys.emit, hd, log,
      release_from_close, release_from_cleanup, Event.is_release]
  · intro h
    unfold main_restrict
    simp only [Sys.emit, List.append_assoc, List.singleton_append, List.cons_append,
      List.nil_append]
    split_ifs with h1 h2 h3 h4
    · simp [teardown_of, main_disconnect_eq, added, hd, release_from_disconnect,
        release_from_close, release_from_cleanup, Event.is_release]
    · simp [teardown_of, main_disconnect_eq, added, hd, release_from_disconnect,
        release_from_close, release_from_cleanup, Event.is_release]
    · simp [teardown_of, main_disconnect_eq, added, hd, release_from_disconnect,
        release_from_close, release_from_cleanup, Event.is_release]
    · simp [teardown_of, main_disconnect_eq, added, hd, release_from_disconnect,
        release_from_close, release_from_cleanup, Event.is_release]
    · exact absurd h (by simp [h1, h2, h3, h4])
  · intro h
    simp [teardown_of, main_negotiate, h, main_disconnect_eq, added, Sys.emit, hd, log,
      release_from_disconnect, release_from_close, release_from_cleanup,
      Event.is_release]
  · intro h
    simp [teardown_of, main_create_device, h, main_destroy_eq, added, Sys.emit, hd, log,
      release_from_destroy, release_from_disconnect, release_from_close,
      release_from_cleanup, Event.is_release]

/-- Witness of C5 as amended: `ggate_context_create_device` fails in a state
reached with both handles allocated. -/
theorem teardown_by_failing_stage_witness :
    (env_main [.ggate_context_create_device 1 "example.org" "10809" "" 1048576 512 0]).int_call
        (sys0.trace ++ [.nbd_client_get_size 2])
        (.ggate_context_create_device 1 "example.org" "10809" ""
          ((env_main
            [.ggate_context_create_device 1 "example.org" "10809" "" 1048576 512 0]).nat_call
            sys0.trace (.nbd_client_get_size 2))
          DEFAULT_SECTOR_SIZE DEFAULT_GGATE_FLAGS) = FAILURE ∧
    teardown_of sys0
        (main_create_device
          (env_main [.ggate_context_create_device 1 "example.org" "10809" "" 1048576 512 0])
          0 true "example.org" "10809" 1 2 sys0) =
      some (release_from_destroy 1 2) :=
  ⟨by decide,
   (teardown_by_failing_stage
      (env_main [.ggate_context_create_device 1 "example.org" "10809" "" 1048576 512 0])
      0 true "example.org" "10809" 3 1 2 5 6 sys0).2.2.2.2.2.2.2.2.1 (by decide)⟩

/-- C5 as stated fails, in three runs of `main`.  (1) `ggate_context_open`
returns `FAILURE` and `nbd_client_init` is never called, yet both handles are
closed (`nbd_client_close`, `ggate_context_close`) before they are freed.
(2) `ggate_context_create_device` returns `FAILURE`, yet the device is cancelled
and destroyed (`ggate_context_cancel`, `ggate_context_destroy_device`).
(3) `ggate_context_alloc` returns `NULL`, yet `ggate_context_free` is called on
it. -/
theorem teardown_counterexample :
    main (env_main [.ggate_context_open 1]) 0 ['f'] ["example.org"] sys0 =
      some (EXIT_FAILURE,
        { trace :=
            [.cap_init, .cap_service_open 3 "system.syslog", .isatty_stderr,
             .cap_openlog 4 (some ("example.org", "10809"))
               "LOG_NDELAY | LOG_CONS | LOG_PID" "LOG_DAEMON",
             .ggate_load_module, .ggate_context_alloc, .nbd_client_alloc,
             .ggate_context_init 1, .ggate_context_open 1,
             .log LOG_ERR "%s: cannot open ggate context" [.str "main"],
             .nbd_client_close 2, .ggate_context_close 1,
             .nbd_client_free 2, .ggate_context_free 1,
             .log LOG_CRIT "%s: device connection failed" [.str "main"]],
          reads := 0, disconnect := false }) ∧
    main (env_main [.ggate_context_create_device 1 "example.org" "10809" "" 1048576 512 0])
        0 ['f'] ["example.org"] sys0 =
      some (EXIT_FAILURE,
        { trace :=
            [.cap_init, .cap_service_open 3 "system.syslog", .isatty_stderr,
             .cap_openlog 4 (some ("example.org", "10809"))
               "LOG_NDELAY | LOG_CONS | LOG_PID" "LOG_DAEMON",
             .ggate_load_module, .ggate_context_alloc, .nbd_client_alloc,
             .ggate_context_init 1, .ggate_context_open 1, .nbd_client_init 2,
             .cap_service_open 3 "system.dns", .cap_close 3,
             .cap_getaddrinfo 5 "example.org" "10809", .cap_close 5,
             .nbd_client_connect 2 6, .freeaddrinfo 6, .close 0,
             .caph_limit_stdio, .caph_enter_casper, .ggate_context_rights_limit 1,
             .nbd_client_rights_limit 2, .nbd_client_negotiate 2, .nbd_client_get_size 2,
             .ggate_context_create_device 1 "example.org" "10809" "" 1048576 512 0,
             .log LOG_ERR "%s:failed to create ggate device" [.str "main"],
             .ggate_context_cancel 1 0, .ggate_context_destroy_device 1 true,
             .nbd_client_send_disconnect 2, .nbd_client_shutdown 2,
             .nbd_client_close 2, .ggate_context_close 1,
             .nbd_client_free 2, .ggate_context_free 1,
             .log LOG_CRIT "%s: device connection failed" [.str "main"]],
          reads := 0, disconnect := false }) ∧
    main env_alloc_fails 0 ['f'] ["example.org"] sys0 =
      some (EXIT_FAILURE,
        { trace :=
            [.cap_init, .cap_service_open 3 "system.syslog", .isatty_stderr,
             .cap_openlog 4 (some ("example.org", "10809"))
               "LOG_NDELAY | LOG_CONS | LOG_PID" "LOG_DAEMON",
             .ggate_load_module, .ggate_context_alloc, .nbd_client_alloc,
             .nbd_client_free 2, .ggate_context_free 0,
             .log LOG_CRIT "%s: device connection failed" [.str "main"]],
          reads := 0, disconnect := false }) := by
  decide

/-! ### C6 -/

/-- C6 fails at stage 7: every stage up to `ggate_context_create_device`
succeeds (the session is connected and the device created), `daemon(0, 0)`
returns `FAILURE`, and `main` jumps to `close`: it closes and frees both
handles but neither cancels and destroys the device nor sends the disconnect
notice nor shuts the session down. -/
theorem daemonize_failure_skips_release :
    main (env_main [.daemon 0 0]) 0 [] ["example.org"] sys0 =
      some (EXIT_FAILURE,
        { trace :=
            [.cap_init, .cap_service_open 3 "system.syslog", .isatty_stderr,
             .cap_openlog 4 (some ("example.org", "10809"))
               "LOG_NDELAY | LOG_CONS | LOG_PID" "LOG_DAEMON",
             .ggate_load_module, .ggate_context_alloc, .nbd_client_alloc,
             .ggate_context_init 1, .ggate_context_open 1, .nbd_client_init 2,
             .cap_service_open 3 "system.dns", .cap_close 3,
             .cap_getaddrinfo 5 "example.org" "10809", .cap_close 5,
             .nbd_client_connect 2 6, .freeaddrinfo 6, .close 0,
             .caph_limit_stdio, .caph_enter_casper, .ggate_context_rights_limit 1,
             .nbd_client_rights_limit 2, .nbd_client_negotiate 2, .nbd_client_get_size 2,
             .ggate_context_create_device 1 "example.org" "10809" "" 1048576 512 0,
             .daemon 0 0,
             .log LOG_ERR "%s: failed to daemonize: %m" [.str "main"],
             .nbd_client_close 2, .ggate_context_close 1,
             .nbd_client_free 2, .ggate_context_free 1,
             .log LOG_CRIT "%s: device connection failed" [.str "main"]],
          reads := 0, disconnect := false }) ∧
    teardown_of sys0 (main (env_main [.daemon 0 0]) 0 [] ["example.org"] sys0) =
      some (release_from_close 1 2) ∧
    Event.ggate_context_destroy_device 1 true ∉ release_from_close 1 2 ∧
    Event.nbd_client_send_disconnect 2 ∉ release_from_close 1 2 ∧
    Event.nbd_client_shutdown 2 ∉ release_from_close 1 2 := by
  decide

/-! ### C7 -/

/-- C7, as amended: for a read request that runs `START`, `DO_CMD`,
`RECV_HEADER`, `RECV_DATA`, `END_CMD` with every collaborator call succeeding,
the sequence value submitted in the `G_GATE_CMD_DONE` ioctl is the one the reply
header carried (`nbd_client_recv_reply_header` stores it in `gctl_seq`); it is
the value the device assigned at `G_GATE_CMD_START` exactly when the reply
header carries that value. -/
theorem completion_sequence_is_header_sequence (E : Collab) (ggate : Nat)
    (ctx : loop_context) (s : Sys) (g1 g3 : g_gate_ctl_io) (seq2 : Nat)
    (hflag : s.disconnect = false) (hsig : ∀ tr n, E.sigint tr n = false)
    (hkind : g1.gctl_cmd = BIO_READ)
    (hstart : E.ggate_context_ioctl (hist_start s) ctx.ggate G_GATE_CMD_START
      (setup_ggio ctx) = (SUCCESS, g1))
    (herr1 : g1.gctl_error = 0)
    (hsend : ∀ call ∈ nbdcmd_call { ctx with ggio := g1 },
      E.int_call (hist_command ctx s) call = SUCCESS)
    (hhdr : E.nbd_client_recv_reply_header (hist_header ctx s g1) ctx.nbd g1.gctl_seq
      = (SUCCESS, seq2))
    (hdata : E.int_call (hist_data ctx s g1) (ev_data ctx g1) = SUCCESS)
    (hdone : E.ggate_context_ioctl (hist_done ctx s g1) ctx.ggate G_GATE_CMD_DONE
      { g1 with gctl_seq := seq2 } = (SUCCESS, g3))
    (herr3 : g3.gctl_error = 0) :
    (run_cycles E ggate 6 SETUP ctx s).state = some SETUP ∧
    transitions_of ((run_cycles E ggate 6 SETUP ctx s).trace.drop s.trace.length) =
      [SETUP, START, DO_CMD, RECV_HEADER, RECV_DATA, END_CMD] ∧
    done_seqs ((run_cycles E ggate 6 SETUP ctx s).trace.drop s.trace.length) = [seq2] ∧
    (done_seqs ((run_cycles E ggate 6 SETUP ctx s).trace.drop s.trace.length)
        = [g1.gctl_seq] ↔ seq2 = g1.gctl_seq) := by
  have h := run_cycles_serviced E ggate ctx s g1 g3 seq2 hflag hsig (Or.inl hkind) hstart
    herr1 hsend hhdr (fun _ => hdata) hdone (Or.inl herr3)
  have hp : passes g1.gctl_cmd = 6 := by simp [passes, hkind]
  rw [hp] at h
  have hc : nbdcmd_call { ctx with ggio := g1 } =
      some (.nbd_client_send_read ctx.nbd g1.gctl_seq g1.gctl_offset g1.gctl_length) := by
    simp [nbdcmd_call, hkind]
  have hd : done_seqs ((run_cycles E ggate 6 SETUP ctx s).trace.drop s.trace.length)
      = [seq2] := by
    rw [h]
    simp [cycle_result.trace, hist_done, hist_data, hist_header, hc, hist_command,
      hist_start, hkind, List.append_assoc, done_seqs, Event.done_of, ev_start,
      ev_header, ev_data, ev_done]
  refine ⟨by rw [h]; rfl, ?_, hd, ?_⟩
  · rw [h]
    simp [cycle_result.trace, hist_done, hist_data, hist_header, hc, hist_command,
      hist_start, hkind, List.append_assoc, transitions_of, Event.transition_of, ev_start,
      ev_header, ev_data, ev_done]
  · rw [hd]
    simp

/-- Witness of C7 as amended: the device assigns sequence 7, the reply header
carries 9, and 9 is submitted at completion. -/
theorem completion_sequence_is_header_sequence_witness :
    (run_cycles (env_request BIO_READ 0 4096 0 9) 1 6 SETUP ctx_init sys0).state
      = some SETUP ∧
    transitions_of
        ((run_cycles (env_request BIO_READ 0 4096 0 9) 1 6 SETUP ctx_init sys0).trace.drop
          sys0.trace.length) =
      [SETUP, START, DO_CMD, RECV_HEADER, RECV_DATA, END_CMD] ∧
    done_seqs
        ((run_cycles (env_request BIO_READ 0 4096 0 9) 1 6 SETUP ctx_init sys0).trace.drop
          sys0.trace.length) = [9] ∧
    (done_seqs
        ((run_cycles (env_request BIO_READ 0 4096 0 9) 1 6 SETUP ctx_init sys0).trace.drop
          sys0.trace.length)
        = [(request BIO_READ 0 4096 (setup_ggio ctx_init)).gctl_seq] ↔
      9 = (request BIO_READ 0 4096 (setup_ggio ctx_init)).gctl_seq) :=
  completion_sequence_is_header_sequence (env_request BIO_READ 0 4096 0 9) 1 ctx_init sys0
    (request BIO_READ 0 4096 (setup_ggio ctx_init))
    { request BIO_READ 0 4096 (setup_ggio ctx_init) with gctl_seq := 9 } 9
    rfl (fun _ _ => rfl) rfl rfl rfl (by decide) rfl rfl rfl rfl

/-- C7 as stated fails: the device assigns sequence 7 at `G_GATE_CMD_START`,
every call of the read request succeeds (the six transitions run and the state
is `SETUP` again), the reply header carries sequence 9, and the
`G_GATE_CMD_DONE` ioctl submits 9, not 7. -/
theorem completion_sequence_counterexample :
    ((env_request BIO_READ 0 4096 0 9).ggate_context_ioctl (hist_start sys0)
        ctx_init.ggate G_GATE_CMD_START (setup_ggio ctx_init)) =
      (SUCCESS, request BIO_READ 0 4096 (setup_ggio ctx_init)) ∧
    (request BIO_READ 0 4096 (setup_ggio ctx_init)).gctl_seq = 7 ∧
    (request BIO_READ 0 4096 (setup_ggio ctx_init)).gctl_cmd = BIO_READ ∧
    (run_cycles (env_request BIO_READ 0 4096 0 9) 1 6 SETUP ctx_init sys0).state
      = some SETUP ∧
    (run_cycles (env_request BIO_READ 0 4096 0 9) 1 6 SETUP ctx_init sys0).trace =
      [.transition SETUP, .transition START,
       .ggate_context_ioctl 1 G_GATE_CMD_START
         { gctl_version := 3, gctl_unit := 0, gctl_seq := 0, gctl_cmd := 0, gctl_offset := 0,
           gctl_length := 131072, gctl_data := 4096, gctl_error := 0 },
       .transition DO_CMD, .nbd_client_send_read 2 7 0 4096,
       .transition RECV_HEADER, .nbd_client_recv_reply_header 2 7,
       .transition RECV_DATA, .nbd_client_recv_reply_data 2 4096 131072 4096,
       .transition END_CMD,
       .ggate_context_ioctl 1 G_GATE_CMD_DONE
         { gctl_version := 3, gctl_unit := 0, gctl_seq := 9, gctl_cmd := 1, gctl_offset := 0,
           gctl_length := 4096, gctl_data := 4096, gctl_error := 0 }] ∧
    done_seqs
        (run_cycles (env_request BIO_READ 0 4096 0 9) 1 6 SETUP ctx_init sys0).trace
      = [9] := by
  decide

/-! ### C8 -/

/-- C8, as amended: for a read request that completes successfully, the byte
length passed to `nbd_client_recv_reply_data` is `gctl_length` exactly as the
device left it at `G_GATE_CMD_START`, and it is passed together with the
capacity `buflen`, the value `loop_setup` had placed in `gctl_length`; no
transition compares the two, so the length is at most `buflen` exactly when the
device left `gctl_length ≤ buflen`. -/
theorem data_length_is_device_length (E : Collab) (ggate : Nat)
    (ctx : loop_context) (s : Sys) (g1 g3 : g_gate_ctl_io) (seq2 : Nat)
    (hflag : s.disconnect = false) (hsig : ∀ tr n, E.sigint tr n = false)
    (hkind : g1.gctl_cmd = BIO_READ)
    (hstart : E.ggate_context_ioctl (hist_start s) ctx.ggate G_GATE_CMD_START
      (setup_ggio ctx) = (SUCCESS, g1))
    (herr1 : g1.gctl_error = 0)
    (hsend : ∀ call ∈ nbdcmd_call { ctx with ggio := g1 },
      E.int_call (hist_command ctx s) call = SUCCESS)
    (hhdr : E.nbd_client_recv_reply_header (hist_header ctx s g1) ctx.nbd g1.gctl_seq
      = (SUCCESS, seq2))
    (hdata : E.int_call (hist_data ctx s g1) (ev_data ctx g1) = SUCCESS)
    (hdone : E.ggate_context_ioctl (hist_done ctx s g1) ctx.ggate G_GATE_CMD_DONE
      { g1 with gctl_seq := seq2 } = (SUCCESS, g3))
    (herr3 : g3.gctl_error = 0) :
    (run_cycles E ggate 6 SETUP ctx s).state = some SETUP ∧
    (loop_setup ctx s).2.1.ggio.gctl_length = to_off_t ctx.buflen ∧
    data_lengths ((run_cycles E ggate 6 SETUP ctx s).trace.drop s.trace.length) =
      [(g1.gctl_length, ctx.buflen)] ∧
    (∀ p ∈ data_lengths ((run_cycles E ggate 6 SETUP ctx s).trace.drop s.trace.length),
      (p.1 ≤ (p.2 : Int) ↔ g1.gctl_length ≤ (ctx.buflen : Int))) := by
  have h := run_cycles_serviced E ggate ctx s g1 g3 seq2 hflag hsig (Or.inl hkind) hstart
    herr1 hsend hhdr (fun _ => hdata) hdone (Or.inl herr3)
  have hp : passes g1.gctl_cmd = 6 := by simp [passes, hkind]
  rw [hp] at h
  have hc : nbdcmd_call { ctx with ggio := g1 } =
      some (.nbd_client_send_read ctx.nbd g1.gctl_seq g1.gctl_offset g1.gctl_length) := by
    simp [nbdcmd_call, hkind]
  have hd : data_lengths ((run_cycles E ggate 6 SETUP ctx s).trace.drop s.trace.length)
      = [(g1.gctl_length, ctx.buflen)] := by
    rw [h]
    simp [cycle_result.trace, hist_done, hist_data, hist_header, hc, hist_command,
      hist_start, hkind, List.append_assoc, data_lengths, Event.data_of, ev_start,
      ev_header, ev_data, ev_done]
  refine ⟨by rw [h]; rfl, rfl, hd, ?_⟩
  rw [hd]
  intro p hp
  simp only [List.mem_singleton] at hp
  subst hp
  rfl

/-- Witness of C8 as amended: a read of 4096 bytes into a buffer of 131072. -/
theorem data_length_is_device_length_witness :
    (run_cycles (env_request BIO_READ 0 4096 0 7) 1 6 SETUP ctx_init sys0).state
      = some SETUP ∧
    (loop_setup ctx_init sys0).2.1.ggio.gctl_length = to_off_t ctx_init.buflen ∧
    data_lengths
        ((run_cycles (env_request BIO_READ 0 4096 0 7) 1 6 SETUP ctx_init sys0).trace.drop
          sys0.trace.length) =
      [((request BIO_READ 0 4096 (setup_ggio ctx_init)).gctl_length, ctx_init.buflen)] ∧
    (∀ p ∈ data_lengths
        ((run_cycles (env_request BIO_READ 0 4096 0 7) 1 6 SETUP ctx_init sys0).trace.drop
          sys0.trace.length),
      (p.1 ≤ (p.2 : Int) ↔
        (request BIO_READ 0 4096 (setup_ggio ctx_init)).gctl_length
          ≤ (ctx_init.buflen : Int))) :=
  data_length_is_device_length (env_request BIO_READ 0 4096 0 7) 1 ctx_init sys0
    (request BIO_READ 0 4096 (setup_ggio ctx_init))
    { request BIO_READ 0 4096 (setup_ggio ctx_init) with gctl_seq := 7 } 7
    rfl (fun _ _ => rfl) rfl rfl rfl (by decide) rfl rfl rfl rfl

/-- C8 as stated fails: `loop_setup` offers the capacity 131072, the device
leaves `gctl_length = 262144` at `G_GATE_CMD_START`, every call of the read
request succeeds (the six transitions run and the state is `SETUP` again), and
`nbd_client_recv_reply_data` is called with length 262144 and capacity
131072. -/
theorem data_length_counterexample :
    (loop_setup ctx_init sys0).2.1.ggio.gctl_length = 131072 ∧
    ctx_init.buflen = 131072 ∧
    ((env_request BIO_READ 0 262144 0 7).ggate_context_ioctl (hist_start sys0)
        ctx_init.ggate G_GATE_CMD_START (setup_ggio ctx_init)) =
      (SUCCESS, request BIO_READ 0 262144 (setup_ggio ctx_init)) ∧
    (request BIO_READ 0 262144 (setup_ggio ctx_init)).gctl_cmd = BIO_READ ∧
    (run_cycles (env_request BIO_READ 0 262144 0 7) 1 6 SETUP ctx_init sys0).state
      = some SETUP ∧
    (run_cycles (env_request BIO_READ 0 262144 0 7) 1 6 SETUP ctx_init sys0).trace =
      [.transition SETUP, .transition START,
       .ggate_context_ioctl 1 G_GATE_CMD_START
         { gctl_version := 3, gctl_unit := 0, gctl_seq := 0, gctl_cmd := 0, gctl_offset := 0,
           gctl_length := 131072, gctl_data := 4096, gctl_error := 0 },
       .transition DO_CMD, .nbd_client_send_read 2 7 0 262144,
       .transition RECV_HEADER, .nbd_client_recv_reply_header 2 7,
       .transition RECV_DATA, .nbd_client_recv_reply_data 2 262144 131072 4096,
       .transition END_CMD,
       .ggate_context_ioctl 1 G_GATE_CMD_DONE
         { gctl_version := 3, gctl_unit := 0, gctl_seq := 7, gctl_cmd := 1, gctl_offset := 0,
           gctl_length := 262144, gctl_data := 4096, gctl_error := 0 }] ∧
    data_lengths
        (run_cycles (env_request BIO_READ 0 262144 0 7) 1 6 SETUP ctx_init sys0).trace
      = [(262144, 131072)] ∧
    ¬ ((262144 : Int) ≤ 131072) := by
  decide

/-! ### C9 -/

/-- C9: for a request of a serviced kind (any offset, length and sequence), with
the flag unset and no signal arriving, if the `G_GATE_CMD_START` ioctl succeeds
with error 0, the send succeeds, the header receive succeeds, the data receive
(read only) succeeds and the `G_GATE_CMD_DONE` ioctl succeeds with error 0, then
the passes from `SETUP` invoke `SETUP`, `START`, `DO_CMD`, `RECV_HEADER`,
`RECV_DATA` exactly when the kind is read, `END_CMD`, and the state is `SETUP`
again (so no pass held `FAIL` or `FINISHED`); the error code submitted to the
device is 0. -/
theorem serviced_request_round_trip (E : Collab) (ggate : Nat) (ctx : loop_context)
    (s : Sys) (g1 g3 : g_gate_ctl_io) (seq2 : Nat)
    (hflag : s.disconnect = false) (hsig : ∀ tr n, E.sigint tr n = false)
    (hkind : serviced g1.gctl_cmd)
    (hstart : E.ggate_context_ioctl (hist_start s) ctx.ggate G_GATE_CMD_START
      (setup_ggio ctx) = (SUCCESS, g1))
    (herr1 : g1.gctl_error = 0)
    (hsend : ∀ call ∈ nbdcmd_call { ctx with ggio := g1 },
      E.int_call (hist_command ctx s) call = SUCCESS)
    (hhdr : E.nbd_client_recv_reply_header (hist_header ctx s g1) ctx.nbd g1.gctl_seq
      = (SUCCESS, seq2))
    (hdata : g1.gctl_cmd = BIO_READ →
      E.int_call (hist_data ctx s g1) (ev_data ctx g1) = SUCCESS)
    (hdone : E.ggate_context_ioctl (hist_done ctx s g1) ctx.ggate G_GATE_CMD_DONE
      { g1 with gctl_seq := seq2 } = (SUCCESS, g3))
    (herr3 : g3.gctl_error = 0) :
    run_cycles E ggate (passes g1.gctl_cmd) SETUP ctx s =
      .next SETUP { ctx with ggio := g3 }
        { trace := hist_done ctx s g1 ++ [ev_done ctx { g1 with gctl_seq := seq2 }],
          reads := s.reads + passes g1.gctl_cmd,
          disconnect := false } ∧
    transitions_of
        ((hist_done ctx s g1 ++ [ev_done ctx { g1 with gctl_seq := seq2 }]).drop
          s.trace.length) =
      [SETUP, START, DO_CMD, RECV_HEADER] ++
        (if g1.gctl_cmd = BIO_READ then [RECV_DATA] else []) ++ [END_CMD] ∧
    done_errors
        ((hist_done ctx s g1 ++ [ev_done ctx { g1 with gctl_seq := seq2 }]).drop
          s.trace.length) = [0] := by
  refine ⟨run_cycles_serviced E ggate ctx s g1 g3 seq2 hflag hsig hkind hstart herr1
    hsend hhdr hdata hdone (Or.inl herr3), ?_, ?_⟩
  · obtain ⟨call, hcall⟩ := nbdcmd_call_serviced { ctx with ggio := g1 } hkind
    obtain ⟨hs, -, -⟩ := send_observations call (nbdcmd_call_is_send _ _ hcall)
    by_cases hk : g1.gctl_cmd = BIO_READ <;>
      simp only [hist_done, hist_data, hist_header, hist_command, hist_start, hcall,
        Option.toList, List.append_assoc, drop_added, hk, if_true, if_false] <;>
      simp [transitions_of, List.filterMap_cons_none hs, ev_start, ev_header, ev_data,
        ev_done, Event.transition_of]
  · obtain ⟨call, hcall⟩ := nbdcmd_call_serviced { ctx with ggio := g1 } hkind
    obtain ⟨-, hs, -⟩ := send_observations call (nbdcmd_call_is_send _ _ hcall)
    by_cases hk : g1.gctl_cmd = BIO_READ <;>
      simp only [hist_done, hist_data, hist_header, hist_command, hist_start, hcall,
        Option.toList, List.append_assoc, drop_added, hk, if_true, if_false] <;>
      simp [done_errors, List.filterMap_cons_none hs, ev_start, ev_header, ev_data,
        ev_done, Event.done_of, herr1]

/-- Witness of C9: the read request of the specification (offset 0, length
4096), the reply header carrying the sequence 7 that the device assigned. -/
theorem serviced_request_round_trip_witness :
    run_cycles (env_request BIO_READ 0 4096 0 7) 1
        (passes (request BIO_READ 0 4096 (setup_ggio ctx_init)).gctl_cmd) SETUP ctx_init
        sys0 =
      .next SETUP
        { ctx_init with ggio :=
            { request BIO_READ 0 4096 (setup_ggio ctx_init) with gctl_seq := 7 } }
        { trace := hist_done ctx_init sys0 (request BIO_READ 0 4096 (setup_ggio ctx_init)) ++
            [ev_done ctx_init
              { request BIO_READ 0 4096 (setup_ggio ctx_init) with gctl_seq := 7 }],
          reads := sys0.reads + passes (request BIO_READ 0 4096 (setup_ggio ctx_init)).gctl_cmd,
          disconnect := false } ∧
    transitions_of
        ((hist_done ctx_init sys0 (request BIO_READ 0 4096 (setup_ggio ctx_init)) ++
            [ev_done ctx_init
              { request BIO_READ 0 4096 (setup_ggio ctx_init) with gctl_seq := 7 }]).drop
          sys0.trace.length) =
      [SETUP, START, DO_CMD, RECV_HEADER] ++
        (if (request BIO_READ 0 4096 (setup_ggio ctx_init)).gctl_cmd = BIO_READ
          then [RECV_DATA] else []) ++ [END_CMD] ∧
    done_errors
        ((hist_done ctx_init sys0 (request BIO_READ 0 4096 (setup_ggio ctx_init)) ++
            [ev_done ctx_init
              { request BIO_READ 0 4096 (setup_ggio ctx_init) with gctl_seq := 7 }]).drop
          sys0.trace.length) = [0] :=
  serviced_request_round_trip (env_request BIO_READ 0 4096 0 7) 1 ctx_init sys0
    (request BIO_READ 0 4096 (setup_ggio ctx_init))
    { request BIO_READ 0 4096 (setup_ggio ctx_init) with gctl_seq := 7 } 7
    rfl (fun _ _ => rfl) (by decide) rfl rfl (by decide) rfl (fun _ => rfl) rfl rfl

/-! ### C10 -/

/-- C10: a delete request (any offset, length and sequence) whose send succeeds
and whose reply header is rejected with `EINVAL`, with the flag unset and no
signal arriving: four passes invoke `SETUP`, `START`, `DO_CMD`, `RECV_HEADER` and
reach `END_CMD` with trim disabled on the session and `gctl_error = EOPNOTSUPP`
(no data step); the fifth pass issues the `G_GATE_CMD_DONE` ioctl with that
error code; and when this ioctl succeeds leaving `gctl_error = EOPNOTSUPP` the
state after the fifth pass is `SETUP`. -/
theorem rejected_delete_round_trip (E : Collab) (ggate : Nat) (ctx : loop_context)
    (s : Sys) (g1 : g_gate_ctl_io) (seq2 : Nat)
    (hflag : s.disconnect = false) (hsig : ∀ tr n, E.sigint tr n = false)
    (hkind : g1.gctl_cmd = BIO_DELETE)
    (hstart : E.ggate_context_ioctl (hist_start s) ctx.ggate G_GATE_CMD_START
      (setup_ggio ctx) = (SUCCESS, g1))
    (herr1 : g1.gctl_error = 0)
    (hsend : ∀ call ∈ nbdcmd_call { ctx with ggio := g1 },
      E.int_call (hist_command ctx s) call = SUCCESS)
    (hhdr : E.nbd_client_recv_reply_header (hist_header ctx s g1) ctx.nbd g1.gctl_seq
      = (EINVAL, seq2)) :
    run_cycles E ggate 4 SETUP ctx s =
      .next END_CMD { ctx with ggio := rejected_ggio g1 seq2 }
        { trace := hist_rejected ctx s g1, reads := s.reads + 4, disconnect := false } ∧
    (rejected_ggio g1 seq2).gctl_error = EOPNOTSUPP ∧
    hist_rejected ctx s g1 =
      hist_command ctx s ++
        [.nbd_client_send_trim ctx.nbd g1.gctl_seq g1.gctl_offset g1.gctl_length,
         .transition RECV_HEADER, .nbd_client_recv_reply_header ctx.nbd g1.gctl_seq,
         .nbd_client_disable_trim ctx.nbd] ∧
    hist_rejected ctx s g1 ++ [.transition END_CMD, ev_done ctx (rejected_ggio g1 seq2)] <+:
      (run_cycles E ggate 5 SETUP ctx s).trace ∧
    (∀ g3 : g_gate_ctl_io,
      E.ggate_context_ioctl (hist_rejected ctx s g1 ++ [.transition END_CMD]) ctx.ggate
        G_GATE_CMD_DONE (rejected_ggio g1 seq2) = (SUCCESS, g3) →
      g3.gctl_error = EOPNOTSUPP →
      run_cycles E ggate 5 SETUP ctx s =
        .next SETUP { ctx with ggio := g3 }
          { trace := hist_rejected ctx s g1 ++
              [.transition END_CMD, ev_done ctx (rejected_ggio g1 seq2)],
            reads := s.reads + 5, disconnect := false } ∧
      transitions_of
          ((hist_rejected ctx s g1 ++
              [.transition END_CMD, ev_done ctx (rejected_ggio g1 seq2)]).drop
            s.trace.length) = [SETUP, START, DO_CMD, RECV_HEADER, END_CMD]) := by
  have h4 := run_cycles_rejected_delete E ggate ctx s g1 seq2 hflag hsig hkind hstart
    herr1 hsend hhdr
  have h5 := run_cycles_succ_of_next E ggate 4 _ _ _ _ _ _ h4
  have hc : nbdcmd_call { ctx with ggio := g1 } =
      some (.nbd_client_send_trim ctx.nbd g1.gctl_seq g1.gctl_offset g1.gctl_length) := by
    simp [nbdcmd_call, hkind, BIO_DELETE, BIO_READ, BIO_WRITE]
  have hpass : run_cycles E ggate 5 SETUP ctx s =
      .next
        (loop_end_command E { ctx with ggio := rejected_ggio g1 seq2 }
          ⟨hist_rejected ctx s g1 ++ [.transition END_CMD], s.reads + 4 + 1, false⟩).1
        (loop_end_command E { ctx with ggio := rejected_ggio g1 seq2 }
          ⟨hist_rejected ctx s g1 ++ [.transition END_CMD], s.reads + 4 + 1, false⟩).2.1
        (loop_end_command E { ctx with ggio := rejected_ggio g1 seq2 }
          ⟨hist_rejected ctx s g1 ++ [.transition END_CMD], s.reads + 4 + 1, false⟩).2.2 := by
    rw [h5, run_cycles, cycle_continue E ggate END_CMD _ _ rfl (hsig _ _) (by decide)
      (by decide)]
    rfl
  refine ⟨h4, rfl, ?_, ?_, ?_⟩
  · simp [hist_rejected, hist_header, hc, ev_header]
  · rw [hpass]
    have := loop_end_command_issues_done E { ctx with ggio := rejected_ggio g1 seq2 }
      ⟨hist_rejected ctx s g1 ++ [.transition END_CMD], s.reads + 4 + 1, false⟩
    simpa [cycle_result.trace, ev_done] using this
  · intro g3 hdone herr3
    refine ⟨?_, ?_⟩
    · rw [hpass, loop_end_command_done E _ _ g3 hdone (Or.inr herr3)]
      simp [Sys.emit, ev_done]
    · simp [hist_rejected, hist_header, hc, hist_command, hist_start, List.append_assoc,
        transitions_of, Event.transition_of, ev_start, ev_header, ev_done]

/-- Witness of C10: the delete request of the specification (offset 1024,
length 512), rejected with `EINVAL`. -/
theorem rejected_delete_round_trip_witness :
    run_cycles (env_request BIO_DELETE 1024 512 22 7) 1 4 SETUP ctx_init sys0 =
      .next END_CMD
        { ctx_init with ggio :=
            rejected_ggio (request BIO_DELETE 1024 512 (setup_ggio ctx_init)) 7 }
        { trace := hist_rejected ctx_init sys0
            (request BIO_DELETE 1024 512 (setup_ggio ctx_init)),
          reads := sys0.reads + 4, disconnect := false } ∧
    (rejected_ggio (request BIO_DELETE 1024 512 (setup_ggio ctx_init)) 7).gctl_error
      = EOPNOTSUPP ∧
    run_cycles (env_request BIO_DELETE 1024 512 22 7) 1 5 SETUP ctx_init sys0 =
      .next SETUP
        { ctx_init with ggio :=
            rejected_ggio (request BIO_DELETE 1024 512 (setup_ggio ctx_init)) 7 }
        { trace := hist_rejected ctx_init sys0
              (request BIO_DELETE 1024 512 (setup_ggio ctx_init)) ++
            [.transition END_CMD,
             ev_done ctx_init
               (rejected_ggio (request BIO_DELETE 1024 512 (setup_ggio ctx_init)) 7)],
          reads := sys0.reads + 5, disconnect := false } :=
  have h := rejected_delete_round_trip (env_request BIO_DELETE 1024 512 22 7) 1 ctx_init
    sys0 (request BIO_DELETE 1024 512 (setup_ggio ctx_init)) 7
    rfl (fun _ _ => rfl) rfl rfl rfl (by decide) rfl
  ⟨h.1, h.2.1,
   (h.2.2.2.2 (rejected_ggio (request BIO_DELETE 1024 512 (setup_ggio ctx_init)) 7)
     rfl rfl).1⟩

/-! ### C11 -/

/-- C11: when `nbd_client_recv_reply_data` returns `FAILURE`, `loop_recv_data`
gives `FINISHED` if the flag reads as set and `FAIL` after a log if it does not;
when `nbd_client_recv_reply_header` returns anything other than `SUCCESS` and
`EINVAL`, `loop_recv_header` gives `FINISHED` if the flag reads as set and `FAIL`
after a log if it does not.  In both `FINISHED` cases the next pass of
`run_loop` calls `nbd_client_set_disconnect(nbd, true)`, then
`ggate_context_cancel` with the current `gctl_seq`, and `run_loop` returns
`SUCCESS`. -/
theorem receive_failure_outcomes (E : Collab) (ggate : Nat) (fuel : Nat)
    (ctx : loop_context) (s : Sys) (r : Int) (seq2 : Nat)
    (hdata : E.int_call s.trace (ev_data ctx ctx.ggio) = FAILURE)
    (hhdr : E.nbd_client_recv_reply_header s.trace ctx.nbd ctx.ggio.gctl_seq = (r, seq2))
    (hr1 : r ≠ SUCCESS) (hr2 : r ≠ EINVAL) :
    ((read_disconnect E (s.emit (ev_data ctx ctx.ggio))).1 = true →
      loop_recv_data E ctx s =
        (FINISHED, ctx,
         { trace := s.trace ++ [ev_data ctx ctx.ggio], reads := s.reads + 1,
           disconnect := true }) ∧
      run_loop_from E ggate (fuel + 1) (loop_recv_data E ctx s).1
          (loop_recv_data E ctx s).2.1 (loop_recv_data E ctx s).2.2 =
        some (SUCCESS,
          { trace := s.trace ++
              [ev_data ctx ctx.ggio, .nbd_client_set_disconnect ctx.nbd true,
               .ggate_context_cancel ggate ctx.ggio.gctl_seq],
            reads := s.reads + 2, disconnect := true })) ∧
    ((read_disconnect E (s.emit (ev_data ctx ctx.ggio))).1 = false →
      loop_recv_data E ctx s =
        (FAIL, ctx,
         { trace := s.trace ++
             [ev_data ctx ctx.ggio,
              .log LOG_ERR "%s: error receiving reply data" [.str "loop_recv_data"]],
           reads := s.reads + 1, disconnect := false })) ∧
    ((read_disconnect E (s.emit (ev_header ctx ctx.ggio))).1 = true →
      loop_recv_header E ctx s =
        (FINISHED, { ctx with ggio := { ctx.ggio with gctl_seq := seq2 } },
         { trace := s.trace ++ [ev_header ctx ctx.ggio], reads := s.reads + 1,
           disconnect := true }) ∧
      run_loop_from E ggate (fuel + 1) (loop_recv_header E ctx s).1
          (loop_recv_header E ctx s).2.1 (loop_recv_header E ctx s).2.2 =
        some (SUCCESS,
          { trace := s.trace ++
              [ev_header ctx ctx.ggio, .nbd_client_set_disconnect ctx.nbd true,
               .ggate_context_cancel ggate seq2],
            reads := s.reads + 2, disconnect := true })) ∧
    ((read_disconnect E (s.emit (ev_header ctx ctx.ggio))).1 = false →
      loop_recv_header E ctx s =
        (FAIL, { ctx with ggio := { ctx.ggio with gctl_seq := seq2 } },
         { trace := s.trace ++
             [ev_header ctx ctx.ggio,
              .log LOG_ERR "%s: error receiving reply header" [.str "loop_recv_header"]],
           reads := s.reads + 1, disconnect := false })) := by
  have hd1 : ∀ h : (read_disconnect E (s.emit (ev_data ctx ctx.ggio))).1 = true,
      loop_recv_data E ctx s =
        (FINISHED, ctx,
         { trace := s.trace ++ [ev_data ctx ctx.ggio], reads := s.reads + 1,
           disconnect := true }) := by
    intro h
    have h2 := read_disconnect_true E _ h
    simp only [ev_data, Sys.emit] at hdata h h2
    simp [loop_recv_data, hdata, h, h2, ev_data, Sys.emit]
  have hh1 : ∀ h : (read_disconnect E (s.emit (ev_header ctx ctx.ggio))).1 = true,
      loop_recv_header E ctx s =
        (FINISHED, { ctx with ggio := { ctx.ggio with gctl_seq := seq2 } },
         { trace := s.trace ++ [ev_header ctx ctx.ggio], reads := s.reads + 1,
           disconnect := true }) := by
    intro h
    have h2 := read_disconnect_true E _ h
    simp only [ev_header, Sys.emit] at h h2
    simp [loop_recv_header, hhdr, hr1, hr2, h, h2, ev_header, Sys.emit]
  refine ⟨?_, ?_, ?_, ?_⟩
  · intro h
    refine ⟨hd1 h, ?_⟩
    rw [hd1 h]
    rw [run_loop_from_flag_set E ggate fuel _ _ _ (read_disconnect_set E _ rfl)]
    simp
  · intro h
    have h2 := read_disconnect_false E _ h
    simp only [ev_data, Sys.emit] at hdata h h2
    simp [loop_recv_data, hdata, h, h2, ev_data, Sys.emit, log]
  · intro h
    refine ⟨hh1 h, ?_⟩
    rw [hh1 h]
    rw [run_loop_from_flag_set E ggate fuel _ _ _ (read_disconnect_set E _ rfl)]
    simp
  · intro h
    have h2 := read_disconnect_false E _ h
    simp only [ev_header, Sys.emit] at h h2
    simp [loop_recv_header, hhdr, hr1, hr2, h, h2, ev_header, Sys.emit, log]

/-- Witness of C11: the data receive of a read fails after a SIGINT arrived
during it. -/
theorem receive_failure_outcomes_witness :
    (env_interrupted.int_call sys0.trace
        (ev_data (ctx_of BIO_READ 0 4096) (ctx_of BIO_READ 0 4096).ggio) = FAILURE ∧
     (read_disconnect env_interrupted
        (sys0.emit (ev_data (ctx_of BIO_READ 0 4096) (ctx_of BIO_READ 0 4096).ggio))).1
       = true) ∧
    (loop_recv_data env_interrupted (ctx_of BIO_READ 0 4096) sys0 =
        (FINISHED, ctx_of BIO_READ 0 4096,
         { trace := sys0.trace ++
             [ev_data (ctx_of BIO_READ 0 4096) (ctx_of BIO_READ 0 4096).ggio],
           reads := sys0.reads + 1, disconnect := true }) ∧
      run_loop_from env_interrupted 1 (0 + 1)
          (loop_recv_data env_interrupted (ctx_of BIO_READ 0 4096) sys0).1
          (loop_recv_data env_interrupted (ctx_of BIO_READ 0 4096) sys0).2.1
          (loop_recv_data env_interrupted (ctx_of BIO_READ 0 4096) sys0).2.2 =
        some (SUCCESS,
          { trace := sys0.trace ++
              [ev_data (ctx_of BIO_READ 0 4096) (ctx_of BIO_READ 0 4096).ggio,
               .nbd_client_set_disconnect (ctx_of BIO_READ 0 4096).nbd true,
               .ggate_context_cancel 1 (ctx_of BIO_READ 0 4096).ggio.gctl_seq],
            reads := sys0.reads + 2, disconnect := true })) :=
  ⟨by decide,
   (receive_failure_outcomes env_interrupted 1 0 (ctx_of BIO_READ 0 4096) sys0 (-1) 7
      (by decide) (by decide) (by decide) (by decide)).1 (by decide)⟩

/-! ### C12 -/

/-- C12: when `nbd_client_send_disconnect` returns `FAILURE` in the teardown,
`main` returns `FAILURE`, which is not 0, whatever `retval` was before, and the
remaining steps still run: the session shutdown, both closes, both frees (and
then the final diagnostic).  This holds from the label `disconnect`, and for the
whole of `main` from `run_loop` on when `run_loop` returned `SUCCESS`, all setup
stages having succeeded. -/
theorem disconnect_failure_exit (E : Collab) (fuel : Nat) (ggate nbd : Nat)
    (retval : Int) (s s0 s1 : Sys)
    (hlabel : E.int_call s.trace (.nbd_client_send_disconnect nbd) = FAILURE)
    (hloop : run_loop E fuel ggate nbd s0 = some (SUCCESS, s1))
    (hnotice : E.int_call
      ((after_loop E s1).trace ++
        [.ggate_context_cancel ggate 0, .ggate_context_destroy_device ggate true])
      (.nbd_client_send_disconnect nbd) = FAILURE) :
    main_disconnect E ggate nbd retval s =
      (FAILURE,
       { s with trace := s.trace ++
          [.nbd_client_send_disconnect nbd, .nbd_client_shutdown nbd,
           .nbd_client_close nbd, .ggate_context_close ggate,
           .nbd_client_free nbd, .ggate_context_free ggate, crit_log] }) ∧
    main_serve E fuel ggate nbd s0 =
      some (FAILURE,
        { after_loop E s1 with trace := (after_loop E s1).trace ++
          [.ggate_context_cancel ggate 0, .ggate_context_destroy_device ggate true,
           .nbd_client_send_disconnect nbd, .nbd_client_shutdown nbd,
           .nbd_client_close nbd, .ggate_context_close ggate,
           .nbd_client_free nbd, .ggate_context_free ggate, crit_log] }) ∧
    FAILURE ≠ 0 := by
  have hF : FAILURE ≠ SUCCESS := by decide
  refine ⟨?_, ?_, by decide⟩
  · rw [main_disconnect_eq, retval_after_disconnect_failed E _ _ _ hlabel,
      final_diagnostic_of_ne _ hF]
    simp [release_from_disconnect, release_from_close, release_from_cleanup]
  · rw [main_serve_eq E fuel ggate nbd s0 s1 SUCCESS hloop, main_destroy_eq,
      retval_after_disconnect_failed E _ _ _ hnotice, final_diagnostic_of_ne _ hF]
    simp [release_from_destroy, release_from_disconnect, release_from_close,
      release_from_cleanup]

/-- Witness of C12: the loop ends with `SUCCESS` on a set flag and the
disconnect notice fails. -/
theorem disconnect_failure_exit_witness :
    ((env_main [.nbd_client_send_disconnect 2]).int_call sys0.trace
        (.nbd_client_send_disconnect 2) = FAILURE ∧
     run_loop (env_main [.nbd_client_send_disconnect 2]) 1 1 2 sys_flagged =
       some (SUCCESS,
         { trace := [.sigaction_SIGINT, .ggate_context_get_unit 1,
             .nbd_client_set_disconnect 2 true, .ggate_context_cancel 1 0],
           reads := 1, disconnect := true })) ∧
    main_serve (env_main [.nbd_client_send_disconnect 2]) 1 1 2 sys_flagged =
      some (FAILURE,
        { trace := [.sigaction_SIGINT, .ggate_context_get_unit 1,
            .nbd_client_set_disconnect 2 true, .ggate_context_cancel 1 0,
            .log LOG_WARNING "%s: interrupted" [.str "main"],
            .ggate_context_cancel 1 0, .ggate_context_destroy_device 1 true,
            .nbd_client_send_disconnect 2, .nbd_client_shutdown 2,
            .nbd_client_close 2, .ggate_context_close 1,
            .nbd_client_free 2, .ggate_context_free 1, crit_log],
          reads := 2, disconnect := true }) :=
  ⟨by decide,
   (disconnect_failure_exit (env_main [.nbd_client_send_disconnect 2]) 1 1 2 0 sys0
      sys_flagged
      { trace := [.sigaction_SIGINT, .ggate_context_get_unit 1,
          .nbd_client_set_disconnect 2 true, .ggate_context_cancel 1 0],
        reads := 1, disconnect := true }
      (by decide) (by decide) (by decide)).2.1⟩

/-! ### C13 -/

/-- C13 fails at `loop_start`: when the `G_GATE_CMD_START` ioctl itself returns
`FAILURE`, `loop_start` returns `FAIL` and its only call is the ioctl, no `log`.
(`loop_end_command` does log "could not complete transaction" when its ioctl
returns `FAILURE`.)  On every other path the claim holds: `loop_command`,
`loop_recv_header`, `loop_recv_data` and `loop_end_command` log whenever they
return `FAIL`, and so does `loop_start` when the ioctl did not return
`FAILURE`. -/
theorem start_ioctl_failure_not_logged :
    (env_ioctl_fails.ggate_context_ioctl sys0.trace ctx_init.ggate G_GATE_CMD_START
        (setup_ggio ctx_init)).1 = FAILURE ∧
    loop_start env_ioctl_fails { ctx_init with ggio := setup_ggio ctx_init } sys0 =
      (FAIL, { ctx_init with ggio := setup_ggio ctx_init },
       { sys0 with trace :=
          [.ggate_context_ioctl ctx_init.ggate G_GATE_CMD_START (setup_ggio ctx_init)] }) ∧
    logged sys0
        (loop_start env_ioctl_fails { ctx_init with ggio := setup_ggio ctx_init } sys0).2.2
      = false ∧
    loop_end_command env_ioctl_fails (ctx_of BIO_READ 0 4096) sys0 =
      (FAIL, ctx_of BIO_READ 0 4096,
       { sys0 with trace :=
          [.ggate_context_ioctl (ctx_of BIO_READ 0 4096).ggate G_GATE_CMD_DONE
             (ctx_of BIO_READ 0 4096).ggio,
           .log LOG_ERR "%s: could not complete transaction"
             [.str "loop_end_command"]] }) ∧
    (∀ (E : Collab) (ctx : loop_context) (s : Sys),
      ((loop_command E ctx s).1 = FAIL → logged s (loop_command E ctx s).2.2 = true) ∧
      ((loop_recv_header E ctx s).1 = FAIL →
        logged s (loop_recv_header E ctx s).2.2 = true) ∧
      ((loop_recv_data E ctx s).1 = FAIL → logged s (loop_recv_data E ctx s).2.2 = true) ∧
      ((loop_end_command E ctx s).1 = FAIL →
        logged s (loop_end_command E ctx s).2.2 = true) ∧
      ((E.ggate_context_ioctl s.trace ctx.ggate G_GATE_CMD_START ctx.ggio).1 ≠ FAILURE →
        (loop_start E ctx s).1 = FAIL → logged s (loop_start E ctx s).2.2 = true)) := by
  refine ⟨by decide, by decide, by decide, by decide, ?_⟩
  intro E ctx s
  exact ⟨loop_command_fail_logs E ctx s, loop_recv_header_fail_logs E ctx s,
    loop_recv_data_fail_logs E ctx s, loop_end_command_fail_logs E ctx s,
    loop_start_fail_logs E ctx s⟩

/-! ### C14 -/

/-- C14: whatever the collaborators return, whenever `main` returns, the
acquisition steps it attempted are an initial part of the acquisition sequence
(allocate ggate, allocate nbd, open ggate, create the nbd socket, connect nbd,
create the device) and the release steps it ran are a suffix of the release
sequence (destroy the device, send the disconnect notice, shut nbd down, close
nbd, close ggate, free nbd, free ggate); and the release sequence undoes the
acquisition sequence in reverse order, the notice and the shutdown both belonging
to the connection. The `ggate_context_cancel` call in front of the destroy call
is not counted as a release step. -/
theorem release_order_reverses_acquisition (E : Collab) (fuel : Nat) (opts : List Char)
    (operands : List String) (s : Sys) (acq : List acquire_step)
    (rel : List release_step)
    (h : steps_of s (main E fuel opts operands s) = some (acq, rel)) :
    acq <+: acquisition_sequence ∧
    rel <:+ release_sequence ∧
    (release_sequence.map release_step.undoes).dedup = acquisition_sequence.reverse := by
  cases hm : main E fuel opts operands s with
  | none => simp [steps_of, hm] at h
  | some x =>
    obtain ⟨r, s'⟩ := x
    have ho := main_ordered E fuel opts operands s r s' hm
    simp only [steps_of, hm, Option.map_some', Option.some.injEq, Prod.mk.injEq] at h
    obtain ⟨ha, hr⟩ := h
    subst ha
    subst hr
    exact ⟨by simpa [acquisition_sequence] using ho.2.1, ho.2.2, by decide⟩

/-- C14 holds with its hypothesis met: the negotiation fails after the session
was connected, `main` has attempted the first five acquisition steps and runs the
release sequence from the disconnect notice on. -/
theorem release_order_reverses_acquisition_witness :
    steps_of sys0 (main (env_main [.nbd_client_negotiate 2]) 0 [] ["example.org"] sys0) =
      some ([.alloc_ggate, .alloc_nbd, .open_ggate, .socket_nbd, .connect_nbd],
        [.send_disconnect, .shutdown_nbd, .close_nbd, .close_ggate, .free_nbd,
         .free_ggate]) ∧
    ([acquire_step.alloc_ggate, .alloc_nbd, .open_ggate, .socket_nbd, .connect_nbd]
        <+: acquisition_sequence ∧
     [release_step.send_disconnect, .shutdown_nbd, .close_nbd, .close_ggate, .free_nbd,
        .free_ggate] <:+ release_sequence ∧
     (release_sequence.map release_step.undoes).dedup = acquisition_sequence.reverse) :=
  ⟨by decide,
   release_order_reverses_acquisition (env_main [.nbd_client_negotiate 2]) 0 []
     ["example.org"] sys0 _ _ (by decide)⟩

/-! ### C15 -/

/-- C15, as amended: when `main` reaches `run_loop` (every setup stage
succeeded), `sigaction` does not fail, `run_loop` returns and the disconnect
notice of the teardown does not fail, the exit status of `main` is the return
value of `run_loop`.  That value is `SUCCESS` (0) when the loop ended because a
pass read the flag as set.  It is `FAILURE`, which is not 0, when a reply header
receive returned a failure (neither `SUCCESS` nor `EINVAL`), or the reply data
receive returned `FAILURE`, while the flag was unset and no signal arrived: the
transition logs and returns `FAIL`. -/
theorem exit_status_after_loop (E : Collab) (fuel : Nat) (ggate nbd : Nat)
    (s : Sys) (retval : Int) (s1 : Sys)
    (hsigaction : E.int_call s.trace .sigaction_SIGINT ≠ FAILURE)
    (hloop : run_loop E fuel ggate nbd s = some (retval, s1))
    (hnotice : E.int_call
      ((after_loop E s1).trace ++
        [.ggate_context_cancel ggate 0, .ggate_context_destroy_device ggate true])
      (.nbd_client_send_disconnect nbd) ≠ FAILURE) :
    exit_status (main_serve E fuel ggate nbd s) = some retval ∧
    (∀ n state1 ctx1 sb,
      run_cycles E ggate n SETUP
          (loop_init E ggate nbd E.buf E.MAXPHYS (s.emit .sigaction_SIGINT)).2.1
          (loop_init E ggate nbd E.buf E.MAXPHYS (s.emit .sigaction_SIGINT)).2.2 =
        .next state1 ctx1 sb →
      (read_disconnect E sb).1 = true → retval = 0) ∧
    ((∀ tr k, E.sigint tr k = false) →
      ∀ n ctx1 sb r seq2,
        run_cycles E ggate n SETUP
            (loop_init E ggate nbd E.buf E.MAXPHYS (s.emit .sigaction_SIGINT)).2.1
            (loop_init E ggate nbd E.buf E.MAXPHYS (s.emit .sigaction_SIGINT)).2.2 =
          .next RECV_HEADER ctx1 sb →
        sb.disconnect = false →
        E.nbd_client_recv_reply_header (sb.trace ++ [.transition RECV_HEADER]) ctx1.nbd
          ctx1.ggio.gctl_seq = (r, seq2) →
        r ≠ SUCCESS → r ≠ EINVAL → retval = FAILURE) ∧
    ((∀ tr k, E.sigint tr k = false) →
      ∀ n ctx1 sb,
        run_cycles E ggate n SETUP
            (loop_init E ggate nbd E.buf E.MAXPHYS (s.emit .sigaction_SIGINT)).2.1
            (loop_init E ggate nbd E.buf E.MAXPHYS (s.emit .sigaction_SIGINT)).2.2 =
          .next RECV_DATA ctx1 sb →
        sb.disconnect = false →
        E.int_call (sb.trace ++ [.transition RECV_DATA])
          (.nbd_client_recv_reply_data ctx1.nbd ctx1.ggio.gctl_length ctx1.buflen
            ctx1.buf) = FAILURE →
        retval = FAILURE) ∧
    FAILURE ≠ 0 := by
  have hfrom := hloop
  rw [run_loop_installed E fuel ggate nbd s hsigaction] at hfrom
  refine ⟨?_, ?_, ?_, ?_, by decide⟩
  · rw [main_serve_eq E fuel ggate nbd s s1 retval hloop, main_destroy_eq,
      retval_after_disconnect_ok E _ _ _ hnotice]
    rfl
  · intro n state1 ctx1 sb hrun hflag
    exact run_loop_from_flag_observed E ggate fuel n SETUP _ _ _ state1 ctx1 sb hfrom hrun
      hflag
  · intro hsig n ctx1 sb r seq2 hrun hflag hh hr1 hr2
    exact run_loop_from_transition_failed E ggate fuel n SETUP _ _ _ RECV_HEADER ctx1 sb
      _ _ hfrom hrun (by decide) (by decide) hflag hsig
      (loop_recv_header_failed_unset E ctx1 _ r seq2 hh hr1 hr2 rfl hsig) rfl
  · intro hsig n ctx1 sb hrun hflag hd
    exact run_loop_from_transition_failed E ggate fuel n SETUP _ _ _ RECV_DATA ctx1 sb
      _ _ hfrom hrun (by decide) (by decide) hflag hsig
      (loop_recv_data_failed_unset E ctx1 _ hd rfl hsig) rfl

/-- Witness of C15 as amended: the flag is set when the loop starts, `run_loop`
returns `SUCCESS`, the disconnect notice succeeds and the exit status is 0. -/
theorem exit_status_after_loop_witness :
    ((env_main []).int_call sys_flagged.trace .sigaction_SIGINT ≠ FAILURE ∧
     run_loop (env_main []) 1 1 2 sys_flagged =
       some (SUCCESS,
         { trace := [.sigaction_SIGINT, .ggate_context_get_unit 1,
             .nbd_client_set_disconnect 2 true, .ggate_context_cancel 1 0],
           reads := 1, disconnect := true })) ∧
    exit_status (main_serve (env_main []) 1 1 2 sys_flagged) = some SUCCESS :=
  ⟨by decide,
   (exit_status_after_loop (env_main []) 1 1 2 sys_flagged SUCCESS
      { trace := [.sigaction_SIGINT, .ggate_context_get_unit 1,
          .nbd_client_set_disconnect 2 true, .ggate_context_cancel 1 0],
        reads := 1, disconnect := true }
      (by decide) (by decide) (by decide)).1⟩

set_option maxRecDepth 16384

/-- C15 as stated fails: every setup stage succeeds, the device hands out a
read request, the reply header receive returns `FAILURE` while the flag is
unset (the remote end is gone), the disconnect notice of the teardown succeeds,
and `main` returns `FAILURE` (-1), not 0. -/
theorem remote_disconnect_counterexample :
    main env_remote_gone 6 ['f'] ["example.org"] sys0 =
      some (FAILURE,
        { trace :=
            [.cap_init, .cap_service_open 3 "system.syslog", .isatty_stderr,
             .cap_openlog 4 (some ("example.org", "10809"))
               "LOG_NDELAY | LOG_CONS | LOG_PID" "LOG_DAEMON",
             .ggate_load_module, .ggate_context_alloc, .nbd_client_alloc,
             .ggate_context_init 1, .ggate_context_open 1, .nbd_client_init 2,
             .cap_service_open 3 "system.dns", .cap_close 3,
             .cap_getaddrinfo 5 "example.org" "10809", .cap_close 5,
             .nbd_client_connect 2 6, .freeaddrinfo 6, .close 0,
             .caph_limit_stdio, .caph_enter_casper, .ggate_context_rights_limit 1,
             .nbd_client_rights_limit 2, .nbd_client_negotiate 2, .nbd_client_get_size 2,
             .ggate_context_create_device 1 "example.org" "10809" "" 1048576 512 0,
             .sigaction_SIGINT, .ggate_context_get_unit 1,
             .transition SETUP, .transition START,
             .ggate_context_ioctl 1 G_GATE_CMD_START
               { gctl_version := 3, gctl_unit := 0, gctl_seq := 0, gctl_cmd := 0,
                 gctl_offset := 0, gctl_length := 131072, gctl_data := 4096,
                 gctl_error := 0 },
             .transition DO_CMD, .nbd_client_send_read 2 7 0 4096,
             .transition RECV_HEADER, .nbd_client_recv_reply_header 2 7,
             .log LOG_ERR "%s: error receiving reply header" [.str "loop_recv_header"],
             .ggate_context_cancel 1 7,
             .ggate_context_cancel 1 0, .ggate_context_destroy_device 1 true,
             .nbd_client_send_disconnect 2, .nbd_client_shutdown 2,
             .nbd_client_close 2, .ggate_context_close 1,
             .nbd_client_free 2, .ggate_context_free 1, crit_log],
          reads := 7, disconnect := false }) ∧
    FAILURE ≠ 0 := by
  decide

/-! ### C16 -/

/-- C16: whenever a stage of `main` from handle allocation on fails
(allocation, `ggate_context_open`, `nbd_client_init`, the DNS service open, the
address lookup, `nbd_client_connect`, one of the four privilege restrictions,
the negotiation, `ggate_context_create_device`, `daemon`), whenever `run_loop`
returns `FAILURE`, and whenever the disconnect notice of the teardown fails,
`main` returns a non-zero exit status and its last call before returning is the
log of the final diagnostic "device connection failed".  Each statement is for
every state `s` in which `main` reaches the stage. -/
theorem failure_exit_status (E : Collab) (fuel : Nat) (daemonize : Bool)
    (host port : String) (system ggate nbd system_dns ai : Nat) (retval : Int)
    (s s1 : Sys) :
    ((E.nat_call s.trace .ggate_context_alloc = 0 ∨
        E.nat_call (s.trace ++ [.ggate_context_alloc]) .nbd_client_alloc = 0) →
      fails_with_diagnostic (main_alloc E fuel daemonize host port system s)) ∧
    (E.int_call (s.trace ++ [.ggate_context_init ggate]) (.ggate_context_open ggate)
        = FAILURE →
      fails_with_diagnostic (main_open E fuel daemonize host port system ggate nbd s)) ∧
    (E.int_call s.trace (.nbd_client_init nbd) = FAILURE →
      fails_with_diagnostic (main_socket E fuel daemonize host port system ggate nbd s)) ∧
    (E.nat_call s.trace (.cap_service_open system "system.dns") = 0 →
      fails_with_diagnostic (main_dns E fuel daemonize host port system ggate nbd s)) ∧
    (E.int_call s.trace (.cap_getaddrinfo system_dns host port) ≠ SUCCESS →
      fails_with_diagnostic
        (main_lookup E fuel daemonize host port ggate nbd system_dns s)) ∧
    (E.int_call s.trace (.nbd_client_connect nbd ai) = FAILURE →
      fails_with_diagnostic (main_connect E fuel daemonize host port ggate nbd ai s)) ∧
    (E.int_call (s.trace ++ [.close 0]) .caph_limit_stdio = FAILURE ∨
      E.int_call (s.trace ++ [.close 0, .caph_limit_stdio]) .caph_enter_casper
        = FAILURE ∨
      E.int_call (s.trace ++ [.close 0, .caph_limit_stdio, .caph_enter_casper])
        (.ggate_context_rights_limit ggate) = FAILURE ∨
      E.int_call
        (s.trace ++ [.close 0, .caph_limit_stdio, .caph_enter_casper,
          .ggate_context_rights_limit ggate])
        (.nbd_client_rights_limit nbd) = FAILURE →
      fails_with_diagnostic (main_restrict E fuel daemonize host port ggate nbd s)) ∧
    (E.int_call s.trace (.nbd_client_negotiate nbd) = FAILURE →
      fails_with_diagnostic (main_negotiate E fuel daemonize host port ggate nbd s)) ∧
    (E.int_call (s.trace ++ [.nbd_client_get_size nbd])
        (.ggate_context_create_device ggate host port ""
          (E.nat_call s.trace (.nbd_client_get_size nbd)) DEFAULT_SECTOR_SIZE
          DEFAULT_GGATE_FLAGS) = FAILURE →
      fails_with_diagnostic
        (main_create_device E fuel daemonize host port ggate nbd s)) ∧
    (E.int_call s.trace (.daemon 0 0) = FAILURE →
      fails_with_diagnostic (main_daemonize E fuel true ggate nbd s)) ∧
    (run_loop E fuel ggate nbd s = some (FAILURE, s1) →
      fails_with_diagnostic (main_serve E fuel ggate nbd s)) ∧
    (E.int_call s.trace (.nbd_client_send_disconnect nbd) = FAILURE →
      fails_with_diagnostic (some (main_disconnect E ggate nbd retval s))) ∧
    (E.int_call
        (s.trace ++ [.ggate_context_cancel ggate 0,
          .ggate_context_destroy_device ggate true])
        (.nbd_client_send_disconnect nbd) = FAILURE →
      fails_with_diagnostic (some (main_destroy E ggate nbd retval s))) := by
  have h1 : EXIT_FAILURE ≠ 0 := by decide
  have hF : FAILURE ≠ 0 := by decide
  refine ⟨?_, ?_, ?_, ?_, ?_, ?_, ?_, ?_, ?_, ?_, ?_, ?_, ?_⟩
  · intro h
    simp only [main_alloc, Sys.emit, h, if_true]
    exact main_cleanup_fails _ _ _ _ h1
  · intro h
    simp only [main_open, Sys.emit, h, if_true]
    exact main_close_fails _ _ _ _ h1
  · intro h
    simp only [main_socket, h, if_true]
    exact main_close_fails _ _ _ _ h1
  · intro h
    simp only [main_dns, h, if_true]
    exact main_close_fails _ _ _ _ h1
  · intro h
    simp only [main_lookup, ne_eq, h, not_false_eq_true, if_true]
    exact main_close_fails _ _ _ _ h1
  · intro h
    simp only [main_connect, h, if_true]
    exact main_close_fails _ _ _ _ h1
  · intro h
    unfold main_restrict
    simp only [Sys.emit, List.append_assoc, List.singleton_append, List.cons_append,
      List.nil_append]
    split_ifs with ha hb hc hd
    · exact main_disconnect_fails E _ _ _ _ h1
    · exact main_disconnect_fails E _ _ _ _ h1
    · exact main_disconnect_fails E _ _ _ _ h1
    · exact main_disconnect_fails E _ _ _ _ h1
    · exact absurd h (by simp [ha, hb, hc, hd])
  · intro h
    simp only [main_negotiate, h, if_true]
    exact main_disconnect_fails E _ _ _ _ h1
  · intro h
    simp only [main_create_device, Sys.emit, h, if_true]
    exact main_destroy_fails E _ _ _ _ h1
  · intro h
    simp only [main_daemonize, h, if_true]
    exact main_close_fails _ _ _ _ h1
  · intro h
    rw [main_serve_eq E fuel ggate nbd s s1 FAILURE h]
    exact main_destroy_fails E _ _ _ _ hF
  · exact main_disconnect_notice_fails E ggate nbd retval s
  · exact main_destroy_notice_fails E ggate nbd retval s

/-- Witness of C16: the servicing loop fails (the `G_GATE_CMD_START` ioctl
returns `FAILURE`), so `run_loop` returns `FAILURE`. -/
theorem failure_exit_status_witness :
    run_loop env_ioctl_fails 3 1 2 sys0 =
      some (FAILURE,
        { trace := [.sigaction_SIGINT, .ggate_context_get_unit 1, .transition SETUP,
            .transition START,
            .ggate_context_ioctl 1 G_GATE_CMD_START (setup_ggio ctx_init),
            .ggate_context_cancel 1 0],
          reads := 3, disconnect := false }) ∧
    fails_with_diagnostic (main_serve env_ioctl_fails 3 1 2 sys0) :=
  ⟨by decide,
   (failure_exit_status env_ioctl_fails 3 true "example.org" "10809" 3 1 2 5 6 0 sys0
      { trace := [.sigaction_SIGINT, .ggate_context_get_unit 1, .transition SETUP,
          .transition START,
          .ggate_context_ioctl 1 G_GATE_CMD_START (setup_ggio ctx_init),
          .ggate_context_cancel 1 0],
        reads := 3, disconnect := false }).2.2.2.2.2.2.2.2.2.2.1 (by decide)⟩

/-! ### C17 -/

/-- C17: for each of the four serviced kinds `nbdcmd` makes exactly one session
call, chosen by kind: read gives `nbd_client_send_read`, write
`nbd_client_send_write`, delete `nbd_client_send_trim`, flush
`nbd_client_send_flush`.  The call gets the sequence, offset and length of the
request in the context; flush gets the sequence only, write also the capacity
and the address of the transfer buffer.  The value `nbdcmd` returns to
`loop_command` is the value of that call.  The request in the context is the one
the device delivered: `loop_start` stores what the `G_GATE_CMD_START` ioctl
left, and changes neither the session handle nor the buffer. -/
theorem nbdcmd_dispatch (E : Collab) (ctx : loop_context) (s : Sys) :
    (ctx.ggio.gctl_cmd = BIO_READ →
      nbdcmd E ctx s =
        (E.int_call s.trace
           (.nbd_client_send_read ctx.nbd ctx.ggio.gctl_seq ctx.ggio.gctl_offset
             ctx.ggio.gctl_length),
         { s with trace := s.trace ++
            [.nbd_client_send_read ctx.nbd ctx.ggio.gctl_seq ctx.ggio.gctl_offset
              ctx.ggio.gctl_length] })) ∧
    (ctx.ggio.gctl_cmd = BIO_WRITE →
      nbdcmd E ctx s =
        (E.int_call s.trace
           (.nbd_client_send_write ctx.nbd ctx.ggio.gctl_seq ctx.ggio.gctl_offset
             ctx.ggio.gctl_length ctx.buflen ctx.buf),
         { s with trace := s.trace ++
            [.nbd_client_send_write ctx.nbd ctx.ggio.gctl_seq ctx.ggio.gctl_offset
              ctx.ggio.gctl_length ctx.buflen ctx.buf] })) ∧
    (ctx.ggio.gctl_cmd = BIO_DELETE →
      nbdcmd E ctx s =
        (E.int_call s.trace
           (.nbd_client_send_trim ctx.nbd ctx.ggio.gctl_seq ctx.ggio.gctl_offset
             ctx.ggio.gctl_length),
         { s with trace := s.trace ++
            [.nbd_client_send_trim ctx.nbd ctx.ggio.gctl_seq ctx.ggio.gctl_offset
              ctx.ggio.gctl_length] })) ∧
    (ctx.ggio.gctl_cmd = BIO_FLUSH →
      nbdcmd E ctx s =
        (E.int_call s.trace (.nbd_client_send_flush ctx.nbd ctx.ggio.gctl_seq),
         { s with trace := s.trace ++
            [.nbd_client_send_flush ctx.nbd ctx.ggio.gctl_seq] })) ∧
    (loop_start E ctx s).2.1 =
      { ctx with ggio :=
          (E.ggate_context_ioctl s.trace ctx.ggate G_GATE_CMD_START ctx.ggio).2 } := by
  refine ⟨?_, ?_, ?_, ?_, ?_⟩
  · intro h
    simp [nbdcmd, nbdcmd_call, h, Sys.emit]
  · intro h
    simp [nbdcmd, nbdcmd_call, h, Sys.emit, BIO_WRITE, BIO_READ]
  · intro h
    simp [nbdcmd, nbdcmd_call, h, Sys.emit, BIO_DELETE, BIO_WRITE, BIO_READ]
  · intro h
    simp [nbdcmd, nbdcmd_call, h, Sys.emit, BIO_FLUSH, BIO_DELETE, BIO_WRITE, BIO_READ]
  · unfold loop_start ggioctl
    simp only
    split_ifs <;> rfl

/-- Witness of C17: a write request of 512 bytes at offset 8192. -/
theorem nbdcmd_dispatch_witness :
    (ctx_of BIO_WRITE 8192 512).ggio.gctl_cmd = BIO_WRITE ∧
    nbdcmd env_quiet (ctx_of BIO_WRITE 8192 512) sys0 =
      (env_quiet.int_call sys0.trace
         (.nbd_client_send_write (ctx_of BIO_WRITE 8192 512).nbd
           (ctx_of BIO_WRITE 8192 512).ggio.gctl_seq
           (ctx_of BIO_WRITE 8192 512).ggio.gctl_offset
           (ctx_of BIO_WRITE 8192 512).ggio.gctl_length
           (ctx_of BIO_WRITE 8192 512).buflen (ctx_of BIO_WRITE 8192 512).buf),
       { sys0 with trace := sys0.trace ++
          [.nbd_client_send_write (ctx_of BIO_WRITE 8192 512).nbd
            (ctx_of BIO_WRITE 8192 512).ggio.gctl_seq
            (ctx_of BIO_WRITE 8192 512).ggio.gctl_offset
            (ctx_of BIO_WRITE 8192 512).ggio.gctl_length
            (ctx_of BIO_WRITE 8192 512).buflen (ctx_of BIO_WRITE 8192 512).buf] }) :=
  ⟨by decide, (nbdcmd_dispatch env_quiet (ctx_of BIO_WRITE 8192 512) sys0).2.1 (by decide)⟩

/-! ### C18 -/

/-- C18: `loop_command` maps every result of `nbdcmd`: `SUCCESS` gives
`RECV_HEADER` with the context untouched; `EOPNOTSUPP` sets
`gctl_error = EOPNOTSUPP` and gives `END_CMD`; `FAILURE` gives `FAIL` after the
log "nbd client error"; every other integer gives `FAIL` after the log
"unhandled nbd command result" with that integer.  Outside the `EOPNOTSUPP` case
the context, and so `gctl_error`, is unchanged. -/
theorem loop_command_result_map (E : Collab) (ctx : loop_context) (s : Sys) :
    ((nbdcmd E ctx s).1 = SUCCESS →
      loop_command E ctx s = (RECV_HEADER, ctx, (nbdcmd E ctx s).2)) ∧
    ((nbdcmd E ctx s).1 = EOPNOTSUPP →
      loop_command E ctx s =
        (END_CMD, { ctx with ggio := { ctx.ggio with gctl_error := EOPNOTSUPP } },
         (nbdcmd E ctx s).2)) ∧
    ((nbdcmd E ctx s).1 = FAILURE →
      loop_command E ctx s =
        (FAIL, ctx,
         { (nbdcmd E ctx s).2 with trace := (nbdcmd E ctx s).2.trace ++
            [.log LOG_ERR "%s: nbd client error" [.str "loop_command"]] })) ∧
    ((nbdcmd E ctx s).1 ≠ SUCCESS → (nbdcmd E ctx s).1 ≠ EOPNOTSUPP →
      (nbdcmd E ctx s).1 ≠ FAILURE →
      loop_command E ctx s =
        (FAIL, ctx,
         { (nbdcmd E ctx s).2 with trace := (nbdcmd E ctx s).2.trace ++
            [.log LOG_ERR "%s: unhandled nbd command result: %d"
              [.str "loop_command", .int (nbdcmd E ctx s).1]] })) ∧
    ((nbdcmd E ctx s).1 ≠ EOPNOTSUPP → (loop_command E ctx s).2.1 = ctx) := by
  refine ⟨?_, ?_, ?_, ?_, ?_⟩
  · intro h
    simp [loop_command, h]
  · intro h
    simp [loop_command, h, EOPNOTSUPP, SUCCESS]
  · intro h
    simp [loop_command, h, EOPNOTSUPP, SUCCESS, FAILURE, log, Sys.emit]
  · intro h1 h2 h3
    simp [loop_command, h1, h2, h3, log, Sys.emit]
  · intro h
    unfold loop_command
    simp only
    split_ifs <;> rfl

/-- Witness of C18: the session answers a read with `MOREDATA`. -/
theorem loop_command_result_map_witness :
    ((nbdcmd { env_quiet with int_call := fun _ _ => MOREDATA } (ctx_of BIO_READ 0 4096)
        sys0).1 ≠ SUCCESS ∧
     (nbdcmd { env_quiet with int_call := fun _ _ => MOREDATA } (ctx_of BIO_READ 0 4096)
        sys0).1 ≠ EOPNOTSUPP ∧
     (nbdcmd { env_quiet with int_call := fun _ _ => MOREDATA } (ctx_of BIO_READ 0 4096)
        sys0).1 ≠ FAILURE) ∧
    loop_command { env_quiet with int_call := fun _ _ => MOREDATA } (ctx_of BIO_READ 0 4096)
        sys0 =
      (FAIL, ctx_of BIO_READ 0 4096,
       { (nbdcmd { env_quiet with int_call := fun _ _ => MOREDATA }
            (ctx_of BIO_READ 0 4096) sys0).2 with
         trace := (nbdcmd { env_quiet with int_call := fun _ _ => MOREDATA }
            (ctx_of BIO_READ 0 4096) sys0).2.trace ++
          [.log LOG_ERR "%s: unhandled nbd command result: %d"
            [.str "loop_command",
             .int (nbdcmd { env_quiet with int_call := fun _ _ => MOREDATA }
               (ctx_of BIO_READ 0 4096) sys0).1]] }) :=
  ⟨by decide,
   (loop_command_result_map { env_quiet with int_call := fun _ _ => MOREDATA }
      (ctx_of BIO_READ 0 4096) sys0).2.2.2.1 (by decide) (by decide) (by decide)⟩

/-! ### C19 -/

/-- C19: when the ioctl itself does not return `FAILURE` (in particular when it
returns `SUCCESS`), `loop_start` and `loop_end_command` decide by the
`gctl_error` the device left.  `ECANCELED` gives `FINISHED` in both.  At
`loop_start` every code other than 0 and `ECANCELED` (so `ENXIO`, and
`EOPNOTSUPP` too) gives `FAIL` after a log, and the next state is `DO_CMD`
exactly when the code is 0.  At `loop_end_command` 0 and `EOPNOTSUPP` give
`SETUP`, and every code other than 0, `EOPNOTSUPP` and `ECANCELED` (so `ENXIO`)
gives `FAIL` after a log. -/
theorem device_error_outcomes (E : Collab) (ctx : loop_context) (s : Sys)
    (rs rd : Int) (gs gd : g_gate_ctl_io)
    (hs : E.ggate_context_ioctl s.trace ctx.ggate G_GATE_CMD_START ctx.ggio = (rs, gs))
    (hd : E.ggate_context_ioctl s.trace ctx.ggate G_GATE_CMD_DONE ctx.ggio = (rd, gd))
    (hrs : rs ≠ FAILURE) (hrd : rd ≠ FAILURE) :
    (gs.gctl_error = ECANCELED →
      loop_start E ctx s =
        (FINISHED, { ctx with ggio := gs },
         { s with trace := s.trace ++
            [.ggate_context_ioctl ctx.ggate G_GATE_CMD_START ctx.ggio] })) ∧
    (gs.gctl_error ≠ 0 → gs.gctl_error ≠ ECANCELED →
      loop_start E ctx s =
        (FAIL, { ctx with ggio := gs },
         { s with trace := s.trace ++
            [.ggate_context_ioctl ctx.ggate G_GATE_CMD_START ctx.ggio,
             .log LOG_ERR "%s: ggate control operation failed: %s"
               [.str "loop_start", .strerror gs.gctl_error]] })) ∧
    ((loop_start E ctx s).1 = DO_CMD ↔ gs.gctl_error = 0) ∧
    (gs.gctl_error = EOPNOTSUPP ∨ gs.gctl_error = ENXIO → (loop_start E ctx s).1 = FAIL) ∧
    (gd.gctl_error = ECANCELED →
      loop_end_command E ctx s =
        (FINISHED, { ctx with ggio := gd },
         { s with trace := s.trace ++
            [.ggate_context_ioctl ctx.ggate G_GATE_CMD_DONE ctx.ggio] })) ∧
    (gd.gctl_error ≠ 0 → gd.gctl_error ≠ EOPNOTSUPP → gd.gctl_error ≠ ECANCELED →
      loop_end_command E ctx s =
        (FAIL, { ctx with ggio := gd },
         { s with trace := s.trace ++
            [.ggate_context_ioctl ctx.ggate G_GATE_CMD_DONE ctx.ggio,
             .log LOG_ERR "%s: ggate control operation failed: %s"
               [.str "loop_end_command", .strerror gd.gctl_error]] })) ∧
    (gd.gctl_error = 0 ∨ gd.gctl_error = EOPNOTSUPP →
      loop_end_command E ctx s =
        (SETUP, { ctx with ggio := gd },
         { s with trace := s.trace ++
            [.ggate_context_ioctl ctx.ggate G_GATE_CMD_DONE ctx.ggio] })) ∧
    (gd.gctl_error = ENXIO → (loop_end_command E ctx s).1 = FAIL) := by
  refine ⟨?_, ?_, ?_, ?_, ?_, ?_, ?_, ?_⟩
  · intro h
    simp [loop_start, ggioctl, hs, hrs, h, ECANCELED, SUCCESS, Sys.emit]
  · intro h0 h1
    simp [loop_start, ggioctl, hs, hrs, h0, h1, SUCCESS, Sys.emit, log]
  · unfold loop_start
    simp only [ggioctl, hs, hrs, if_false, SUCCESS]
    split_ifs with h0 h1 <;> simp [h0]
  · intro h
    rcases h with h | h <;>
      simp [loop_start, ggioctl, hs, hrs, h, EOPNOTSUPP, ENXIO, ECANCELED, SUCCESS]
  · intro h
    simp [loop_end_command, ggioctl, hd, hrd, h, ECANCELED, EOPNOTSUPP, SUCCESS, Sys.emit]
  · intro h0 h1 h2
    simp [loop_end_command, ggioctl, hd, hrd, h0, h1, h2, SUCCESS, Sys.emit, log]
  · intro h
    simp [loop_end_command, ggioctl, hd, hrd, h, SUCCESS, Sys.emit]
  · intro h
    simp [loop_end_command, ggioctl, hd, hrd, h, EOPNOTSUPP, ENXIO, ECANCELED, SUCCESS]

/-- Witness of C19: the device leaves `EOPNOTSUPP` at `G_GATE_CMD_START`, which
is `FAIL` after a log, and `ENXIO` at `G_GATE_CMD_DONE`. -/
theorem device_error_outcomes_witness :
    ((0 : Int) ≠ FAILURE ∧
     { (ctx_of BIO_READ 0 4096).ggio with gctl_error := EOPNOTSUPP }.gctl_error ≠ 0 ∧
     { (ctx_of BIO_READ 0 4096).ggio with gctl_error := EOPNOTSUPP }.gctl_error
       ≠ ECANCELED) ∧
    loop_start (env_device_error EOPNOTSUPP ENXIO) (ctx_of BIO_READ 0 4096) sys0 =
      (FAIL,
       { ctx_of BIO_READ 0 4096 with
          ggio := { (ctx_of BIO_READ 0 4096).ggio with gctl_error := EOPNOTSUPP } },
       { sys0 with trace := sys0.trace ++
          [.ggate_context_ioctl (ctx_of BIO_READ 0 4096).ggate G_GATE_CMD_START
             (ctx_of BIO_READ 0 4096).ggio,
           .log LOG_ERR "%s: ggate control operation failed: %s"
             [.str "loop_start",
              .strerror
                { (ctx_of BIO_READ 0 4096).ggio with gctl_error := EOPNOTSUPP }.gctl_error]] }) :=
  ⟨by decide,
   (device_error_outcomes (env_device_error EOPNOTSUPP ENXIO) (ctx_of BIO_READ 0 4096) sys0
      0 0 { (ctx_of BIO_READ 0 4096).ggio with gctl_error := EOPNOTSUPP }
      { (ctx_of BIO_READ 0 4096).ggio with gctl_error := ENXIO }
      rfl rfl (by decide) (by decide)).2.1 (by decide) (by decide)⟩

/-! ### C20 -/

/-- C20: at a pass of `run_loop` that reads the flag as unset, the state `FAIL`
makes `run_loop` call `ggate_context_cancel` with the current `gctl_seq` and
return `FAILURE`, and the state `FINISHED` makes it return `SUCCESS`; in both
cases nothing else is called (no `nbd_client_set_disconnect`, and for
`FINISHED` no cancel).  Hence, when `sigaction` did not fail, a return value of
`run_loop` is `FAILURE` exactly when some pass, with the flag read as unset, ran
a transition that returned `FAIL`, and the following pass read the flag as
unset. -/
theorem run_loop_terminal_outcomes (E : Collab) (fuel : Nat) (ggate nbd : Nat)
    (ctx : loop_context) (sb s : Sys) (r : Int) (s' : Sys)
    (hflag : (read_disconnect E sb).1 = false)
    (hsig : E.int_call s.trace .sigaction_SIGINT ≠ FAILURE)
    (hret : run_loop E fuel ggate nbd s = some (r, s')) :
    run_loop_from E ggate (fuel + 1) FAIL ctx sb =
      some (FAILURE,
        { trace := sb.trace ++ [.ggate_context_cancel ggate ctx.ggio.gctl_seq],
          reads := sb.reads + 1, disconnect := false }) ∧
    run_loop_from E ggate (fuel + 1) FINISHED ctx sb =
      some (SUCCESS, { trace := sb.trace, reads := sb.reads + 1, disconnect := false }) ∧
    (r = FAILURE ↔
      ∃ n state1 ctx1 s1,
        run_cycles E ggate n SETUP
            (loop_init E ggate nbd E.buf E.MAXPHYS (s.emit .sigaction_SIGINT)).2.1
            (loop_init E ggate nbd E.buf E.MAXPHYS (s.emit .sigaction_SIGINT)).2.2 =
          .next state1 ctx1 s1 ∧
        state1 ≠ FINISHED ∧ state1 ≠ FAIL ∧ (read_disconnect E s1).1 = false ∧
        (call_transition E state1 ctx1
          ((read_disconnect E s1).2.emit (.transition state1))).1 = FAIL ∧
        (read_disconnect E
          (call_transition E state1 ctx1
            ((read_disconnect E s1).2.emit (.transition state1))).2.2).1 = false) := by
  refine ⟨?_, ?_, ?_⟩
  · rw [run_loop_from, cycle_fail_unset E ggate ctx sb hflag]
  · rw [run_loop_from, cycle_finished_unset E ggate ctx sb hflag]
  · rw [run_loop_installed E fuel ggate nbd s hsig] at hret
    exact run_loop_from_failure_iff E ggate fuel SETUP _ _ r s' (by decide) hret

/-- Witness of C20: the `G_GATE_CMD_START` ioctl fails, `loop_start` returns
`FAIL`, and `run_loop` cancels and returns `FAILURE`. -/
theorem run_loop_terminal_outcomes_witness :
    ((read_disconnect env_ioctl_fails sys0).1 = false ∧
     env_ioctl_fails.int_call sys0.trace .sigaction_SIGINT ≠ FAILURE ∧
     run_loop env_ioctl_fails 3 1 2 sys0 =
       some (FAILURE,
         { trace := [.sigaction_SIGINT, .ggate_context_get_unit 1, .transition SETUP,
             .transition START,
             .ggate_context_ioctl 1 G_GATE_CMD_START (setup_ggio ctx_init),
             .ggate_context_cancel 1 0],
           reads := 3, disconnect := false })) ∧
    (run_loop_from env_ioctl_fails 1 (3 + 1) FAIL ctx_init sys0 =
      some (FAILURE,
        { trace := sys0.trace ++ [.ggate_context_cancel 1 ctx_init.ggio.gctl_seq],
          reads := sys0.reads + 1, disconnect := false }) ∧
    run_loop_from env_ioctl_fails 1 (3 + 1) FINISHED ctx_init sys0 =
      some (SUCCESS,
        { trace := sys0.trace, reads := sys0.reads + 1, disconnect := false }) ∧
    (FAILURE = FAILURE ↔
      ∃ n state1 ctx1 s1,
        run_cycles env_ioctl_fails 1 n SETUP
            (loop_init env_ioctl_fails 1 2 env_ioctl_fails.buf env_ioctl_fails.MAXPHYS
              (sys0.emit .sigaction_SIGINT)).2.1
            (loop_init env_ioctl_fails 1 2 env_ioctl_fails.buf env_ioctl_fails.MAXPHYS
              (sys0.emit .sigaction_SIGINT)).2.2 =
          .next state1 ctx1 s1 ∧
        state1 ≠ FINISHED ∧ state1 ≠ FAIL ∧
        (read_disconnect env_ioctl_fails s1).1 = false ∧
        (call_transition env_ioctl_fails state1 ctx1
          ((read_disconnect env_ioctl_fails s1).2.emit (.transition state1))).1 = FAIL ∧
        (read_disconnect env_ioctl_fails
          (call_transition env_ioctl_fails state1 ctx1
            ((read_disconnect env_ioctl_fails s1).2.emit
              (.transition state1))).2.2).1 = false)) :=
  ⟨by decide,
   run_loop_terminal_outcomes env_ioctl_fails 3 1 2 ctx_init sys0 sys0 FAILURE
     { trace := [.sigaction_SIGINT, .ggate_context_get_unit 1, .transition SETUP,
         .transition START,
         .ggate_context_ioctl 1 G_GATE_CMD_START (setup_ggio ctx_init),
         .ggate_context_cancel 1 0],
       reads := 3, disconnect := false }
     (by decide) (by decide) (by decide)⟩

end NbdClient
